import Mathlib

/-!
# libfsntfs attribute facade

A shallow embedding of `libfsntfs/libfsntfs_attribute.c`: the attribute facade
that binds either an MFT attribute or an attribute-list entry, compares
facades by file reference and materializes the typed attribute value.

C pointers are `Option`s (`none` is `NULL`), machine integers are `Nat`s, a
function that returns an `int` status and reports through `libcerror_error_set`
is a function into a record holding the status, the error it set and the
state it leaves behind.
-/

namespace Libfsntfs

/-! ## Errors -/

/-- The libcerror codes handed to `libcerror_error_set` in
`libfsntfs_attribute.c`; the name of a code carries its domain. -/
inductive libcerror_code where
  | LIBCERROR_ARGUMENT_ERROR_INVALID_VALUE
  | LIBCERROR_RUNTIME_ERROR_VALUE_ALREADY_SET
  | LIBCERROR_RUNTIME_ERROR_INITIALIZE_FAILED
  | LIBCERROR_RUNTIME_ERROR_FINALIZE_FAILED
  | LIBCERROR_RUNTIME_ERROR_GET_FAILED
  | LIBCERROR_RUNTIME_ERROR_SET_FAILED
  | LIBCERROR_RUNTIME_ERROR_GENERIC
  | LIBCERROR_RUNTIME_ERROR_UNSUPPORTED_VALUE
  | LIBCERROR_RUNTIME_ERROR_VALUE_MISSING
  | LIBCERROR_MEMORY_ERROR_INSUFFICIENT
  | LIBCERROR_MEMORY_ERROR_SET_FAILED
  | LIBCERROR_IO_ERROR_READ_FAILED
  deriving DecidableEq, Repr

/-- The error a function of `libfsntfs_attribute.c` sets itself when it fails:
the code and the format string of its own `libcerror_error_set` call. Errors
set further down by a collaborator are not part of the model. -/
structure libcerror_error where
  code : libcerror_code
  message : String
  deriving DecidableEq, Repr

/-! ## Data model -/

/-- The MFT attribute of `libfsntfs_mft_attribute.h`; `name` is the UTF-16
little-endian byte stream of the name, `none` when the pointer is `NULL`. -/
structure libfsntfs_mft_attribute where
  type : Nat
  size : Nat
  non_resident_flag : Nat
  name_size : Nat
  data_flags : Nat
  identifier : Nat
  data_size : Nat
  data_offset : Nat
  data_first_vcn : Nat
  data_last_vcn : Nat
  data_runs_offset : Nat
  compression_unit_size : Nat
  allocated_data_size : Nat
  valid_data_size : Nat
  name : Option (List Nat)
  deriving DecidableEq, Repr

/-- Modelled from the spec: the attribute-list entry, whose declaration
(`libfsntfs_attribute_list_entry.h`) is missing; the fields are those of the
spec's data model, `name` being the UTF-16 little-endian byte stream. -/
structure libfsntfs_attribute_list_entry where
  type : Nat
  size : Nat
  name_length : Nat
  start_vcn : Nat
  file_reference : Nat
  identifier : Nat
  name : Option (List Nat)
  deriving DecidableEq, Repr

/-- The kinds of typed value `libfsntfs_attribute_read_value` creates; a kind
also names the `libfsntfs_<kind>_free` function stored in `free_value`. -/
inductive value_kind where
  | bitmap_values
  | file_name_values
  | txf_data_values
  | logged_utility_stream_values
  | object_identifier_values
  | reparse_point_values
  | security_descriptor_values
  | standard_information_values
  | volume_information_values
  | volume_name_values
  deriving DecidableEq, Repr

/-- What the `value` pointer of a facade points to: a container of one of the
kinds, with the content its parser gave it. -/
structure attribute_value (V : Type) where
  kind : value_kind
  content : V
  deriving DecidableEq, Repr

/-- The facade, `libfsntfs_internal_attribute_t`: the two bindings, the file
reference, the cached value and its deleter. -/
structure libfsntfs_internal_attribute (V : Type) where
  mft_attribute : Option libfsntfs_mft_attribute
  attribute_list_entry : Option libfsntfs_attribute_list_entry
  file_reference : Nat
  value : Option (attribute_value V)
  free_value : Option value_kind
  deriving DecidableEq, Repr

/-- What a call leaves behind: the `int` it returns, the error it set (if
any) and, in `out`, the state or the outputs it wrote. -/
structure call_result (α : Type) where
  result : Int
  error : Option libcerror_error
  out : α
  deriving DecidableEq, Repr

/-! ## libfsntfs_attribute_initialize -/

/-- The outcome of the three system services `libfsntfs_attribute_initialize`
relies on: `memory_allocate_structure`, `memory_set` and (with multi-thread
support) `libcthreads_read_write_lock_initialize`. -/
structure system_services where
  memory_allocate_structure_ok : Bool
  memory_set_ok : Bool
  read_write_lock_initialize_ok : Bool
  deriving DecidableEq, Repr

/-- The function `libfsntfs_attribute_initialize`. The argument `attribute_slot`
(`attribute` in the source) is the caller's slot: `none` when the pointer to
the slot is `NULL`, `some none` for an empty slot, `some (some a)` for a slot
that already holds a facade. The field `out` of the result is the slot after
the call. -/
def libfsntfs_attribute_initialize {V : Type} (sys : system_services)
    (attribute_slot : Option (Option (libfsntfs_internal_attribute V)))
    (mft_attribute : Option libfsntfs_mft_attribute)
    (attribute_list_entry : Option libfsntfs_attribute_list_entry) :
    call_result (Option (Option (libfsntfs_internal_attribute V))) :=
  match attribute_slot with
  | none =>
    ⟨-1, some ⟨.LIBCERROR_ARGUMENT_ERROR_INVALID_VALUE, "%s: invalid attribute."⟩, attribute_slot⟩
  | some (some _) =>
    ⟨-1, some ⟨.LIBCERROR_RUNTIME_ERROR_VALUE_ALREADY_SET,
      "%s: invalid attribute value already set."⟩, attribute_slot⟩
  | some none =>
    if (mft_attribute.isNone && attribute_list_entry.isNone)
        || (mft_attribute.isSome && attribute_list_entry.isSome) then
      ⟨-1, some ⟨.LIBCERROR_ARGUMENT_ERROR_INVALID_VALUE,
        "%s: invalid MFT attribute and attribute list entry."⟩, attribute_slot⟩
    else if !sys.memory_allocate_structure_ok then
      ⟨-1, some ⟨.LIBCERROR_MEMORY_ERROR_INSUFFICIENT, "%s: unable to create attribute."⟩,
        attribute_slot⟩
    else if !sys.memory_set_ok then
      ⟨-1, some ⟨.LIBCERROR_MEMORY_ERROR_SET_FAILED, "%s: unable to clear attribute."⟩,
        attribute_slot⟩
    else if !sys.read_write_lock_initialize_ok then
      ⟨-1, some ⟨.LIBCERROR_RUNTIME_ERROR_INITIALIZE_FAILED,
        "%s: unable to initialize read/write lock."⟩, attribute_slot⟩
    else
      ⟨1, none, some (some ⟨mft_attribute, attribute_list_entry, 0, none, none⟩)⟩

/-! ## libfsntfs_attribute_free -/

/-- The function `libfsntfs_attribute_free`: empties the caller's slot and
releases nothing. -/
def libfsntfs_attribute_free {V : Type}
    (attribute_slot : Option (Option (libfsntfs_internal_attribute V))) :
    call_result (Option (Option (libfsntfs_internal_attribute V))) :=
  match attribute_slot with
  | none =>
    ⟨-1, some ⟨.LIBCERROR_ARGUMENT_ERROR_INVALID_VALUE, "%s: invalid attribute."⟩, attribute_slot⟩
  | some _ => ⟨1, none, some none⟩

/-! ## libfsntfs_attribute_compare_by_file_reference -/

/-- Modelled from the spec: the "less" result of a libcdata comparison, first
of the three results of `libcdata_definitions.h`, which is missing. -/
def LIBCDATA_COMPARE_LESS : Int := 0

/-- Modelled from the spec: the "equal" result of a libcdata comparison. -/
def LIBCDATA_COMPARE_EQUAL : Int := 1

/-- Modelled from the spec: the "greater" result of a libcdata comparison. -/
def LIBCDATA_COMPARE_GREATER : Int := 2

/-- The function `libfsntfs_attribute_compare_by_file_reference`: compares the
file references masked with `0xffffffffffff`. -/
def libfsntfs_attribute_compare_by_file_reference {V : Type}
    (first_attribute second_attribute : Option (libfsntfs_internal_attribute V)) :
    call_result Unit :=
  match first_attribute with
  | none =>
    ⟨-1, some ⟨.LIBCERROR_ARGUMENT_ERROR_INVALID_VALUE, "%s: invalid first attribute."⟩, ()⟩
  | some first =>
    match second_attribute with
    | none =>
      ⟨-1, some ⟨.LIBCERROR_ARGUMENT_ERROR_INVALID_VALUE, "%s: invalid second attribute."⟩, ()⟩
    | some second =>
      let first_mft_entry_index := first.file_reference &&& 0xffffffffffff
      let second_mft_entry_index := second.file_reference &&& 0xffffffffffff
      if first_mft_entry_index < second_mft_entry_index then
        ⟨LIBCDATA_COMPARE_LESS, none, ()⟩
      else if first_mft_entry_index > second_mft_entry_index then
        ⟨LIBCDATA_COMPARE_GREATER, none, ()⟩
      else
        ⟨LIBCDATA_COMPARE_EQUAL, none, ()⟩

/-! ## libfsntfs_attribute_get_file_reference -/

/-- The function `libfsntfs_attribute_get_file_reference`. The two Booleans say
whether the output addresses `mft_entry_index` and `sequence_number` are
present; `out` holds what was written to each. The sequence number is the
shifted file reference cast to `uint16_t`. -/
def libfsntfs_attribute_get_file_reference {V : Type}
    (attribute_ref : Option (libfsntfs_internal_attribute V))
    (mft_entry_index sequence_number : Bool) :
    call_result (Option Nat × Option Nat) :=
  match attribute_ref with
  | none =>
    ⟨-1, some ⟨.LIBCERROR_ARGUMENT_ERROR_INVALID_VALUE, "%s: invalid attribute."⟩, (none, none)⟩
  | some internal_attribute =>
    if !mft_entry_index then
      ⟨-1, some ⟨.LIBCERROR_ARGUMENT_ERROR_INVALID_VALUE, "%s: invalid MFT entry index."⟩,
        (none, none)⟩
    else
      ⟨1, none, (some (internal_attribute.file_reference &&& 0xffffffffffff),
        if sequence_number then some ((internal_attribute.file_reference >>> 48) % 2 ^ 16)
        else none)⟩

/-! ## Collaborators

The functions of the MFT attribute, of the attribute-list entry, of the typed
values and of the cluster-block stream and vector live in other files; the
facade only calls them. They are taken as parameters, so that what is proved
about the facade holds for every behaviour of theirs. -/

/-- Modelled from the spec: a data run `(vcn_start, cluster_count, lcn_start |
Sparse)`; `libfsntfs_data_run.h` is missing. -/
structure libfsntfs_data_run where
  vcn_start : Nat
  cluster_count : Nat
  lcn_start : Option Nat
  deriving DecidableEq, Repr

/-- The cluster block handed out by the cluster-block vector; `data` is `none`
when the pointer is `NULL`, and `data_size` is the length of the data. -/
structure libfsntfs_cluster_block where
  data : Option (List Nat)
  deriving DecidableEq, Repr

/-- The collaborators of the facade. `V` is the content of a typed value, `W`
the state of the device handle `file_io_handle`, `H` the IO handle, `S` the
cluster-block stream, `C` the cluster-block vector and `K` the block cache.

A getter yields `none` when it returns something other than 1; its Boolean
argument says whether the output address it is given is present. A function
that works on a container, the device or the cache yields their state after
the call next to its outcome. -/
structure collaborators (V W H S C K : Type) where
  /-- The value of `LIBFSNTFS_FILE_ENTRY_FLAGS_MFT_ONLY`. -/
  LIBFSNTFS_FILE_ENTRY_FLAGS_MFT_ONLY : Nat
  /-- The value of `LIBFSNTFS_ATTRIBUTE_FLAG_COMPRESSION_MASK`. -/
  LIBFSNTFS_ATTRIBUTE_FLAG_COMPRESSION_MASK : Nat
  libfsntfs_mft_attribute_get_type : libfsntfs_mft_attribute → Bool → Option Nat
  libfsntfs_mft_attribute_get_data_flags : libfsntfs_mft_attribute → Bool → Option Nat
  /-- The UTF-8 name size. -/
  libfsntfs_mft_attribute_get_utf8_name_size : libfsntfs_mft_attribute → Bool → Option Nat
  /-- The UTF-8 name, for a buffer (present or not) of the given size. -/
  libfsntfs_mft_attribute_get_utf8_name :
    libfsntfs_mft_attribute → Bool → Nat → Option (List Nat)
  libfsntfs_mft_attribute_get_utf16_name_size : libfsntfs_mft_attribute → Bool → Option Nat
  libfsntfs_mft_attribute_get_utf16_name :
    libfsntfs_mft_attribute → Bool → Nat → Option (List Nat)
  /-- The VCN range: the value returned, and the range when it was written. -/
  libfsntfs_mft_attribute_get_data_vcn_range :
    libfsntfs_mft_attribute → Int × Option (Nat × Nat)
  /-- The comparison of the name with a UTF-8 string: 1, 0 or -1. -/
  libfsntfs_mft_attribute_compare_name_with_utf8_string :
    libfsntfs_mft_attribute → List Nat → Int
  libfsntfs_mft_attribute_get_data_size : libfsntfs_mft_attribute → Bool → Option Nat
  /-- The resident data: `some none` when the data pointer written is `NULL`. -/
  libfsntfs_mft_attribute_get_data :
    libfsntfs_mft_attribute → Bool → Bool → Option (Option (List Nat))
  libfsntfs_mft_attribute_get_valid_data_size : libfsntfs_mft_attribute → Bool → Option Nat
  libfsntfs_mft_attribute_get_number_of_data_runs :
    libfsntfs_mft_attribute → Bool → Option Int
  /-- The data run at an index; the MFT attribute may be `NULL` here. -/
  libfsntfs_mft_attribute_get_data_run_by_index :
    Option libfsntfs_mft_attribute → Int → Bool → Option libfsntfs_data_run
  libfsntfs_attribute_list_entry_get_type :
    Option libfsntfs_attribute_list_entry → Bool → Option Nat
  libfsntfs_attribute_list_entry_get_utf8_name_size :
    Option libfsntfs_attribute_list_entry → Bool → Option Nat
  libfsntfs_attribute_list_entry_get_utf8_name :
    Option libfsntfs_attribute_list_entry → Bool → Nat → Option (List Nat)
  libfsntfs_attribute_list_entry_get_utf16_name_size :
    Option libfsntfs_attribute_list_entry → Bool → Option Nat
  libfsntfs_attribute_list_entry_get_utf16_name :
    Option libfsntfs_attribute_list_entry → Bool → Nat → Option (List Nat)
  libfsntfs_attribute_list_entry_compare_name_with_utf8_string :
    Option libfsntfs_attribute_list_entry → List Nat → Int
  /-- The `libfsntfs_<kind>_initialize` functions: the empty container, or
  `none` on failure (the slot then stays `NULL`). -/
  values_initialize : value_kind → Option V
  /-- The `libfsntfs_<kind>_read_data` functions
  (`libfsntfs_security_descriptor_values_read_buffer` for the security
  descriptor): the container after the call and whether 1 was returned. -/
  values_read_data : value_kind → V → List Nat → V × Bool
  /-- The `libfsntfs_<kind>_free` functions applied to a slot holding a
  container: the slot after the call and the value returned. -/
  values_free : value_kind → attribute_value V → Option (attribute_value V) × Int
  libfsntfs_security_descriptor_values_read_stream : V → W → S → (V × Bool) × W
  libfsntfs_cluster_block_stream_initialize : H → Option libfsntfs_mft_attribute → Option S
  libfdata_stream_free : S → Bool
  libfsntfs_cluster_block_vector_initialize : H → Option libfsntfs_mft_attribute → Option C
  libfcache_cache_initialize : Nat → Option K
  libfdata_vector_get_number_of_elements : C → Option Int
  /-- The element at an index: `none` on failure, `some none` when the block
  pointer written is `NULL`. -/
  libfdata_vector_get_element_value_by_index :
    C → W → K → Int → (Option (Option libfsntfs_cluster_block) × W) × K
  libfdata_vector_free : C → Bool
  libfcache_cache_free : K → Bool

section getters

variable {V W H S C K : Type}

/-- The function `libfsntfs_internal_attribute_get_type`. -/
def libfsntfs_internal_attribute_get_type (E : collaborators V W H S C K)
    (internal_attribute : Option (libfsntfs_internal_attribute V)) (type : Bool) :
    call_result (Option Nat) :=
  match internal_attribute with
  | none =>
    ⟨-1, some ⟨.LIBCERROR_ARGUMENT_ERROR_INVALID_VALUE, "%s: invalid attribute."⟩, none⟩
  | some a =>
    match a.mft_attribute with
    | some mft_attribute =>
      match E.libfsntfs_mft_attribute_get_type mft_attribute type with
      | none =>
        ⟨-1, some ⟨.LIBCERROR_RUNTIME_ERROR_GET_FAILED,
          "%s: unable to retrieve type from MFT attribute."⟩, none⟩
      | some t => ⟨1, none, some t⟩
    | none =>
      match E.libfsntfs_attribute_list_entry_get_type a.attribute_list_entry type with
      | none =>
        ⟨-1, some ⟨.LIBCERROR_RUNTIME_ERROR_GET_FAILED,
          "%s: unable to retrieve type from attribute list entry."⟩, none⟩
      | some t => ⟨1, none, some t⟩

/-- The function `libfsntfs_internal_attribute_get_data_flags`. -/
def libfsntfs_internal_attribute_get_data_flags (E : collaborators V W H S C K)
    (internal_attribute : Option (libfsntfs_internal_attribute V)) (data_flags : Bool) :
    call_result (Option Nat) :=
  match internal_attribute with
  | none =>
    ⟨-1, some ⟨.LIBCERROR_ARGUMENT_ERROR_INVALID_VALUE, "%s: invalid attribute."⟩, none⟩
  | some a =>
    match a.mft_attribute with
    | some mft_attribute =>
      match E.libfsntfs_mft_attribute_get_data_flags mft_attribute data_flags with
      | none =>
        ⟨-1, some ⟨.LIBCERROR_RUNTIME_ERROR_GET_FAILED,
          "%s: unable to retrieve data flags from MFT attribute."⟩, none⟩
      | some f => ⟨1, none, some f⟩
    | none =>
      if !data_flags then
        ⟨-1, some ⟨.LIBCERROR_ARGUMENT_ERROR_INVALID_VALUE, "%s: invalid data flags."⟩, none⟩
      else
        ⟨1, none, some 0⟩

/-- The function `libfsntfs_internal_attribute_compare_name_with_utf8_string`;
the length of the string is the length of the list. -/
def libfsntfs_internal_attribute_compare_name_with_utf8_string
    (E : collaborators V W H S C K)
    (internal_attribute : Option (libfsntfs_internal_attribute V))
    (utf8_string : List Nat) : call_result Unit :=
  match internal_attribute with
  | none =>
    ⟨-1, some ⟨.LIBCERROR_ARGUMENT_ERROR_INVALID_VALUE, "%s: invalid attribute."⟩, ()⟩
  | some a =>
    match a.mft_attribute with
    | some mft_attribute =>
      let result :=
        E.libfsntfs_mft_attribute_compare_name_with_utf8_string mft_attribute utf8_string
      if result = -1 then
        ⟨-1, some ⟨.LIBCERROR_RUNTIME_ERROR_GENERIC,
          "%s: unable to compare UTF-8 string with MFT attribute name."⟩, ()⟩
      else ⟨result, none, ()⟩
    | none =>
      let result :=
        E.libfsntfs_attribute_list_entry_compare_name_with_utf8_string
          a.attribute_list_entry utf8_string
      if result = -1 then
        ⟨-1, some ⟨.LIBCERROR_RUNTIME_ERROR_GENERIC,
          "%s: unable to compare UTF-8 string with attribute list entry name."⟩, ()⟩
      else ⟨result, none, ()⟩

/-- The function `libfsntfs_internal_attribute_get_data_size`. -/
def libfsntfs_internal_attribute_get_data_size (E : collaborators V W H S C K)
    (internal_attribute : Option (libfsntfs_internal_attribute V)) (data_size : Bool) :
    call_result (Option Nat) :=
  match internal_attribute with
  | none =>
    ⟨-1, some ⟨.LIBCERROR_ARGUMENT_ERROR_INVALID_VALUE, "%s: invalid attribute."⟩, none⟩
  | some a =>
    match a.mft_attribute with
    | some mft_attribute =>
      match E.libfsntfs_mft_attribute_get_data_size mft_attribute data_size with
      | none =>
        ⟨-1, some ⟨.LIBCERROR_RUNTIME_ERROR_GET_FAILED, "%s: unable to retrieve data size."⟩,
          none⟩
      | some n => ⟨1, none, some n⟩
    | none =>
      if !data_size then
        ⟨-1, some ⟨.LIBCERROR_ARGUMENT_ERROR_INVALID_VALUE, "%s: invalid data size."⟩, none⟩
      else
        ⟨1, none, some 0⟩

/-- The function `libfsntfs_internal_attribute_get_data`. The Booleans say
whether the output addresses `data` and `data_size` are present; `out` is
`none` on failure and otherwise holds the data pointer written, `some none` for
`NULL`, the size written being the length of the data (0 for `NULL`). -/
def libfsntfs_internal_attribute_get_data (E : collaborators V W H S C K)
    (internal_attribute : Option (libfsntfs_internal_attribute V)) (data data_size : Bool) :
    call_result (Option (Option (List Nat))) :=
  match internal_attribute with
  | none =>
    ⟨-1, some ⟨.LIBCERROR_ARGUMENT_ERROR_INVALID_VALUE, "%s: invalid attribute."⟩, none⟩
  | some a =>
    match a.mft_attribute with
    | some mft_attribute =>
      match E.libfsntfs_mft_attribute_get_data mft_attribute data data_size with
      | none =>
        ⟨-1, some ⟨.LIBCERROR_RUNTIME_ERROR_GET_FAILED, "%s: unable to retrieve data."⟩, none⟩
      | some resident_data => ⟨1, none, some resident_data⟩
    | none =>
      if !data then
        ⟨-1, some ⟨.LIBCERROR_ARGUMENT_ERROR_INVALID_VALUE, "%s: invalid data."⟩, none⟩
      else if !data_size then
        ⟨-1, some ⟨.LIBCERROR_ARGUMENT_ERROR_INVALID_VALUE, "%s: invalid data size."⟩, none⟩
      else
        ⟨1, none, some none⟩

end getters

/-! ## Attribute types -/

/-- Modelled from the spec: the type tag STANDARD_INFORMATION of the data
model; `libfsntfs_definitions.h` is missing. -/
def LIBFSNTFS_ATTRIBUTE_TYPE_STANDARD_INFORMATION : Nat := 0x10

/-- Modelled from the spec: the type tag ATTRIBUTE_LIST. -/
def LIBFSNTFS_ATTRIBUTE_TYPE_ATTRIBUTE_LIST : Nat := 0x20

/-- Modelled from the spec: the type tag FILE_NAME. -/
def LIBFSNTFS_ATTRIBUTE_TYPE_FILE_NAME : Nat := 0x30

/-- Modelled from the spec: the type tag OBJECT_IDENTIFIER. -/
def LIBFSNTFS_ATTRIBUTE_TYPE_OBJECT_IDENTIFIER : Nat := 0x40

/-- Modelled from the spec: the type tag SECURITY_DESCRIPTOR. -/
def LIBFSNTFS_ATTRIBUTE_TYPE_SECURITY_DESCRIPTOR : Nat := 0x50

/-- Modelled from the spec: the type tag VOLUME_NAME. -/
def LIBFSNTFS_ATTRIBUTE_TYPE_VOLUME_NAME : Nat := 0x60

/-- Modelled from the spec: the type tag VOLUME_INFORMATION. -/
def LIBFSNTFS_ATTRIBUTE_TYPE_VOLUME_INFORMATION : Nat := 0x70

/-- Modelled from the spec: the type tag DATA. -/
def LIBFSNTFS_ATTRIBUTE_TYPE_DATA : Nat := 0x80

/-- Modelled from the spec: the type tag INDEX_ROOT. -/
def LIBFSNTFS_ATTRIBUTE_TYPE_INDEX_ROOT : Nat := 0x90

/-- Modelled from the spec: the type tag INDEX_ALLOCATION. -/
def LIBFSNTFS_ATTRIBUTE_TYPE_INDEX_ALLOCATION : Nat := 0xa0

/-- Modelled from the spec: the type tag BITMAP. -/
def LIBFSNTFS_ATTRIBUTE_TYPE_BITMAP : Nat := 0xb0

/-- Modelled from the spec: the type tag REPARSE_POINT. -/
def LIBFSNTFS_ATTRIBUTE_TYPE_REPARSE_POINT : Nat := 0xc0

/-- Modelled from the spec: the type tag LOGGED_UTILITY_STREAM. -/
def LIBFSNTFS_ATTRIBUTE_TYPE_LOGGED_UTILITY_STREAM : Nat := 0x100

/-! ## libfsntfs_attribute_read_value -/

/-- The calls `libfsntfs_attribute_read_value` makes that build a cluster-block
stream, vector or cache or that read from the device, in the order made. -/
inductive device_event where
  | initialize_cluster_block_stream
  | read_security_descriptor_stream
  | initialize_cluster_block_vector
  | initialize_cache
  | get_cluster_block (cluster_block_index : Int)
  deriving DecidableEq, Repr

/-- What `libfsntfs_attribute_read_value` leaves behind: the facade (`none`
when the pointer was `NULL`), the state of the device handle and the calls made
on stream, vector, cache and device. -/
structure read_value_state (V W : Type) where
  internal_attribute : Option (libfsntfs_internal_attribute V)
  file_io_handle : W
  events : List device_event
  deriving DecidableEq, Repr

section read_value

variable {V W H S C K : Type}

/-- The string `"$TXF_DATA"` (9 bytes) the name of a logged utility stream is
compared with. -/
def TXF_DATA_utf8_string : List Nat := [0x24, 0x54, 0x58, 0x46, 0x5f, 0x44, 0x41, 0x54, 0x41]

/-- The label `on_error` of `libfsntfs_attribute_read_value`, as far as the
facade goes: a value that is set is handed to the deleter that is set. The
cache, vector and stream freed before are local to the call. -/
def read_value_on_error (E : collaborators V W H S C K)
    (internal_attribute : libfsntfs_internal_attribute V) : libfsntfs_internal_attribute V :=
  match internal_attribute.value, internal_attribute.free_value with
  | some value, some free_value =>
    { internal_attribute with value := (E.values_free free_value value).1 }
  | _, _ => internal_attribute

/-- One case of the resident switch: register the deleter of the kind, create
the container and read the resident data into it. -/
def read_value_resident_values (E : collaborators V W H S C K)
    (internal_attribute : libfsntfs_internal_attribute V) (kind : value_kind)
    (resident_data : List Nat) (create_message read_message : String) :
    call_result (libfsntfs_internal_attribute V) :=
  let with_free_value := { internal_attribute with free_value := some kind }
  match E.values_initialize kind with
  | none =>
    ⟨-1, some ⟨.LIBCERROR_RUNTIME_ERROR_INITIALIZE_FAILED, create_message⟩,
      read_value_on_error E with_free_value⟩
  | some values =>
    let read := E.values_read_data kind values resident_data
    let with_value := { with_free_value with value := some ⟨kind, read.1⟩ }
    if read.2 then ⟨1, none, with_value⟩
    else
      ⟨-1, some ⟨.LIBCERROR_IO_ERROR_READ_FAILED, read_message⟩,
        read_value_on_error E with_value⟩

/-- The branch `resident_data != NULL` of `libfsntfs_attribute_read_value`: the
switch on the attribute type. -/
def read_value_resident (E : collaborators V W H S C K)
    (internal_attribute : libfsntfs_internal_attribute V) (attribute_type : Nat)
    (resident_data : List Nat) : call_result (libfsntfs_internal_attribute V) :=
  if attribute_type = LIBFSNTFS_ATTRIBUTE_TYPE_BITMAP then
    read_value_resident_values E internal_attribute .bitmap_values resident_data
      "%s: unable to create bitmap values." "%s: unable to read bitmap values."
  else if attribute_type = LIBFSNTFS_ATTRIBUTE_TYPE_FILE_NAME then
    read_value_resident_values E internal_attribute .file_name_values resident_data
      "%s: unable to create file name values." "%s: unable to read file name values."
  else if attribute_type = LIBFSNTFS_ATTRIBUTE_TYPE_LOGGED_UTILITY_STREAM then
    let result :=
      (libfsntfs_internal_attribute_compare_name_with_utf8_string E
        (some internal_attribute) TXF_DATA_utf8_string).result
    if result = -1 then
      ⟨-1, some ⟨.LIBCERROR_RUNTIME_ERROR_GENERIC,
        "%s: unable to compare UTF-8 string with attribute name."⟩,
        read_value_on_error E internal_attribute⟩
    else if result ≠ 0 then
      read_value_resident_values E internal_attribute .txf_data_values resident_data
        "%s: unable to create TxF data values." "%s: unable to read TxF data values."
    else
      read_value_resident_values E internal_attribute .logged_utility_stream_values
        resident_data "%s: unable to create logged utility stream values."
        "%s: unable to read logged utility stream values."
  else if attribute_type = LIBFSNTFS_ATTRIBUTE_TYPE_OBJECT_IDENTIFIER then
    read_value_resident_values E internal_attribute .object_identifier_values resident_data
      "%s: unable to create object identifier values."
      "%s: unable to read object identifier values."
  else if attribute_type = LIBFSNTFS_ATTRIBUTE_TYPE_REPARSE_POINT then
    read_value_resident_values E internal_attribute .reparse_point_values resident_data
      "%s: unable to create reparse point values." "%s: unable to read reparse point values."
  else if attribute_type = LIBFSNTFS_ATTRIBUTE_TYPE_SECURITY_DESCRIPTOR then
    read_value_resident_values E internal_attribute .security_descriptor_values resident_data
      "%s: unable to create security descriptor values."
      "%s: unable to read security descriptor values."
  else if attribute_type = LIBFSNTFS_ATTRIBUTE_TYPE_STANDARD_INFORMATION then
    read_value_resident_values E internal_attribute .standard_information_values
      resident_data "%s: unable to create standard information values."
      "%s: unable to read standard information values."
  else if attribute_type = LIBFSNTFS_ATTRIBUTE_TYPE_VOLUME_INFORMATION then
    read_value_resident_values E internal_attribute .volume_information_values resident_data
      "%s: unable to create volume information values."
      "%s: unable to read volume information values."
  else if attribute_type = LIBFSNTFS_ATTRIBUTE_TYPE_VOLUME_NAME then
    read_value_resident_values E internal_attribute .volume_name_values resident_data
      "%s: unable to create volume name values." "%s: unable to read volume name values."
  else
    ⟨1, none, internal_attribute⟩

/-- One creating case of the non-resident switch: register the deleter of the
kind and create the empty container. -/
def read_value_non_resident_values (E : collaborators V W H S C K)
    (internal_attribute : libfsntfs_internal_attribute V) (kind : value_kind)
    (create_message : String) : call_result (libfsntfs_internal_attribute V) :=
  let with_free_value := { internal_attribute with free_value := some kind }
  match E.values_initialize kind with
  | none =>
    ⟨-1, some ⟨.LIBCERROR_RUNTIME_ERROR_INITIALIZE_FAILED, create_message⟩,
      read_value_on_error E with_free_value⟩
  | some values => ⟨1, none, { with_free_value with value := some ⟨kind, values⟩ }⟩

/-- The switch on the attribute type of the branch `resident_data == NULL`. -/
def read_value_non_resident_switch (E : collaborators V W H S C K)
    (internal_attribute : libfsntfs_internal_attribute V) (attribute_type : Nat) :
    call_result (libfsntfs_internal_attribute V) :=
  if attribute_type = LIBFSNTFS_ATTRIBUTE_TYPE_BITMAP then
    read_value_non_resident_values E internal_attribute .bitmap_values
      "%s: unable to create bitmap values."
  else if attribute_type = LIBFSNTFS_ATTRIBUTE_TYPE_SECURITY_DESCRIPTOR then
    read_value_non_resident_values E internal_attribute .security_descriptor_values
      "%s: unable to create security descriptor values."
  else if attribute_type = LIBFSNTFS_ATTRIBUTE_TYPE_FILE_NAME
      ∨ attribute_type = LIBFSNTFS_ATTRIBUTE_TYPE_OBJECT_IDENTIFIER
      ∨ attribute_type = LIBFSNTFS_ATTRIBUTE_TYPE_REPARSE_POINT
      ∨ attribute_type = LIBFSNTFS_ATTRIBUTE_TYPE_STANDARD_INFORMATION
      ∨ attribute_type = LIBFSNTFS_ATTRIBUTE_TYPE_VOLUME_INFORMATION
      ∨ attribute_type = LIBFSNTFS_ATTRIBUTE_TYPE_VOLUME_NAME then
    ⟨-1, some ⟨.LIBCERROR_RUNTIME_ERROR_UNSUPPORTED_VALUE,
      "%s: unsupported non-resident attribute."⟩, read_value_on_error E internal_attribute⟩
  else
    ⟨1, none, internal_attribute⟩

/-- The state the loop over the cluster blocks works on: the content of the
value, the device handle, the block cache and the calls made so far. -/
structure cluster_blocks_state (V W K : Type) where
  values : V
  file_io_handle : W
  cluster_block_cache : K
  events : List device_event

/-- The loop `for( cluster_block_index = 0; cluster_block_index <
number_of_cluster_blocks; cluster_block_index++ )` of
`libfsntfs_attribute_read_value`, with the number of iterations left as first
argument: get the block, check it, and for a bitmap read it into the value. -/
def read_value_cluster_blocks (E : collaborators V W H S C K) (cluster_block_vector : C)
    (attribute_type : Nat) :
    Nat → Int → cluster_blocks_state V W K → call_result (cluster_blocks_state V W K)
  | 0, _, state => ⟨1, none, state⟩
  | remaining + 1, cluster_block_index, state =>
    let element := E.libfdata_vector_get_element_value_by_index cluster_block_vector
      state.file_io_handle state.cluster_block_cache cluster_block_index
    let fetched : cluster_blocks_state V W K :=
      ⟨state.values, element.1.2, element.2,
        state.events ++ [.get_cluster_block cluster_block_index]⟩
    match element.1.1 with
    | none =>
      ⟨-1, some ⟨.LIBCERROR_RUNTIME_ERROR_GET_FAILED,
        "%s: unable to retrieve cluster block: %d from vector."⟩, fetched⟩
    | some none =>
      ⟨-1, some ⟨.LIBCERROR_RUNTIME_ERROR_VALUE_MISSING, "%s: missing cluster block: %d."⟩,
        fetched⟩
    | some (some cluster_block) =>
      match cluster_block.data with
      | none =>
        ⟨-1, some ⟨.LIBCERROR_RUNTIME_ERROR_VALUE_MISSING,
          "%s: invalid cluster block: %d - missing data."⟩, fetched⟩
      | some data =>
        if attribute_type = LIBFSNTFS_ATTRIBUTE_TYPE_BITMAP then
          let read := E.values_read_data .bitmap_values fetched.values data
          let parsed : cluster_blocks_state V W K :=
            ⟨read.1, fetched.file_io_handle, fetched.cluster_block_cache, fetched.events⟩
          if read.2 then
            read_value_cluster_blocks E cluster_block_vector attribute_type remaining
              (cluster_block_index + 1) parsed
          else
            ⟨-1, some ⟨.LIBCERROR_IO_ERROR_READ_FAILED, "%s: unable to read bitmap values."⟩,
              parsed⟩
        else
          read_value_cluster_blocks E cluster_block_vector attribute_type remaining
            (cluster_block_index + 1) fetched

/-- The failure exit of the non-resident read: the error, the facade after
`on_error`, the device handle and the calls made. -/
def read_value_fail (E : collaborators V W H S C K) (code : libcerror_code)
    (message : String) (internal_attribute : libfsntfs_internal_attribute V)
    (file_io_handle : W) (events : List device_event) : call_result (read_value_state V W) :=
  ⟨-1, some ⟨code, message⟩,
    ⟨some (read_value_on_error E internal_attribute), file_io_handle, events⟩⟩

/-- The block of `libfsntfs_attribute_read_value` guarded by `( flags &
LIBFSNTFS_FILE_ENTRY_FLAGS_MFT_ONLY ) == 0` and `value != NULL`, entered with
the value `value` set in the facade: the check of the compression flags, then
the read of a security descriptor from the cluster-block stream, or else the
read of the cluster blocks of the vector. -/
def read_value_non_resident_data (E : collaborators V W H S C K)
    (internal_attribute : libfsntfs_internal_attribute V) (value : attribute_value V)
    (attribute_type : Nat) (io_handle : H) (file_io_handle : W) :
    call_result (read_value_state V W) :=
  let flags_call := libfsntfs_internal_attribute_get_data_flags E (some internal_attribute) true
  if flags_call.result ≠ 1 then
    read_value_fail E .LIBCERROR_RUNTIME_ERROR_GET_FAILED "%s: unable to retrieve data flags."
      internal_attribute file_io_handle []
  else
    let data_flags := flags_call.out.getD 0
    if data_flags &&& E.LIBFSNTFS_ATTRIBUTE_FLAG_COMPRESSION_MASK ≠ 0 then
      read_value_fail E .LIBCERROR_RUNTIME_ERROR_UNSUPPORTED_VALUE
        "%s: unsupported compressed attribute data." internal_attribute file_io_handle []
    else if attribute_type = LIBFSNTFS_ATTRIBUTE_TYPE_SECURITY_DESCRIPTOR then
      match E.libfsntfs_cluster_block_stream_initialize io_handle
          internal_attribute.mft_attribute with
      | none =>
        read_value_fail E .LIBCERROR_RUNTIME_ERROR_INITIALIZE_FAILED
          "%s: unable to create cluster block stream." internal_attribute file_io_handle
          [.initialize_cluster_block_stream]
      | some cluster_block_stream =>
        let read := E.libfsntfs_security_descriptor_values_read_stream value.content
          file_io_handle cluster_block_stream
        let with_value := { internal_attribute with value := some ⟨value.kind, read.1.1⟩ }
        let events : List device_event :=
          [.initialize_cluster_block_stream, .read_security_descriptor_stream]
        if !read.1.2 then
          read_value_fail E .LIBCERROR_IO_ERROR_READ_FAILED
            "%s: unable to read security descriptor values from stream." with_value read.2
            events
        else if !E.libfdata_stream_free cluster_block_stream then
          read_value_fail E .LIBCERROR_RUNTIME_ERROR_FINALIZE_FAILED
            "%s: unable to free cluster block stream." with_value read.2 events
        else
          ⟨1, none, ⟨some with_value, read.2, events⟩⟩
    else
      match E.libfsntfs_cluster_block_vector_initialize io_handle
          internal_attribute.mft_attribute with
      | none =>
        read_value_fail E .LIBCERROR_RUNTIME_ERROR_INITIALIZE_FAILED
          "%s: unable to create cluster block vector." internal_attribute file_io_handle
          [.initialize_cluster_block_vector]
      | some cluster_block_vector =>
        match E.libfcache_cache_initialize 1 with
        | none =>
          read_value_fail E .LIBCERROR_RUNTIME_ERROR_INITIALIZE_FAILED
            "%s: unable to create cluster block cache." internal_attribute file_io_handle
            [.initialize_cluster_block_vector, .initialize_cache]
        | some cluster_block_cache =>
          match E.libfdata_vector_get_number_of_elements cluster_block_vector with
          | none =>
            read_value_fail E .LIBCERROR_RUNTIME_ERROR_GET_FAILED
              "%s: unable to retrieve number of cluster blocks." internal_attribute
              file_io_handle [.initialize_cluster_block_vector, .initialize_cache]
          | some number_of_cluster_blocks =>
            let blocks := read_value_cluster_blocks E cluster_block_vector attribute_type
              number_of_cluster_blocks.toNat 0
              ⟨value.content, file_io_handle, cluster_block_cache,
                [.initialize_cluster_block_vector, .initialize_cache]⟩
            let with_value :=
              { internal_attribute with value := some ⟨value.kind, blocks.out.values⟩ }
            if blocks.result ≠ 1 then
              ⟨-1, blocks.error, ⟨some (read_value_on_error E with_value),
                blocks.out.file_io_handle, blocks.out.events⟩⟩
            else if !E.libfdata_vector_free cluster_block_vector then
              read_value_fail E .LIBCERROR_RUNTIME_ERROR_FINALIZE_FAILED
                "%s: unable to free cluster block vector." with_value
                blocks.out.file_io_handle blocks.out.events
            else if !E.libfcache_cache_free blocks.out.cluster_block_cache then
              read_value_fail E .LIBCERROR_RUNTIME_ERROR_FINALIZE_FAILED
                "%s: unable to free cluster block cache." with_value
                blocks.out.file_io_handle blocks.out.events
            else
              ⟨1, none, ⟨some with_value, blocks.out.file_io_handle, blocks.out.events⟩⟩

/-- The branch `resident_data == NULL` of `libfsntfs_attribute_read_value`. -/
def read_value_non_resident (E : collaborators V W H S C K)
    (internal_attribute : libfsntfs_internal_attribute V) (attribute_type : Nat)
    (io_handle : H) (file_io_handle : W) (flags : Nat) :
    call_result (read_value_state V W) :=
  let created := read_value_non_resident_switch E internal_attribute attribute_type
  if created.result ≠ 1 then
    ⟨created.result, created.error, ⟨some created.out, file_io_handle, []⟩⟩
  else
    match created.out.value with
    | some value =>
      if flags &&& E.LIBFSNTFS_FILE_ENTRY_FLAGS_MFT_ONLY = 0 then
        read_value_non_resident_data E created.out value attribute_type io_handle
          file_io_handle
      else
        ⟨1, none, ⟨some created.out, file_io_handle, []⟩⟩
    | none => ⟨1, none, ⟨some created.out, file_io_handle, []⟩⟩

/-- The function `libfsntfs_attribute_read_value`. -/
def libfsntfs_attribute_read_value (E : collaborators V W H S C K)
    (attribute_ref : Option (libfsntfs_internal_attribute V)) (io_handle : H)
    (file_io_handle : W) (flags : Nat) : call_result (read_value_state V W) :=
  match attribute_ref with
  | none =>
    ⟨-1, some ⟨.LIBCERROR_ARGUMENT_ERROR_INVALID_VALUE, "%s: invalid attribute."⟩,
      ⟨none, file_io_handle, []⟩⟩
  | some internal_attribute =>
    if internal_attribute.value.isSome then
      ⟨1, none, ⟨some internal_attribute, file_io_handle, []⟩⟩
    else
      let type_call := libfsntfs_internal_attribute_get_type E (some internal_attribute) true
      if type_call.result ≠ 1 then
        read_value_fail E .LIBCERROR_RUNTIME_ERROR_GET_FAILED
          "%s: unable to retrieve type from attribute." internal_attribute file_io_handle []
      else
        let attribute_type := type_call.out.getD 0
        let data_call :=
          libfsntfs_internal_attribute_get_data E (some internal_attribute) true true
        if data_call.result ≠ 1 then
          read_value_fail E .LIBCERROR_RUNTIME_ERROR_GET_FAILED
            "%s: unable to retrieve data from attribute." internal_attribute file_io_handle []
        else
          match data_call.out.join with
          | some resident_data =>
            let parsed := read_value_resident E internal_attribute attribute_type resident_data
            ⟨parsed.result, parsed.error, ⟨some parsed.out, file_io_handle, []⟩⟩
          | none =>
            read_value_non_resident E internal_attribute attribute_type io_handle
              file_io_handle flags

end read_value

/-! ## Accessors

The accessors grab and release the read/write lock only under
`HAVE_LIBREGF_MULTI_THREAD_SUPPORT`, a macro of another library that this one
never defines; the calls are compiled out and are not part of the model. An
accessor reads the facade and writes to the output addresses it is given; the
Boolean arguments say which addresses are present and `out` holds what was
written. -/

section accessors

variable {V W H S C K : Type}

/-- The function `libfsntfs_attribute_get_type`. -/
def libfsntfs_attribute_get_type (E : collaborators V W H S C K)
    (attribute_ref : Option (libfsntfs_internal_attribute V)) (type : Bool) :
    call_result (Option Nat) :=
  match attribute_ref with
  | none =>
    ⟨-1, some ⟨.LIBCERROR_ARGUMENT_ERROR_INVALID_VALUE, "%s: invalid attribute."⟩, none⟩
  | some internal_attribute =>
    let call := libfsntfs_internal_attribute_get_type E (some internal_attribute) type
    if call.result ≠ 1 then
      ⟨-1, some ⟨.LIBCERROR_RUNTIME_ERROR_GET_FAILED, "%s: unable to retrieve type."⟩, call.out⟩
    else ⟨1, none, call.out⟩

/-- The function `libfsntfs_attribute_get_data_flags`. -/
def libfsntfs_attribute_get_data_flags (E : collaborators V W H S C K)
    (attribute_ref : Option (libfsntfs_internal_attribute V)) (data_flags : Bool) :
    call_result (Option Nat) :=
  match attribute_ref with
  | none =>
    ⟨-1, some ⟨.LIBCERROR_ARGUMENT_ERROR_INVALID_VALUE, "%s: invalid attribute."⟩, none⟩
  | some internal_attribute =>
    let call := libfsntfs_internal_attribute_get_data_flags E (some internal_attribute) data_flags
    if call.result ≠ 1 then
      ⟨-1, some ⟨.LIBCERROR_RUNTIME_ERROR_GET_FAILED, "%s: unable to retrieve data flags."⟩,
        call.out⟩
    else ⟨1, none, call.out⟩

/-- The function `libfsntfs_attribute_get_value`: `out` is the value pointer
written, `some none` for `NULL`. -/
def libfsntfs_attribute_get_value
    (attribute_ref : Option (libfsntfs_internal_attribute V)) (value : Bool) :
    call_result (Option (Option (attribute_value V))) :=
  match attribute_ref with
  | none =>
    ⟨-1, some ⟨.LIBCERROR_ARGUMENT_ERROR_INVALID_VALUE, "%s: invalid attribute."⟩, none⟩
  | some internal_attribute =>
    if !value then
      ⟨-1, some ⟨.LIBCERROR_ARGUMENT_ERROR_INVALID_VALUE, "%s: invalid value."⟩, none⟩
    else ⟨1, none, some internal_attribute.value⟩

/-- The function `libfsntfs_attribute_get_utf8_name_size`. -/
def libfsntfs_attribute_get_utf8_name_size (E : collaborators V W H S C K)
    (attribute_ref : Option (libfsntfs_internal_attribute V)) (utf8_string_size : Bool) :
    call_result (Option Nat) :=
  match attribute_ref with
  | none =>
    ⟨-1, some ⟨.LIBCERROR_ARGUMENT_ERROR_INVALID_VALUE, "%s: invalid attribute."⟩, none⟩
  | some internal_attribute =>
    match internal_attribute.mft_attribute with
    | some mft_attribute =>
      match E.libfsntfs_mft_attribute_get_utf8_name_size mft_attribute utf8_string_size with
      | none =>
        ⟨-1, some ⟨.LIBCERROR_RUNTIME_ERROR_GET_FAILED,
          "%s: unable to retrieve UTF-8 name size from MFT attribute."⟩, none⟩
      | some size => ⟨1, none, some size⟩
    | none =>
      match E.libfsntfs_attribute_list_entry_get_utf8_name_size
          internal_attribute.attribute_list_entry utf8_string_size with
      | none =>
        ⟨-1, some ⟨.LIBCERROR_RUNTIME_ERROR_GET_FAILED,
          "%s: unable to retrieve UTF-8 name size from attribute list entry."⟩, none⟩
      | some size => ⟨1, none, some size⟩

/-- The function `libfsntfs_attribute_get_utf8_name`. -/
def libfsntfs_attribute_get_utf8_name (E : collaborators V W H S C K)
    (attribute_ref : Option (libfsntfs_internal_attribute V)) (utf8_string : Bool)
    (utf8_string_size : Nat) : call_result (Option (List Nat)) :=
  match attribute_ref with
  | none =>
    ⟨-1, some ⟨.LIBCERROR_ARGUMENT_ERROR_INVALID_VALUE, "%s: invalid attribute."⟩, none⟩
  | some internal_attribute =>
    match internal_attribute.mft_attribute with
    | some mft_attribute =>
      match E.libfsntfs_mft_attribute_get_utf8_name mft_attribute utf8_string
          utf8_string_size with
      | none =>
        ⟨-1, some ⟨.LIBCERROR_RUNTIME_ERROR_GET_FAILED,
          "%s: unable to retrieve UTF-8 name from MFT attribute."⟩, none⟩
      | some name => ⟨1, none, some name⟩
    | none =>
      match E.libfsntfs_attribute_list_entry_get_utf8_name
          internal_attribute.attribute_list_entry utf8_string utf8_string_size with
      | none =>
        ⟨-1, some ⟨.LIBCERROR_RUNTIME_ERROR_GET_FAILED,
          "%s: unable to retrieve UTF-8 name from attribute list entry."⟩, none⟩
      | some name => ⟨1, none, some name⟩

/-- The function `libfsntfs_attribute_get_utf16_name_size`. -/
def libfsntfs_attribute_get_utf16_name_size (E : collaborators V W H S C K)
    (attribute_ref : Option (libfsntfs_internal_attribute V)) (utf16_string_size : Bool) :
    call_result (Option Nat) :=
  match attribute_ref with
  | none =>
    ⟨-1, some ⟨.LIBCERROR_ARGUMENT_ERROR_INVALID_VALUE, "%s: invalid attribute."⟩, none⟩
  | some internal_attribute =>
    match internal_attribute.mft_attribute with
    | some mft_attribute =>
      match E.libfsntfs_mft_attribute_get_utf16_name_size mft_attribute utf16_string_size with
      | none =>
        ⟨-1, some ⟨.LIBCERROR_RUNTIME_ERROR_GET_FAILED,
          "%s: unable to retrieve UTF-16 name size from MFT attribute."⟩, none⟩
      | some size => ⟨1, none, some size⟩
    | none =>
      match E.libfsntfs_attribute_list_entry_get_utf16_name_size
          internal_attribute.attribute_list_entry utf16_string_size with
      | none =>
        ⟨-1, some ⟨.LIBCERROR_RUNTIME_ERROR_GET_FAILED,
          "%s: unable to retrieve UTF-16 name size from attribute list entry."⟩, none⟩
      | some size => ⟨1, none, some size⟩

/-- The function `libfsntfs_attribute_get_utf16_name`. -/
def libfsntfs_attribute_get_utf16_name (E : collaborators V W H S C K)
    (attribute_ref : Option (libfsntfs_internal_attribute V)) (utf16_string : Bool)
    (utf16_string_size : Nat) : call_result (Option (List Nat)) :=
  match attribute_ref with
  | none =>
    ⟨-1, some ⟨.LIBCERROR_ARGUMENT_ERROR_INVALID_VALUE, "%s: invalid attribute."⟩, none⟩
  | some internal_attribute =>
    match internal_attribute.mft_attribute with
    | some mft_attribute =>
      match E.libfsntfs_mft_attribute_get_utf16_name mft_attribute utf16_string
          utf16_string_size with
      | none =>
        ⟨-1, some ⟨.LIBCERROR_RUNTIME_ERROR_GET_FAILED,
          "%s: unable to retrieve UTF-16 name from MFT attribute."⟩, none⟩
      | some name => ⟨1, none, some name⟩
    | none =>
      match E.libfsntfs_attribute_list_entry_get_utf16_name
          internal_attribute.attribute_list_entry utf16_string utf16_string_size with
      | none =>
        ⟨-1, some ⟨.LIBCERROR_RUNTIME_ERROR_GET_FAILED,
          "%s: unable to retrieve UTF-16 name from attribute list entry."⟩, none⟩
      | some name => ⟨1, none, some name⟩

/-- The function `libfsntfs_attribute_get_data_vcn_range`: with an MFT
attribute bound the value of the collaborator is returned, otherwise 0. -/
def libfsntfs_attribute_get_data_vcn_range (E : collaborators V W H S C K)
    (attribute_ref : Option (libfsntfs_internal_attribute V))
    (data_first_vcn data_last_vcn : Bool) : call_result (Option (Nat × Nat)) :=
  match attribute_ref with
  | none =>
    ⟨-1, some ⟨.LIBCERROR_ARGUMENT_ERROR_INVALID_VALUE, "%s: invalid attribute."⟩, none⟩
  | some internal_attribute =>
    if !data_first_vcn then
      ⟨-1, some ⟨.LIBCERROR_ARGUMENT_ERROR_INVALID_VALUE, "%s: invalid data first VCN."⟩, none⟩
    else if !data_last_vcn then
      ⟨-1, some ⟨.LIBCERROR_ARGUMENT_ERROR_INVALID_VALUE, "%s: invalid data last VCN."⟩, none⟩
    else
      match internal_attribute.mft_attribute with
      | some mft_attribute =>
        let call := E.libfsntfs_mft_attribute_get_data_vcn_range mft_attribute
        if call.1 = -1 then
          ⟨-1, some ⟨.LIBCERROR_RUNTIME_ERROR_GET_FAILED,
            "%s: unable to retrieve data VCN range from MFT attribute."⟩, call.2⟩
        else ⟨call.1, none, call.2⟩
      | none => ⟨0, none, none⟩

/-- The function `libfsntfs_attribute_get_data_size`. -/
def libfsntfs_attribute_get_data_size (E : collaborators V W H S C K)
    (attribute_ref : Option (libfsntfs_internal_attribute V)) (data_size : Bool) :
    call_result (Option Nat) :=
  match attribute_ref with
  | none =>
    ⟨-1, some ⟨.LIBCERROR_ARGUMENT_ERROR_INVALID_VALUE, "%s: invalid attribute."⟩, none⟩
  | some internal_attribute =>
    let call := libfsntfs_internal_attribute_get_data_size E (some internal_attribute) data_size
    if call.result ≠ 1 then
      ⟨-1, some ⟨.LIBCERROR_RUNTIME_ERROR_GET_FAILED, "%s: unable to retrieve data size."⟩,
        call.out⟩
    else ⟨1, none, call.out⟩

/-- The function `libfsntfs_attribute_get_valid_data_size`. -/
def libfsntfs_attribute_get_valid_data_size (E : collaborators V W H S C K)
    (attribute_ref : Option (libfsntfs_internal_attribute V)) (valid_data_size : Bool) :
    call_result (Option Nat) :=
  match attribute_ref with
  | none =>
    ⟨-1, some ⟨.LIBCERROR_ARGUMENT_ERROR_INVALID_VALUE, "%s: invalid attribute."⟩, none⟩
  | some internal_attribute =>
    match internal_attribute.mft_attribute with
    | some mft_attribute =>
      match E.libfsntfs_mft_attribute_get_valid_data_size mft_attribute valid_data_size with
      | none =>
        ⟨-1, some ⟨.LIBCERROR_RUNTIME_ERROR_GET_FAILED,
          "%s: unable to retrieve valid data size."⟩, none⟩
      | some size => ⟨1, none, some size⟩
    | none =>
      if !valid_data_size then
        ⟨-1, some ⟨.LIBCERROR_ARGUMENT_ERROR_INVALID_VALUE, "%s: invalid valid data size."⟩,
          none⟩
      else ⟨1, none, some 0⟩

/-- The function `libfsntfs_attribute_get_number_of_data_runs`. -/
def libfsntfs_attribute_get_number_of_data_runs (E : collaborators V W H S C K)
    (attribute_ref : Option (libfsntfs_internal_attribute V)) (number_of_data_runs : Bool) :
    call_result (Option Int) :=
  match attribute_ref with
  | none =>
    ⟨-1, some ⟨.LIBCERROR_ARGUMENT_ERROR_INVALID_VALUE, "%s: invalid attribute."⟩, none⟩
  | some internal_attribute =>
    match internal_attribute.mft_attribute with
    | some mft_attribute =>
      match E.libfsntfs_mft_attribute_get_number_of_data_runs mft_attribute
          number_of_data_runs with
      | none =>
        ⟨-1, some ⟨.LIBCERROR_RUNTIME_ERROR_GET_FAILED,
          "%s: unable to retrieve number of data runs."⟩, none⟩
      | some number => ⟨1, none, some number⟩
    | none =>
      if !number_of_data_runs then
        ⟨-1, some ⟨.LIBCERROR_ARGUMENT_ERROR_INVALID_VALUE,
          "%s: invalid number of data runs."⟩, none⟩
      else ⟨1, none, some 0⟩

/-- The function `libfsntfs_attribute_get_data_run_by_index`: the MFT
attribute is handed to the collaborator whether it is bound or not. -/
def libfsntfs_attribute_get_data_run_by_index (E : collaborators V W H S C K)
    (attribute_ref : Option (libfsntfs_internal_attribute V)) (data_run_index : Int)
    (data_run : Bool) : call_result (Option libfsntfs_data_run) :=
  match attribute_ref with
  | none =>
    ⟨-1, some ⟨.LIBCERROR_ARGUMENT_ERROR_INVALID_VALUE, "%s: invalid attribute."⟩, none⟩
  | some internal_attribute =>
    match E.libfsntfs_mft_attribute_get_data_run_by_index internal_attribute.mft_attribute
        data_run_index data_run with
    | none =>
      ⟨-1, some ⟨.LIBCERROR_RUNTIME_ERROR_GET_FAILED, "%s: unable to retrieve data run: %d."⟩,
        none⟩
    | some run => ⟨1, none, some run⟩

end accessors

/-! ## Operations on a facade -/

/-- The later operations on a facade: `libfsntfs_attribute_read_value` and the
accessors, each with the arguments of the call other than the facade and the
device handle. -/
inductive facade_operation (H : Type) where
  | read_value (io_handle : H) (flags : Nat)
  | get_type (type : Bool)
  | get_data_flags (data_flags : Bool)
  | get_value (value : Bool)
  | get_utf8_name_size (utf8_string_size : Bool)
  | get_utf8_name (utf8_string : Bool) (utf8_string_size : Nat)
  | get_utf16_name_size (utf16_string_size : Bool)
  | get_utf16_name (utf16_string : Bool) (utf16_string_size : Nat)
  | get_data_vcn_range (data_first_vcn data_last_vcn : Bool)
  | get_file_reference (mft_entry_index sequence_number : Bool)
  | get_data_size (data_size : Bool)
  | get_valid_data_size (valid_data_size : Bool)
  | get_number_of_data_runs (number_of_data_runs : Bool)
  | get_data_run_by_index (data_run_index : Int) (data_run : Bool)

section operations

variable {V W H S C K : Type}

/-- One operation on a present facade: the value returned, the facade and the
device handle after the call. Only `libfsntfs_attribute_read_value` assigns to
the facade or touches the device; the accessors leave both as they are. -/
def perform_operation (E : collaborators V W H S C K) (operation : facade_operation H)
    (internal_attribute : libfsntfs_internal_attribute V) (file_io_handle : W) :
    Int × libfsntfs_internal_attribute V × W :=
  let a := some internal_attribute
  match operation with
  | .read_value io_handle flags =>
    let call := libfsntfs_attribute_read_value E a io_handle file_io_handle flags
    (call.result, call.out.internal_attribute.getD internal_attribute, call.out.file_io_handle)
  | .get_type type =>
    ((libfsntfs_attribute_get_type E a type).result, internal_attribute, file_io_handle)
  | .get_data_flags data_flags =>
    ((libfsntfs_attribute_get_data_flags E a data_flags).result, internal_attribute,
      file_io_handle)
  | .get_value value =>
    ((libfsntfs_attribute_get_value a value).result, internal_attribute, file_io_handle)
  | .get_utf8_name_size utf8_string_size =>
    ((libfsntfs_attribute_get_utf8_name_size E a utf8_string_size).result,
      internal_attribute, file_io_handle)
  | .get_utf8_name utf8_string utf8_string_size =>
    ((libfsntfs_attribute_get_utf8_name E a utf8_string utf8_string_size).result,
      internal_attribute, file_io_handle)
  | .get_utf16_name_size utf16_string_size =>
    ((libfsntfs_attribute_get_utf16_name_size E a utf16_string_size).result,
      internal_attribute, file_io_handle)
  | .get_utf16_name utf16_string utf16_string_size =>
    ((libfsntfs_attribute_get_utf16_name E a utf16_string utf16_string_size).result,
      internal_attribute, file_io_handle)
  | .get_data_vcn_range data_first_vcn data_last_vcn =>
    ((libfsntfs_attribute_get_data_vcn_range E a data_first_vcn data_last_vcn).result,
      internal_attribute, file_io_handle)
  | .get_file_reference mft_entry_index sequence_number =>
    ((libfsntfs_attribute_get_file_reference a mft_entry_index sequence_number).result,
      internal_attribute, file_io_handle)
  | .get_data_size data_size =>
    ((libfsntfs_attribute_get_data_size E a data_size).result, internal_attribute,
      file_io_handle)
  | .get_valid_data_size valid_data_size =>
    ((libfsntfs_attribute_get_valid_data_size E a valid_data_size).result,
      internal_attribute, file_io_handle)
  | .get_number_of_data_runs number_of_data_runs =>
    ((libfsntfs_attribute_get_number_of_data_runs E a number_of_data_runs).result,
      internal_attribute, file_io_handle)
  | .get_data_run_by_index data_run_index data_run =>
    ((libfsntfs_attribute_get_data_run_by_index E a data_run_index data_run).result,
      internal_attribute, file_io_handle)

/-- A sequence of operations on a facade, one after the other: the facade and
the device handle after the last. -/
def perform_operations (E : collaborators V W H S C K) :
    List (facade_operation H) → libfsntfs_internal_attribute V → W →
      libfsntfs_internal_attribute V × W
  | [], internal_attribute, file_io_handle => (internal_attribute, file_io_handle)
  | operation :: rest, internal_attribute, file_io_handle =>
    let after := perform_operation E operation internal_attribute file_io_handle
    perform_operations E rest after.2.1 after.2.2

/-- The parser of a kind as the spec speaks of it ("select the parser by type;
parse; store"): create the container of the kind and read the data into it;
`none` when either step fails. -/
def parse_typed_value (E : collaborators V W H S C K) (kind : value_kind)
    (data : List Nat) : Option V :=
  match E.values_initialize kind with
  | none => none
  | some values =>
    let read := E.values_read_data kind values data
    if read.2 then some read.1 else none

/-- The identifier of a facade as the spec speaks of it: the identifier of the
collaborator that is bound. The facade stores no identifier of its own. -/
def facade_identifier (internal_attribute : libfsntfs_internal_attribute V) : Option Nat :=
  match internal_attribute.mft_attribute with
  | some mft_attribute => some mft_attribute.identifier
  | none => internal_attribute.attribute_list_entry.map fun entry => entry.identifier

end operations

/-! ## The name comparison and a concrete set of collaborators -/

/-- Modelled from the spec: the UTF-16 little-endian byte stream of a string of
7-bit characters, each character followed by a zero byte. -/
def utf16_stream_of_string : List Nat → List Nat
  | [] => []
  | character :: rest => character :: 0 :: utf16_stream_of_string rest

/-- Modelled from the spec: `libfsntfs_mft_attribute_compare_name_with_utf8_string`,
which is missing ("the attribute name equals the string, case sensitive,
UTF-16LE byte compare"): 1 when the name is the byte stream of the string, 0
when it is another name or there is no name. -/
def mft_attribute_compare_name_with_utf8_string (mft_attribute : libfsntfs_mft_attribute)
    (utf8_string : List Nat) : Int :=
  if mft_attribute.name = some (utf16_stream_of_string utf8_string) then 1 else 0

/-- Modelled from the spec: `libfsntfs_attribute_list_entry_compare_name_with_utf8_string`,
which is missing: -1 without an entry, 1 when the name is the byte stream of
the string, 0 otherwise. -/
def attribute_list_entry_compare_name_with_utf8_string
    (attribute_list_entry : Option libfsntfs_attribute_list_entry) (utf8_string : List Nat) :
    Int :=
  match attribute_list_entry with
  | none => -1
  | some entry => if entry.name = some (utf16_stream_of_string utf8_string) then 1 else 0

/-- Modelled from the spec: the UTF-16 code units of a little-endian byte
stream, two bytes each (a trailing odd byte is dropped). -/
def code_units_of_utf16_stream : List Nat → List Nat
  | low :: high :: rest => (low + 256 * high) :: code_units_of_utf16_stream rest
  | _ => []

/-- Modelled from the spec: the little-endian byte stream of UTF-16 code units,
the re-encoding of a UTF-16 string. -/
def utf16_stream_of_code_units : List Nat → List Nat
  | [] => []
  | unit :: rest => unit % 256 :: unit / 256 :: utf16_stream_of_code_units rest

/-- Modelled from the spec: the UTF-8 bytes of one Unicode character. -/
def utf8_of_character (character : Nat) : List Nat :=
  if character < 0x80 then [character]
  else if character < 0x800 then [0xc0 + character / 64, 0x80 + character % 64]
  else if character < 0x10000 then
    [0xe0 + character / 4096, 0x80 + character / 64 % 64, 0x80 + character % 64]
  else
    [0xf0 + character / 262144, 0x80 + character / 4096 % 64, 0x80 + character / 64 % 64,
      0x80 + character % 64]

/-- Modelled from the spec: the UTF-8 bytes of a string of UTF-16 code units; a
high surrogate followed by a low surrogate is one character. -/
def utf8_of_code_units : List Nat → List Nat
  | [] => []
  | [unit] => utf8_of_character unit
  | unit :: next :: rest =>
    if 0xd800 ≤ unit ∧ unit < 0xdc00 ∧ 0xdc00 ≤ next ∧ next < 0xe000 then
      utf8_of_character (0x10000 + (unit - 0xd800) * 0x400 + (next - 0xdc00))
        ++ utf8_of_code_units rest
    else utf8_of_character unit ++ utf8_of_code_units (next :: rest)

/-- Modelled from the spec: the size of the UTF-16 name of an attribute or list
entry, whose accessors are missing: the number of code units of the name plus
one for the end-of-string character, and 0 when there is no name (as the tests
of the list entry expect). `none` is failure: no output address. -/
def name_get_utf16_string_size (name : Option (List Nat)) (utf16_string_size : Bool) :
    Option Nat :=
  if !utf16_string_size then none
  else
    match name with
    | none => some 0
    | some stream => some ((code_units_of_utf16_stream stream).length + 1)

/-- Modelled from the spec: the UTF-16 name of an attribute or list entry: the
code units of the name followed by the end-of-string character. It fails
without a name, without a buffer, or with a buffer smaller than the size. -/
def name_get_utf16_string (name : Option (List Nat)) (utf16_string : Bool)
    (utf16_string_size : Nat) : Option (List Nat) :=
  match name with
  | none => none
  | some stream =>
    if !utf16_string
        || decide (utf16_string_size < (code_units_of_utf16_stream stream).length + 1) then
      none
    else some (code_units_of_utf16_stream stream ++ [0])

/-- Modelled from the spec: the size of the UTF-8 name of an attribute or list
entry: the number of bytes of the name in UTF-8 plus one for the end-of-string
character, and 0 when there is no name. -/
def name_get_utf8_string_size (name : Option (List Nat)) (utf8_string_size : Bool) :
    Option Nat :=
  if !utf8_string_size then none
  else
    match name with
    | none => some 0
    | some stream => some ((utf8_of_code_units (code_units_of_utf16_stream stream)).length + 1)

/-- Modelled from the spec: the UTF-8 name of an attribute or list entry: the
bytes of the name in UTF-8 followed by the end-of-string character. -/
def name_get_utf8_string (name : Option (List Nat)) (utf8_string : Bool)
    (utf8_string_size : Nat) : Option (List Nat) :=
  match name with
  | none => none
  | some stream =>
    if !utf8_string
        || decide (utf8_string_size
            < (utf8_of_code_units (code_units_of_utf16_stream stream)).length + 1) then
      none
    else some (utf8_of_code_units (code_units_of_utf16_stream stream) ++ [0])

/-- A concrete set of collaborators on which the model can be evaluated. A
typed value holds the bytes read into it, the device handle counts the reads
made, a resident MFT attribute (`non_resident_flag` 0) has `data_size` zero
bytes of data, the names are read as the spec says, the cluster-block vector
is the list of its blocks, and the flag and mask are those of libfsntfs (0x01
and 0x00ff). -/
def sample_collaborators :
    collaborators (List Nat) Nat Unit Unit (List libfsntfs_cluster_block) Unit where
  LIBFSNTFS_FILE_ENTRY_FLAGS_MFT_ONLY := 0x01
  LIBFSNTFS_ATTRIBUTE_FLAG_COMPRESSION_MASK := 0x00ff
  libfsntfs_mft_attribute_get_type := fun m _ => some m.type
  libfsntfs_mft_attribute_get_data_flags := fun m _ => some m.data_flags
  libfsntfs_mft_attribute_get_utf8_name_size := fun m => name_get_utf8_string_size m.name
  libfsntfs_mft_attribute_get_utf8_name := fun m => name_get_utf8_string m.name
  libfsntfs_mft_attribute_get_utf16_name_size := fun m => name_get_utf16_string_size m.name
  libfsntfs_mft_attribute_get_utf16_name := fun m => name_get_utf16_string m.name
  libfsntfs_mft_attribute_get_data_vcn_range := fun m =>
    if m.non_resident_flag = 0 then (0, none)
    else (1, some (m.data_first_vcn, m.data_last_vcn))
  libfsntfs_mft_attribute_compare_name_with_utf8_string :=
    mft_attribute_compare_name_with_utf8_string
  libfsntfs_mft_attribute_get_data_size := fun m _ => some m.data_size
  libfsntfs_mft_attribute_get_data := fun m _ _ =>
    if m.non_resident_flag = 0 then some (some (List.replicate m.data_size 0))
    else some none
  libfsntfs_mft_attribute_get_valid_data_size := fun m _ => some m.valid_data_size
  libfsntfs_mft_attribute_get_number_of_data_runs := fun _ _ => some 0
  libfsntfs_mft_attribute_get_data_run_by_index := fun _ _ _ => none
  libfsntfs_attribute_list_entry_get_type := fun e _ => e.map fun entry => entry.type
  libfsntfs_attribute_list_entry_get_utf8_name_size := fun e size =>
    e.bind fun entry => name_get_utf8_string_size entry.name size
  libfsntfs_attribute_list_entry_get_utf8_name := fun e string size =>
    e.bind fun entry => name_get_utf8_string entry.name string size
  libfsntfs_attribute_list_entry_get_utf16_name_size := fun e size =>
    e.bind fun entry => name_get_utf16_string_size entry.name size
  libfsntfs_attribute_list_entry_get_utf16_name := fun e string size =>
    e.bind fun entry => name_get_utf16_string entry.name string size
  libfsntfs_attribute_list_entry_compare_name_with_utf8_string :=
    attribute_list_entry_compare_name_with_utf8_string
  values_initialize := fun _ => some []
  values_read_data := fun _ values data => (values ++ data, true)
  values_free := fun _ _ => (none, 1)
  libfsntfs_security_descriptor_values_read_stream := fun values reads _ =>
    ((values, true), reads + 1)
  libfsntfs_cluster_block_stream_initialize := fun _ _ => some ()
  libfdata_stream_free := fun _ => true
  libfsntfs_cluster_block_vector_initialize := fun _ _ => some []
  libfcache_cache_initialize := fun _ => some ()
  libfdata_vector_get_number_of_elements := fun blocks => some blocks.length
  libfdata_vector_get_element_value_by_index := fun blocks reads cache index =>
    ((some (blocks.get? index.toNat), reads + 1), cache)
  libfdata_vector_free := fun _ => true
  libfcache_cache_free := fun _ => true

/-- A resident MFT attribute of a given type and name, with four bytes of
data. -/
def sample_mft_attribute (type : Nat) (name : Option (List Nat)) : libfsntfs_mft_attribute :=
  ⟨type, 32, 0, (name.getD []).length, 0, 1, 4, 24, 0, 0, 0, 0, 0, 0, name⟩

/-- A non-resident MFT attribute of a given type, without a name. -/
def sample_non_resident_mft_attribute (type : Nat) : libfsntfs_mft_attribute :=
  ⟨type, 72, 1, 0, 0, 2, 4096, 0, 0, 0, 64, 0, 4096, 4096, none⟩

/-- A facade bound to an MFT attribute, as `libfsntfs_attribute_initialize`
leaves it, with a given file reference. -/
def sample_attribute (mft_attribute : libfsntfs_mft_attribute) (file_reference : Nat) :
    libfsntfs_internal_attribute (List Nat) :=
  ⟨some mft_attribute, none, file_reference, none, none⟩

/-- A facade with a cached volume name value, as a successful
`libfsntfs_attribute_read_value` leaves it. -/
def sample_cached_attribute : libfsntfs_internal_attribute (List Nat) :=
  ⟨some (sample_mft_attribute LIBFSNTFS_ATTRIBUTE_TYPE_VOLUME_NAME none), none, 0,
    some ⟨.volume_name_values, [0x4b, 0x00, 0x57, 0x00]⟩, some .volume_name_values⟩

/-- The types the resident switch of `libfsntfs_attribute_read_value` parses
with one fixed parser, each with the kind of value it creates. -/
def resident_value_kinds : List (Nat × value_kind) :=
  [(LIBFSNTFS_ATTRIBUTE_TYPE_BITMAP, .bitmap_values),
    (LIBFSNTFS_ATTRIBUTE_TYPE_FILE_NAME, .file_name_values),
    (LIBFSNTFS_ATTRIBUTE_TYPE_OBJECT_IDENTIFIER, .object_identifier_values),
    (LIBFSNTFS_ATTRIBUTE_TYPE_REPARSE_POINT, .reparse_point_values),
    (LIBFSNTFS_ATTRIBUTE_TYPE_SECURITY_DESCRIPTOR, .security_descriptor_values),
    (LIBFSNTFS_ATTRIBUTE_TYPE_STANDARD_INFORMATION, .standard_information_values),
    (LIBFSNTFS_ATTRIBUTE_TYPE_VOLUME_INFORMATION, .volume_information_values),
    (LIBFSNTFS_ATTRIBUTE_TYPE_VOLUME_NAME, .volume_name_values)]

/-- The types the non-resident switch of `libfsntfs_attribute_read_value`
rejects as unsupported. -/
def resident_only_types : List Nat :=
  [LIBFSNTFS_ATTRIBUTE_TYPE_FILE_NAME, LIBFSNTFS_ATTRIBUTE_TYPE_STANDARD_INFORMATION,
    LIBFSNTFS_ATTRIBUTE_TYPE_OBJECT_IDENTIFIER, LIBFSNTFS_ATTRIBUTE_TYPE_REPARSE_POINT,
    LIBFSNTFS_ATTRIBUTE_TYPE_VOLUME_INFORMATION, LIBFSNTFS_ATTRIBUTE_TYPE_VOLUME_NAME]

/-- The states of a facade that arise: what a successful
`libfsntfs_attribute_initialize` returns, after any sequence of operations. -/
def facade_reachable {V W H S C K : Type} (E : collaborators V W H S C K)
    (internal_attribute : libfsntfs_internal_attribute V) : Prop :=
  ∃ (sys : system_services) (attribute_slot : Option (Option (libfsntfs_internal_attribute V)))
    (mft_attribute : Option libfsntfs_mft_attribute)
    (attribute_list_entry : Option libfsntfs_attribute_list_entry)
    (initial : libfsntfs_internal_attribute V) (operations : List (facade_operation H))
    (file_io_handle : W),
    ( libfsntfs_attribute_initialize sys attribute_slot mft_attribute
      attribute_list_entry).result = 1
    ∧ ( libfsntfs_attribute_initialize sys attribute_slot mft_attribute
      attribute_list_entry).out = some (some initial)
    ∧ (perform_operations E operations initial file_io_handle).1 = internal_attribute

/-- What it means that a call of `libfsntfs_attribute_read_value` on a present
facade parses `data` with the parser of `kind`: the call returns 1 exactly when
that parser succeeds on `data` and -1 otherwise; when it returns 1 it sets no
error and leaves the facade with the result of the parser as cached value of
that kind; in either case the deleter registered is the one of that kind, and
the device handle is not touched. -/
def read_value_parses_with {V W H S C K : Type} (E : collaborators V W H S C K)
    (a : libfsntfs_internal_attribute V) (io_handle : H) (file_io_handle : W) (flags : Nat)
    (kind : value_kind) (data : List Nat) : Prop :=
  ((libfsntfs_attribute_read_value E (some a) io_handle file_io_handle flags).result = 1
      ↔ (parse_typed_value E kind data).isSome = true)
    ∧ ((libfsntfs_attribute_read_value E (some a) io_handle file_io_handle flags).result = 1
      ∨ (libfsntfs_attribute_read_value E (some a) io_handle file_io_handle flags).result
        = -1)
    ∧ ((libfsntfs_attribute_read_value E (some a) io_handle file_io_handle flags).result = 1 →
      libfsntfs_attribute_read_value E (some a) io_handle file_io_handle flags
        = ⟨1, none, ⟨some ⟨a.mft_attribute, a.attribute_list_entry, a.file_reference,
            (parse_typed_value E kind data).map fun content => ⟨kind, content⟩,
            some kind⟩, file_io_handle, []⟩⟩)
    ∧ (∃ after, (libfsntfs_attribute_read_value E (some a) io_handle file_io_handle
        flags).out.internal_attribute = some after ∧ after.free_value = some kind)
    ∧ (libfsntfs_attribute_read_value E (some a) io_handle file_io_handle
        flags).out.file_io_handle = file_io_handle
    ∧ (libfsntfs_attribute_read_value E (some a) io_handle file_io_handle
        flags).out.events = []

/-- The types for which the non-resident switch of
`libfsntfs_attribute_read_value` creates an empty container, each with the
kind of container it creates. -/
def non_resident_value_kinds : List (Nat × value_kind) :=
  [(LIBFSNTFS_ATTRIBUTE_TYPE_BITMAP, .bitmap_values),
    (LIBFSNTFS_ATTRIBUTE_TYPE_SECURITY_DESCRIPTOR, .security_descriptor_values)]

/-- The types that have a case of their own in a switch of
`libfsntfs_attribute_read_value` which creates a value or fails; every other
type ends in `break` in both switches. -/
def materialized_types : List Nat :=
  [LIBFSNTFS_ATTRIBUTE_TYPE_BITMAP, LIBFSNTFS_ATTRIBUTE_TYPE_FILE_NAME,
    LIBFSNTFS_ATTRIBUTE_TYPE_LOGGED_UTILITY_STREAM, LIBFSNTFS_ATTRIBUTE_TYPE_OBJECT_IDENTIFIER,
    LIBFSNTFS_ATTRIBUTE_TYPE_REPARSE_POINT, LIBFSNTFS_ATTRIBUTE_TYPE_SECURITY_DESCRIPTOR,
    LIBFSNTFS_ATTRIBUTE_TYPE_STANDARD_INFORMATION, LIBFSNTFS_ATTRIBUTE_TYPE_VOLUME_INFORMATION,
    LIBFSNTFS_ATTRIBUTE_TYPE_VOLUME_NAME]

/-- Modelled from the spec: what the `libfsntfs_<kind>_free` functions, which
are missing, do to the slot they are given ("release partially-allocated
values via the registered deleter"): they release the container and leave the
slot empty. -/
def deleters_release {V W H S C K : Type} (E : collaborators V W H S C K) : Prop :=
  ∀ (kind : value_kind) (value : attribute_value V), (E.values_free kind value).1 = none

/-- A non-resident MFT attribute of a given type with the compression flag
0x0001 set and a compression unit size of 4. -/
def sample_compressed_mft_attribute (type : Nat) : libfsntfs_mft_attribute :=
  ⟨type, 72, 1, 0, 0x0001, 3, 65536, 0, 0, 15, 64, 4, 65536, 65536, none⟩

/-! ## The attribute-list entry -/

/-- Modelled from the spec: the unsigned integer a little-endian byte stream
stands for. -/
def byte_stream_to_uint_little_endian : List Nat → Nat
  | [] => 0
  | byte :: rest => byte + 256 * byte_stream_to_uint_little_endian rest

/-- The field of `size` bytes at `offset` of a little-endian layout. -/
def little_endian_field (data : List Nat) (offset size : Nat) : Nat :=
  byte_stream_to_uint_little_endian ((data.drop offset).take size)

/-- Modelled from the spec: the error kinds of the spec a parser fails with. -/
inductive error_kind where
  | InvalidArgument
  | AlreadyInitialized
  | Truncated
  | NameOutOfBounds
  deriving DecidableEq, Repr

/-- The attribute-list entry as `libfsntfs_attribute_list_entry_initialize`
leaves it: all fields zero, no name. -/
def blank_attribute_list_entry : libfsntfs_attribute_list_entry :=
  ⟨0, 0, 0, 0, 0, 0, none⟩

/-- The name offset of an attribute-list entry: the byte at offset 7. -/
def attribute_list_entry_name_offset (data : List Nat) : Nat :=
  little_endian_field data 7 1

/-- Modelled from the spec: `libfsntfs_attribute_list_entry_read_data`, which
is missing (only its tests are there). The fixed layout is type (u32 at 0), size
(u16 at 4), name_length (u8 at 6), name_offset (u8 at 7), start_vcn (u64 at 8),
file_reference (u64 at 16), identifier (u16 at 24), 26 bytes, then the name of
name_length UTF-16 code units at name_offset. The spec requires size ≥ 0x19
and name_offset + 2·name_length ≤ size, and a size within the bytes available.
As in the tests the call fails without an entry, without data, and on an
entry that is no longer blank (one that was populated before, or whose name
has been set). An entry with name_length 0 has no name. -/
def libfsntfs_attribute_list_entry_read_data
    (attribute_list_entry : Option libfsntfs_attribute_list_entry)
    (data : Option (List Nat)) : Except error_kind libfsntfs_attribute_list_entry :=
  match attribute_list_entry with
  | none => .error .InvalidArgument
  | some entry =>
    if entry ≠ blank_attribute_list_entry then .error .AlreadyInitialized
    else
      match data with
      | none => .error .InvalidArgument
      | some data =>
        if data.length < 26 then .error .Truncated
        else
          let size := little_endian_field data 4 2
          let name_length := little_endian_field data 6 1
          let name_offset := attribute_list_entry_name_offset data
          if size < 0x19 ∨ data.length < size then .error .Truncated
          else if size < name_offset + 2 * name_length then .error .NameOutOfBounds
          else
            .ok ⟨little_endian_field data 0 4, size, name_length,
              little_endian_field data 8 8, little_endian_field data 16 8,
              little_endian_field data 24 2,
              if name_length = 0 then none
              else some ((data.drop name_offset).take (2 * name_length))⟩

/-- The 40 bytes `fsntfs_test_attribute_list_entry_data1` of the tests. -/
def fsntfs_test_attribute_list_entry_data1 : List Nat :=
  [0x80, 0x00, 0x00, 0x00, 0x28, 0x00, 0x04, 0x1a, 0x00, 0x00, 0x00, 0x00, 0x00, 0x00, 0x00,
    0x00, 0xc8, 0x08, 0x00, 0x00, 0x00, 0x00, 0x01, 0x00, 0x00, 0x00, 0x24, 0x00, 0x53, 0x00,
    0x44, 0x00, 0x53, 0x00, 0x00, 0x00, 0x00, 0x00, 0x00, 0x00]

/-- Whether a call of the attribute-list entry parser failed. -/
def failed {α : Type} (call : Except error_kind α) : Bool :=
  match call with
  | .error _ => true
  | .ok _ => false

/-- The test bytes with the declared size (offsets 4 and 5) set to 0xffff. -/
def fsntfs_test_attribute_list_entry_data1_size_0xffff : List Nat :=
  (fsntfs_test_attribute_list_entry_data1.set 4 0xff).set 5 0xff

/-- The test bytes with the name offset (offset 7) set to 0xff. -/
def fsntfs_test_attribute_list_entry_data1_name_offset_0xff : List Nat :=
  fsntfs_test_attribute_list_entry_data1.set 7 0xff

/-- The test bytes with the name length (offset 6) set to 0xff. -/
def fsntfs_test_attribute_list_entry_data1_name_length_0xff : List Nat :=
  fsntfs_test_attribute_list_entry_data1.set 6 0xff

/-- The attribute-list entry of the spec's first scenario: type 0x80, size 40,
the name "$SDS", file reference 0x00010000000008C8. -/
def sample_attribute_list_entry : libfsntfs_attribute_list_entry :=
  ⟨0x80, 40, 4, 0, 0x00010000000008C8, 0, some [0x24, 0x00, 0x53, 0x00, 0x44, 0x00, 0x53, 0x00]⟩

/-- A facade bound to an attribute-list entry, as
`libfsntfs_attribute_initialize` leaves it. -/
def sample_list_entry_attribute (attribute_list_entry : libfsntfs_attribute_list_entry) :
    libfsntfs_internal_attribute (List Nat) :=
  ⟨none, some attribute_list_entry, 0, none, none⟩

/-- The concrete collaborators with every accessor of the attribute-list entry
failing. -/
def sample_collaborators_failing_list_entry :
    collaborators (List Nat) Nat Unit Unit (List libfsntfs_cluster_block) Unit :=
  { sample_collaborators with
    libfsntfs_attribute_list_entry_get_type := fun _ _ => none
    libfsntfs_attribute_list_entry_get_utf8_name_size := fun _ _ => none
    libfsntfs_attribute_list_entry_get_utf8_name := fun _ _ _ => none
    libfsntfs_attribute_list_entry_get_utf16_name_size := fun _ _ => none
    libfsntfs_attribute_list_entry_get_utf16_name := fun _ _ _ => none
    libfsntfs_attribute_list_entry_compare_name_with_utf8_string := fun _ _ => -1 }

/-- What it means that an accessor of the facade routes to an accessor of a
collaborator: it writes the outputs of that accessor, returns 1 exactly when
that accessor succeeds and -1 exactly when it fails. -/
def routes_to {α : Type} (call : call_result (Option α)) (collaborator : Option α) : Prop :=
  call.out = collaborator
    ∧ (call.result = 1 ↔ collaborator.isSome = true)
    ∧ (call.result = -1 ↔ collaborator = none)

/-- What the name invariance of the spec says of a facade whose bound
collaborator has the name `name` of `name_length` UTF-16 code units: the UTF-16
name size is name_length + 1, the UTF-16 name read into a buffer of that size
is a string ending in the end-of-string character whose code units re-encode
to the bytes of the name, and a name of 7-bit characters has the UTF-8 name
size name_length + 1 as well. -/
def name_reads_back {V W H S C K : Type} (E : collaborators V W H S C K)
    (a : libfsntfs_internal_attribute V) (name : List Nat) (name_length : Nat) : Prop :=
  libfsntfs_attribute_get_utf16_name_size E (some a) true = ⟨1, none, some (name_length + 1)⟩
    ∧ (∃ code_units,
        libfsntfs_attribute_get_utf16_name E (some a) true (name_length + 1)
          = ⟨1, none, some (code_units ++ [0])⟩
        ∧ code_units.length = name_length
        ∧ utf16_stream_of_code_units code_units = name)
    ∧ ((∀ code_unit ∈ code_units_of_utf16_stream name, code_unit < 0x80) →
        libfsntfs_attribute_get_utf8_name_size E (some a) true
          = ⟨1, none, some (name_length + 1)⟩)

/-- The collaborators whose name accessors are those modelled from the spec. -/
def name_accessors_as_specified {V W H S C K : Type} (E : collaborators V W H S C K) : Prop :=
  (∀ m size, E.libfsntfs_mft_attribute_get_utf16_name_size m size
      = name_get_utf16_string_size m.name size)
    ∧ (∀ m string size, E.libfsntfs_mft_attribute_get_utf16_name m string size
      = name_get_utf16_string m.name string size)
    ∧ (∀ m size, E.libfsntfs_mft_attribute_get_utf8_name_size m size
      = name_get_utf8_string_size m.name size)
    ∧ (∀ entry size, E.libfsntfs_attribute_list_entry_get_utf16_name_size (some entry) size
      = name_get_utf16_string_size entry.name size)
    ∧ (∀ entry string size,
      E.libfsntfs_attribute_list_entry_get_utf16_name (some entry) string size
        = name_get_utf16_string entry.name string size)
    ∧ (∀ entry size, E.libfsntfs_attribute_list_entry_get_utf8_name_size (some entry) size
      = name_get_utf8_string_size entry.name size)

/-- Modelled from the spec: what `libfsntfs_mft_attribute_get_data_run_by_index`,
which is missing, does when it is handed no MFT attribute ("InvalidArgument:
nil pointer"): it fails, for every index. -/
def mft_attribute_accessors_reject_absent {V W H S C K : Type}
    (E : collaborators V W H S C K) : Prop :=
  ∀ (data_run_index : Int) (data_run : Bool),
    E.libfsntfs_mft_attribute_get_data_run_by_index none data_run_index data_run = none

/-- Modelled from the spec: what the accessors of the attribute-list entry,
which are missing, do when they are handed no output address ("InvalidArgument:
nil pointer", and the tests of the list entry): they fail. -/
def list_entry_accessors_require_output {V W H S C K : Type}
    (E : collaborators V W H S C K) : Prop :=
  ∀ (attribute_list_entry : Option libfsntfs_attribute_list_entry) (size : Nat),
    E.libfsntfs_attribute_list_entry_get_type attribute_list_entry false = none
    ∧ E.libfsntfs_attribute_list_entry_get_utf8_name_size attribute_list_entry false = none
    ∧ E.libfsntfs_attribute_list_entry_get_utf8_name attribute_list_entry false size = none
    ∧ E.libfsntfs_attribute_list_entry_get_utf16_name_size attribute_list_entry false = none
    ∧ E.libfsntfs_attribute_list_entry_get_utf16_name attribute_list_entry false size = none

/-- The concrete collaborators with a type accessor of the attribute-list
entry that looks at its output address. -/
def sample_collaborators_checking_output :
    collaborators (List Nat) Nat Unit Unit (List libfsntfs_cluster_block) Unit :=
  { sample_collaborators with
    libfsntfs_attribute_list_entry_get_type := fun e type =>
      if type then e.map fun entry => entry.type else none }

/-- An attribute-list entry of a given type, without a name. -/
def sample_attribute_list_entry_of_type (type : Nat) : libfsntfs_attribute_list_entry :=
  ⟨type, 32, 0, 0, 5, 0, none⟩

/-! ## libfsntfs_internal_attribute_free -/

/-- The outcome of the two services `libfsntfs_internal_attribute_free` relies
on besides the deleter of the value: `libcthreads_read_write_lock_free`, called
with multi-thread support (`HAVE_LIBFSNTFS_MULTI_THREAD_SUPPORT`) only and
taken as succeeding without it, and `libfsntfs_mft_attribute_free`, declared in
`libfsntfs_mft_attribute.h`: the value it returns for the MFT attribute whose
slot it is handed. -/
structure release_services where
  read_write_lock_free_ok : Bool
  libfsntfs_mft_attribute_free : libfsntfs_mft_attribute → Int

/-- The releases `libfsntfs_internal_attribute_free` makes, in the order made:
of the bound MFT attribute, of the cached value by the deleter of a kind, and
of the memory of the facade. -/
inductive release_call (V : Type) where
  | free_mft_attribute (mft_attribute : libfsntfs_mft_attribute)
  | free_value (kind : value_kind) (value : attribute_value V)
  | memory_free (internal_attribute : libfsntfs_internal_attribute V)
  deriving DecidableEq, Repr

/-- What `libfsntfs_internal_attribute_free` leaves behind: the caller's slot,
the releases made and the errors set, in the order set. -/
structure internal_attribute_free_state (V : Type) where
  internal_attribute : Option (Option (libfsntfs_internal_attribute V))
  released : List (release_call V)
  errors : List libcerror_error
  deriving DecidableEq, Repr

/-- The function `libfsntfs_internal_attribute_free`. The argument
`internal_attribute` is the caller's slot, as for
`libfsntfs_attribute_initialize`. The variable `result` starts at 1 and is set
to -1 by each release that fails; the pairs below hold `result` and the errors
set so far. The field `error` of the result is the first error set. -/
def libfsntfs_internal_attribute_free {V W H S C K : Type} (E : collaborators V W H S C K)
    (services : release_services)
    (internal_attribute : Option (Option (libfsntfs_internal_attribute V))) :
    call_result (internal_attribute_free_state V) :=
  match internal_attribute with
  | none =>
    ⟨-1, some ⟨.LIBCERROR_ARGUMENT_ERROR_INVALID_VALUE, "%s: invalid attribute."⟩,
      ⟨none, [], [⟨.LIBCERROR_ARGUMENT_ERROR_INVALID_VALUE, "%s: invalid attribute."⟩]⟩⟩
  | some none => ⟨1, none, ⟨some none, [], []⟩⟩
  | some (some a) =>
    let after_lock : Int × List libcerror_error :=
      if !services.read_write_lock_free_ok then
        (-1, [⟨.LIBCERROR_RUNTIME_ERROR_FINALIZE_FAILED, "%s: unable to free read/write lock."⟩])
      else (1, [])
    let after_mft_attribute : Int × List libcerror_error :=
      match a.mft_attribute with
      | some mft_attribute =>
        if services.libfsntfs_mft_attribute_free mft_attribute ≠ 1 then
          (-1, after_lock.2
            ++ [⟨.LIBCERROR_RUNTIME_ERROR_FINALIZE_FAILED, "%s: unable to free MFT attribute."⟩])
        else after_lock
      | none => after_lock
    let after_value : Int × List libcerror_error :=
      match a.value, a.free_value with
      | some value, some free_value =>
        if (E.values_free free_value value).2 ≠ 1 then
          (-1, after_mft_attribute.2
            ++ [⟨.LIBCERROR_RUNTIME_ERROR_FINALIZE_FAILED,
              "%s: unable to free attribute value."⟩])
        else after_mft_attribute
      | _, _ => after_mft_attribute
    let released : List (release_call V) :=
      (match a.mft_attribute with
        | some mft_attribute => [.free_mft_attribute mft_attribute]
        | none => [])
      ++ (match a.value, a.free_value with
        | some value, some free_value => [.free_value free_value value]
        | _, _ => [])
      ++ [.memory_free a]
    ⟨after_value.1, after_value.2.head?, ⟨some none, released, after_value.2⟩⟩

/-- The concrete release services: the lock and the MFT attribute are
released without failure. -/
def sample_release_services : release_services := ⟨true, fun _ => 1⟩

/-- The concrete release services in a build with multi-thread support in
which the release of the read/write lock fails. -/
def sample_release_services_failing_lock : release_services := ⟨false, fun _ => 1⟩

/-- The cached value of a facade comes with its deleter: when a value is
cached, a deleter is registered and it is the one of the kind of the value. -/
def value_has_deleter {V : Type} (internal_attribute : libfsntfs_internal_attribute V) :
    Prop :=
  ∀ value, internal_attribute.value = some value →
    internal_attribute.free_value = some value.kind

/-- Modelled from the spec: what the `libfsntfs_<kind>_free` functions, which
are missing, can leave in the slot they are given: nothing, or a container of
their own kind (one they could not release). -/
def deleters_keep_kind {V W H S C K : Type} (E : collaborators V W H S C K) : Prop :=
  ∀ (kind : value_kind) (value left : attribute_value V),
    (E.values_free kind value).1 = some left → left.kind = kind

/-! ## The cluster blocks of a bitmap -/

section bitmap_blocks

variable {V W H S C K : Type}

/-- The data of the `count` cluster blocks of a vector from the index
`cluster_block_index` on, in increasing order of index, as
`libfdata_vector_get_element_value_by_index` hands them out one after the
other, each call working on the device handle and the cache the call before
left, together with the device handle and the cache after the last call made.
The data is `none` once a block cannot be retrieved, is missing or has no
data; no later block is then asked for. -/
def cluster_block_data_in_order (E : collaborators V W H S C K) (cluster_block_vector : C) :
    Nat → Int → W → K → Option (List (List Nat)) × W × K
  | 0, _, file_io_handle, cluster_block_cache => (some [], file_io_handle, cluster_block_cache)
  | count + 1, cluster_block_index, file_io_handle, cluster_block_cache =>
    let element := E.libfdata_vector_get_element_value_by_index cluster_block_vector
      file_io_handle cluster_block_cache cluster_block_index
    match element.1.1 with
    | some (some cluster_block) =>
      match cluster_block.data with
      | some data =>
        let rest := cluster_block_data_in_order E cluster_block_vector count
          (cluster_block_index + 1) element.1.2 element.2
        (rest.1.map fun later => data :: later, rest.2)
      | none => (none, element.1.2, element.2)
    | _ => (none, element.1.2, element.2)

/-- The append-only bitmap parser fed the data of blocks one after the other,
in the order of the list: the value after the last block, `none` once the
parser rejects a block. -/
def bitmap_values_of_blocks (E : collaborators V W H S C K) : V → List (List Nat) → Option V
  | values, [] => some values
  | values, data :: later =>
    let read := E.values_read_data .bitmap_values values data
    if read.2 then bitmap_values_of_blocks E read.1 later else none

/-- The calls that get the `count` cluster blocks from the index `first` on,
each once, in increasing order of index. -/
def cluster_block_calls (first : Int) (count : Nat) : List device_event :=
  (List.range count).map fun (offset : Nat) => .get_cluster_block (first + (offset : Int))

/-- The `count` cluster blocks from the index `cluster_block_index` on are all
handed out with data and the bitmap parser, starting from `values` and fed
their data in order, accepts each. -/
def cluster_blocks_accepted (E : collaborators V W H S C K) (cluster_block_vector : C)
    (count : Nat) (cluster_block_index : Int) (values : V) (file_io_handle : W)
    (cluster_block_cache : K) : Prop :=
  ∃ datas parsed,
    (cluster_block_data_in_order E cluster_block_vector count cluster_block_index
      file_io_handle cluster_block_cache).1 = some datas
    ∧ bitmap_values_of_blocks E values datas = some parsed

/-- Among the `count` cluster blocks from the index `cluster_block_index` on
there is one that cannot be retrieved, is missing, has no data or is rejected
by the bitmap parser fed the data of the blocks in order. -/
def cluster_blocks_refused (E : collaborators V W H S C K) (cluster_block_vector : C)
    (count : Nat) (cluster_block_index : Int) (values : V) (file_io_handle : W)
    (cluster_block_cache : K) : Prop :=
  (cluster_block_data_in_order E cluster_block_vector count cluster_block_index
      file_io_handle cluster_block_cache).1 = none
    ∨ ∃ datas,
      (cluster_block_data_in_order E cluster_block_vector count cluster_block_index
        file_io_handle cluster_block_cache).1 = some datas
      ∧ bitmap_values_of_blocks E values datas = none

end bitmap_blocks

/-- The concrete collaborators with a cluster-block vector of two blocks, of
the bytes 1, 2 and of the byte 3. -/
def sample_collaborators_two_blocks :
    collaborators (List Nat) Nat Unit Unit (List libfsntfs_cluster_block) Unit :=
  { sample_collaborators with
    libfsntfs_cluster_block_vector_initialize := fun _ _ => some [⟨some [1, 2]⟩, ⟨some [3]⟩] }

/-- The concrete collaborators with a cluster-block vector of three blocks of
which the second has no data. -/
def sample_collaborators_block_without_data :
    collaborators (List Nat) Nat Unit Unit (List libfsntfs_cluster_block) Unit :=
  { sample_collaborators with
    libfsntfs_cluster_block_vector_initialize := fun _ _ =>
      some [⟨some [1, 2]⟩, ⟨none⟩, ⟨some [3]⟩] }

/-- A resident volume name without a label: `non_resident_flag` 0 and
`data_size` 0. -/
def sample_empty_volume_name_mft_attribute : libfsntfs_mft_attribute :=
  ⟨0x60, 24, 0, 0, 0, 1, 0, 24, 0, 0, 0, 0, 0, 0, none⟩

/-- Modelled from the spec: what `libfsntfs_mft_attribute_get_data`, which is
missing, hands back ("Resident branch: read data_size, data_offset; the data
slice is [data_offset, data_offset+data_size) inside the record", "Fetch
resident data slice via the facade"): for a resident attribute
(`non_resident_flag` clear) the data slice of `data_size` bytes, which may be
empty, and for a non-resident attribute no slice. -/
def mft_attribute_get_data_as_specified {V W H S C K : Type}
    (E : collaborators V W H S C K) : Prop :=
  ∀ mft_attribute : libfsntfs_mft_attribute,
    (mft_attribute.non_resident_flag = 0 →
      ∃ data : List Nat, data.length = mft_attribute.data_size
        ∧ E.libfsntfs_mft_attribute_get_data mft_attribute true true = some (some data))
    ∧ (mft_attribute.non_resident_flag ≠ 0 →
      E.libfsntfs_mft_attribute_get_data mft_attribute true true = some none)

/-- The error with which `libfsntfs_attribute_read_value` rejects a type that
it parses from resident data only. -/
def unsupported_non_resident_error : libcerror_error :=
  ⟨.LIBCERROR_RUNTIME_ERROR_UNSUPPORTED_VALUE, "%s: unsupported non-resident attribute."⟩

/-- Two states of a facade that have the same bindings and the same file
reference. -/
def same_bindings {V : Type} (before after : libfsntfs_internal_attribute V) : Prop :=
  after.mft_attribute = before.mft_attribute
    ∧ after.attribute_list_entry = before.attribute_list_entry
    ∧ after.file_reference = before.file_reference

/-- Two outcomes of `libfsntfs_attribute_read_value` that differ at most in the
deleter registered in the facade: the same value returned, error, device
state and calls made, and facades with the same cached value, bindings and
file reference. -/
def same_outcome_up_to_deleter {V W : Type}
    (first second : call_result (read_value_state V W)) : Prop :=
  first.result = second.result
    ∧ first.error = second.error
    ∧ first.out.file_io_handle = second.out.file_io_handle
    ∧ first.out.events = second.out.events
    ∧ ∃ x y, first.out.internal_attribute = some x ∧ second.out.internal_attribute = some y
        ∧ x.value = y.value ∧ same_bindings x y

/-- What a failing `libfsntfs_attribute_read_value` leaves of a facade `before`
that had no cached value. Either nothing was created: the facade is as it was,
or it only has the deleter of a kind registered whose container could not be
created. Or a container of a kind was created: then the deleter of that kind is
registered and the slot of the value holds what that deleter, called on the
slot with the container in it, has left there. -/
def released_through_deleter {V W H S C K : Type} (E : collaborators V W H S C K)
    (before after : libfsntfs_internal_attribute V) : Prop :=
  after = before
    ∨ (∃ kind, E.values_initialize kind = none
        ∧ after = ⟨before.mft_attribute, before.attribute_list_entry, before.file_reference,
            none, some kind⟩)
    ∨ (∃ kind content, (E.values_initialize kind).isSome = true
        ∧ after = ⟨before.mft_attribute, before.attribute_list_entry, before.file_reference,
            (E.values_free kind ⟨kind, content⟩).1, some kind⟩)

/-- The concrete collaborators with deleters that fail and leave the container
in the slot. -/
def sample_collaborators_keeping_values :
    collaborators (List Nat) Nat Unit Unit (List libfsntfs_cluster_block) Unit :=
  { sample_collaborators with values_free := fun _ value => (some value, -1) }

/-! ## Theorems -/

section lemmas

variable {V W H S C K : Type}

theorem same_bindings_refl (a : libfsntfs_internal_attribute V) : same_bindings a a :=
  ⟨rfl, rfl, rfl⟩

theorem same_bindings_trans {a b c : libfsntfs_internal_attribute V}
    (hab : same_bindings a b) (hbc : same_bindings b c) : same_bindings a c :=
  ⟨hbc.1.trans hab.1, hbc.2.1.trans hab.2.1, hbc.2.2.trans hab.2.2⟩

theorem read_value_on_error_same (E : collaborators V W H S C K)
    (a : libfsntfs_internal_attribute V) : same_bindings a (read_value_on_error E a) := by
  unfold read_value_on_error
  split <;> exact ⟨rfl, rfl, rfl⟩

theorem read_value_on_error_of_value_none (E : collaborators V W H S C K)
    (a : libfsntfs_internal_attribute V) (h : a.value = none) :
    read_value_on_error E a = a := by
  unfold read_value_on_error
  split
  · rename_i hv _
    rw [h] at hv
    cases hv
  · rfl

theorem read_value_resident_values_same (E : collaborators V W H S C K)
    (a : libfsntfs_internal_attribute V) (kind : value_kind) (data : List Nat)
    (m1 m2 : String) :
    same_bindings a (read_value_resident_values E a kind data m1 m2).out := by
  unfold read_value_resident_values
  simp only []
  split
  · exact same_bindings_trans ⟨rfl, rfl, rfl⟩ (read_value_on_error_same E _)
  · split
    · exact ⟨rfl, rfl, rfl⟩
    · exact same_bindings_trans ⟨rfl, rfl, rfl⟩ (read_value_on_error_same E _)

theorem read_value_resident_same (E : collaborators V W H S C K)
    (a : libfsntfs_internal_attribute V) (attribute_type : Nat) (data : List Nat) :
    same_bindings a (read_value_resident E a attribute_type data).out := by
  unfold read_value_resident
  simp only []
  repeat' split
  all_goals first
    | exact read_value_resident_values_same E _ _ _ _ _
    | exact read_value_on_error_same E _
    | exact same_bindings_refl _

theorem read_value_non_resident_values_same (E : collaborators V W H S C K)
    (a : libfsntfs_internal_attribute V) (kind : value_kind) (m1 : String) :
    same_bindings a (read_value_non_resident_values E a kind m1).out := by
  unfold read_value_non_resident_values
  simp only []
  split
  · exact same_bindings_trans ⟨rfl, rfl, rfl⟩ (read_value_on_error_same E _)
  · exact ⟨rfl, rfl, rfl⟩

theorem read_value_non_resident_switch_same (E : collaborators V W H S C K)
    (a : libfsntfs_internal_attribute V) (attribute_type : Nat) :
    same_bindings a (read_value_non_resident_switch E a attribute_type).out := by
  unfold read_value_non_resident_switch
  repeat' split
  all_goals first
    | exact read_value_non_resident_values_same E _ _ _
    | exact read_value_on_error_same E _
    | exact same_bindings_refl _

theorem read_value_non_resident_data_same (E : collaborators V W H S C K)
    (a : libfsntfs_internal_attribute V) (value : attribute_value V) (attribute_type : Nat)
    (io_handle : H) (file_io_handle : W) :
    ∃ after, (read_value_non_resident_data E a value attribute_type io_handle
        file_io_handle).out.internal_attribute = some after ∧ same_bindings a after := by
  unfold read_value_non_resident_data read_value_fail
  simp only []
  repeat' split
  all_goals first
    | exact ⟨_, rfl, read_value_on_error_same E _⟩
    | exact ⟨_, rfl, same_bindings_trans ⟨rfl, rfl, rfl⟩ (read_value_on_error_same E _)⟩
    | exact ⟨_, rfl, ⟨rfl, rfl, rfl⟩⟩

theorem read_value_non_resident_same (E : collaborators V W H S C K)
    (a : libfsntfs_internal_attribute V) (attribute_type : Nat) (io_handle : H)
    (file_io_handle : W) (flags : Nat) :
    ∃ after, (read_value_non_resident E a attribute_type io_handle file_io_handle
        flags).out.internal_attribute = some after ∧ same_bindings a after := by
  have hs := read_value_non_resident_switch_same E a attribute_type
  unfold read_value_non_resident
  simp only []
  repeat' split
  all_goals first
    | exact ⟨_, rfl, hs⟩
    | (obtain ⟨after, h1, h2⟩ := read_value_non_resident_data_same E
        (read_value_non_resident_switch E a attribute_type).out ‹_› attribute_type io_handle
        file_io_handle
       exact ⟨after, h1, same_bindings_trans hs h2⟩)

theorem read_value_same (E : collaborators V W H S C K)
    (a : libfsntfs_internal_attribute V) (io_handle : H) (file_io_handle : W) (flags : Nat) :
    ∃ after, (libfsntfs_attribute_read_value E (some a) io_handle file_io_handle
        flags).out.internal_attribute = some after ∧ same_bindings a after := by
  unfold libfsntfs_attribute_read_value read_value_fail
  simp only []
  repeat' split
  all_goals first
    | exact ⟨_, rfl, same_bindings_refl _⟩
    | exact ⟨_, rfl, read_value_on_error_same E _⟩
    | exact ⟨_, rfl, read_value_resident_same E _ _ _⟩
    | exact read_value_non_resident_same E _ _ _ _ _

theorem perform_operation_same (E : collaborators V W H S C K)
    (operation : facade_operation H) (a : libfsntfs_internal_attribute V)
    (file_io_handle : W) :
    same_bindings a (perform_operation E operation a file_io_handle).2.1 := by
  cases operation
  case read_value io_handle flags =>
    obtain ⟨after, h1, h2⟩ := read_value_same E a io_handle file_io_handle flags
    simp only [perform_operation, h1, Option.getD_some]
    exact h2
  all_goals exact same_bindings_refl a

theorem perform_operations_same (E : collaborators V W H S C K)
    (operations : List (facade_operation H)) (a : libfsntfs_internal_attribute V)
    (file_io_handle : W) :
    same_bindings a (perform_operations E operations a file_io_handle).1 := by
  induction operations generalizing a file_io_handle with
  | nil => exact same_bindings_refl a
  | cons operation rest ih =>
    simp only [perform_operations]
    exact same_bindings_trans (perform_operation_same E operation a file_io_handle) (ih _ _)

end lemmas

/-! ### libfsntfs_attribute_initialize -/

/-- C1, as stated, fails on a call whose output slot already holds a facade:
with both bindings absent the call fails with the value-already-set error of
the runtime domain, not with an invalid-argument error, and the slot is not
empty afterwards. -/
theorem initialize_occupied_slot_counterexample :
    ( libfsntfs_attribute_initialize ⟨true, true, true⟩
        (some (some (sample_attribute (sample_mft_attribute 0x80 none) 0))) none none).error
      = some ⟨.LIBCERROR_RUNTIME_ERROR_VALUE_ALREADY_SET,
          "%s: invalid attribute value already set."⟩
    ∧ ( libfsntfs_attribute_initialize ⟨true, true, true⟩
        (some (some (sample_attribute (sample_mft_attribute 0x80 none) 0))) none none).out
      ≠ some none := by
  constructor
  · rfl
  · simp [ libfsntfs_attribute_initialize]

/-- C1, amended: for every call whose output slot is not already occupied (it
is empty, or the pointer to it is absent) and in which the MFT attribute and
the attribute-list entry are both absent or both present,
libfsntfs_attribute_initialize returns -1 with an invalid-argument error and
leaves the slot as it was, so an empty slot stays empty. -/
theorem initialize_both_or_neither_invalid_argument {V : Type} (sys : system_services)
    (attribute_slot : Option (Option (libfsntfs_internal_attribute V)))
    (mft_attribute : Option libfsntfs_mft_attribute)
    (attribute_list_entry : Option libfsntfs_attribute_list_entry)
    (hslot : ∀ a, attribute_slot ≠ some (some a))
    (hboth : mft_attribute.isSome = attribute_list_entry.isSome) :
    ( libfsntfs_attribute_initialize sys attribute_slot mft_attribute
        attribute_list_entry).result = -1
    ∧ (( libfsntfs_attribute_initialize sys attribute_slot mft_attribute
        attribute_list_entry).error.map fun e => e.code)
      = some .LIBCERROR_ARGUMENT_ERROR_INVALID_VALUE
    ∧ ( libfsntfs_attribute_initialize sys attribute_slot mft_attribute
        attribute_list_entry).out = attribute_slot
    ∧ (attribute_slot = some none →
        ( libfsntfs_attribute_initialize sys attribute_slot mft_attribute
          attribute_list_entry).out = some none) := by
  rcases attribute_slot with _ | _ | a
  · simp [ libfsntfs_attribute_initialize]
  · cases mft_attribute <;> cases attribute_list_entry <;>
      simp_all [ libfsntfs_attribute_initialize]
  · exact absurd rfl (hslot a)

/-- C1, amended, at an empty slot with both bindings present. -/
theorem initialize_both_or_neither_invalid_argument_witness :
    ( libfsntfs_attribute_initialize ⟨true, true, true⟩
        (some (none : Option (libfsntfs_internal_attribute (List Nat))))
        (some (sample_mft_attribute 0x80 none)) (some ⟨0x80, 32, 0, 0, 5, 0, none⟩)).result = -1
    ∧ (( libfsntfs_attribute_initialize ⟨true, true, true⟩
        (some (none : Option (libfsntfs_internal_attribute (List Nat))))
        (some (sample_mft_attribute 0x80 none))
        (some ⟨0x80, 32, 0, 0, 5, 0, none⟩)).error.map fun e => e.code)
      = some .LIBCERROR_ARGUMENT_ERROR_INVALID_VALUE
    ∧ ( libfsntfs_attribute_initialize ⟨true, true, true⟩
        (some (none : Option (libfsntfs_internal_attribute (List Nat))))
        (some (sample_mft_attribute 0x80 none)) (some ⟨0x80, 32, 0, 0, 5, 0, none⟩)).out
      = some none
    ∧ ((some (none : Option (libfsntfs_internal_attribute (List Nat)))) = some none →
        ( libfsntfs_attribute_initialize ⟨true, true, true⟩
          (some (none : Option (libfsntfs_internal_attribute (List Nat))))
          (some (sample_mft_attribute 0x80 none)) (some ⟨0x80, 32, 0, 0, 5, 0, none⟩)).out
        = some none) :=
  initialize_both_or_neither_invalid_argument ⟨true, true, true⟩ (some none)
    (some (sample_mft_attribute 0x80 none)) (some ⟨0x80, 32, 0, 0, 5, 0, none⟩)
    (by intro a h; cases h) rfl

/-- C2: a successful libfsntfs_attribute_initialize returns a facade in which
exactly one of the two bindings is bound, the bindings are those passed in, no
value is cached and the file reference is 0; and after any sequence of later
operations on it (libfsntfs_attribute_read_value and the accessors, with any
collaborators, arguments and device state) the facade still has exactly one
binding bound, the same one. -/
theorem initialize_binds_exactly_one {V W H S C K : Type} (sys : system_services)
    (attribute_slot : Option (Option (libfsntfs_internal_attribute V)))
    (mft_attribute : Option libfsntfs_mft_attribute)
    (attribute_list_entry : Option libfsntfs_attribute_list_entry)
    (hok : ( libfsntfs_attribute_initialize sys attribute_slot mft_attribute
      attribute_list_entry).result = 1) :
    ∃ a, ( libfsntfs_attribute_initialize sys attribute_slot mft_attribute
        attribute_list_entry).out = some (some a)
      ∧ a.mft_attribute = mft_attribute
      ∧ a.attribute_list_entry = attribute_list_entry
      ∧ (a.mft_attribute.isSome = !a.attribute_list_entry.isSome)
      ∧ a.value = none
      ∧ a.file_reference = 0
      ∧ ∀ (E : collaborators V W H S C K) (operations : List (facade_operation H))
          (file_io_handle : W),
          (perform_operations E operations a file_io_handle).1.mft_attribute = mft_attribute
          ∧ (perform_operations E operations a file_io_handle).1.attribute_list_entry
              = attribute_list_entry
          ∧ ((perform_operations E operations a file_io_handle).1.mft_attribute.isSome
              = !(perform_operations E operations a file_io_handle).1.attribute_list_entry.isSome) := by
  rcases attribute_slot with _ | _ | a0
  · simp [ libfsntfs_attribute_initialize] at hok
  · have hx : mft_attribute.isSome = !attribute_list_entry.isSome := by
      cases mft_attribute <;> cases attribute_list_entry <;>
        simp_all [ libfsntfs_attribute_initialize]
    have hout : ( libfsntfs_attribute_initialize sys
        (some (none : Option (libfsntfs_internal_attribute V))) mft_attribute
        attribute_list_entry).out
        = some (some ⟨mft_attribute, attribute_list_entry, 0, none, none⟩) := by
      unfold libfsntfs_attribute_initialize at hok ⊢
      simp only [] at hok ⊢
      split_ifs at hok ⊢ <;> first | rfl | (exfalso; simp at hok)
    refine ⟨_, hout, rfl, rfl, hx, rfl, rfl, ?_⟩
    intro E operations file_io_handle
    obtain ⟨h1, h2, _⟩ := perform_operations_same E operations
      (⟨mft_attribute, attribute_list_entry, 0, none, none⟩ : libfsntfs_internal_attribute V)
      file_io_handle
    rw [h1, h2]
    exact ⟨rfl, rfl, hx⟩
  · simp [ libfsntfs_attribute_initialize] at hok

/-- C2 at a call that binds an MFT attribute of type DATA in an empty slot. -/
theorem initialize_binds_exactly_one_witness :
    ( libfsntfs_attribute_initialize ⟨true, true, true⟩
        (some (none : Option (libfsntfs_internal_attribute (List Nat))))
        (some (sample_mft_attribute 0x80 none)) none).result = 1
    ∧ ∃ a, ( libfsntfs_attribute_initialize ⟨true, true, true⟩
        (some (none : Option (libfsntfs_internal_attribute (List Nat))))
        (some (sample_mft_attribute 0x80 none)) none).out = some (some a)
      ∧ a.mft_attribute = some (sample_mft_attribute 0x80 none)
      ∧ a.attribute_list_entry = none
      ∧ (a.mft_attribute.isSome = !a.attribute_list_entry.isSome)
      ∧ a.value = none
      ∧ a.file_reference = 0
      ∧ ∀ (E : collaborators (List Nat) Nat Unit Unit (List libfsntfs_cluster_block) Unit)
          (operations : List (facade_operation Unit)) (file_io_handle : Nat),
          (perform_operations E operations a file_io_handle).1.mft_attribute
              = some (sample_mft_attribute 0x80 none)
          ∧ (perform_operations E operations a file_io_handle).1.attribute_list_entry = none
          ∧ ((perform_operations E operations a file_io_handle).1.mft_attribute.isSome
              = !(perform_operations E operations a file_io_handle).1.attribute_list_entry.isSome) :=
  ⟨rfl, initialize_binds_exactly_one ⟨true, true, true⟩ (some none)
    (some (sample_mft_attribute 0x80 none)) none rfl⟩

/-! ### libfsntfs_attribute_compare_by_file_reference -/

section compare

variable {V : Type}

theorem and_mask_eq_mod (n : Nat) : n &&& 0xffffffffffff = n % 2 ^ 48 := by
  have h := Nat.and_pow_two_sub_one_eq_mod n 48
  simpa using h

theorem compare_result_less (a b : libfsntfs_internal_attribute V)
    (h : a.file_reference % 2 ^ 48 < b.file_reference % 2 ^ 48) :
    libfsntfs_attribute_compare_by_file_reference (some a) (some b)
      = ⟨LIBCDATA_COMPARE_LESS, none, ()⟩ := by
  simp only [libfsntfs_attribute_compare_by_file_reference, and_mask_eq_mod]
  rw [if_pos h]

theorem compare_result_greater (a b : libfsntfs_internal_attribute V)
    (h : b.file_reference % 2 ^ 48 < a.file_reference % 2 ^ 48) :
    libfsntfs_attribute_compare_by_file_reference (some a) (some b)
      = ⟨LIBCDATA_COMPARE_GREATER, none, ()⟩ := by
  simp only [libfsntfs_attribute_compare_by_file_reference, and_mask_eq_mod]
  rw [if_neg (Nat.lt_asymm h), if_pos h]

theorem compare_result_equal (a b : libfsntfs_internal_attribute V)
    (h : a.file_reference % 2 ^ 48 = b.file_reference % 2 ^ 48) :
    libfsntfs_attribute_compare_by_file_reference (some a) (some b)
      = ⟨LIBCDATA_COMPARE_EQUAL, none, ()⟩ := by
  simp only [libfsntfs_attribute_compare_by_file_reference, and_mask_eq_mod]
  rw [if_neg (by omega), if_neg (by omega)]

theorem compare_cases (a b : libfsntfs_internal_attribute V) :
    (a.file_reference % 2 ^ 48 < b.file_reference % 2 ^ 48
      ∧ libfsntfs_attribute_compare_by_file_reference (some a) (some b)
        = ⟨LIBCDATA_COMPARE_LESS, none, ()⟩)
    ∨ (a.file_reference % 2 ^ 48 = b.file_reference % 2 ^ 48
      ∧ libfsntfs_attribute_compare_by_file_reference (some a) (some b)
        = ⟨LIBCDATA_COMPARE_EQUAL, none, ()⟩)
    ∨ (b.file_reference % 2 ^ 48 < a.file_reference % 2 ^ 48
      ∧ libfsntfs_attribute_compare_by_file_reference (some a) (some b)
        = ⟨LIBCDATA_COMPARE_GREATER, none, ()⟩) := by
  rcases Nat.lt_trichotomy (a.file_reference % 2 ^ 48) (b.file_reference % 2 ^ 48)
    with h | h | h
  · exact Or.inl ⟨h, compare_result_less a b h⟩
  · exact Or.inr (Or.inl ⟨h, compare_result_equal a b h⟩)
  · exact Or.inr (Or.inr ⟨h, compare_result_greater a b h⟩)

end compare

/-- C3: for present facades a and b, libfsntfs_attribute_compare_by_file_reference
returns LESS when a.file_reference mod 2^48 is below b.file_reference mod 2^48,
GREATER when it is above and EQUAL when the two are equal; it sets no error and
does not return -1; and facades that agree with a and b on the low 48 bits of
the file reference (whatever their high 16 bits) compare the same. -/
theorem compare_by_file_reference_low_48_bits {V : Type}
    (a b a2 b2 : libfsntfs_internal_attribute V) :
    (a.file_reference % 2 ^ 48 < b.file_reference % 2 ^ 48 →
      (libfsntfs_attribute_compare_by_file_reference (some a) (some b)).result
        = LIBCDATA_COMPARE_LESS)
    ∧ (b.file_reference % 2 ^ 48 < a.file_reference % 2 ^ 48 →
      (libfsntfs_attribute_compare_by_file_reference (some a) (some b)).result
        = LIBCDATA_COMPARE_GREATER)
    ∧ (a.file_reference % 2 ^ 48 = b.file_reference % 2 ^ 48 →
      (libfsntfs_attribute_compare_by_file_reference (some a) (some b)).result
        = LIBCDATA_COMPARE_EQUAL)
    ∧ (libfsntfs_attribute_compare_by_file_reference (some a) (some b)).error = none
    ∧ (libfsntfs_attribute_compare_by_file_reference (some a) (some b)).result ≠ -1
    ∧ (a2.file_reference % 2 ^ 48 = a.file_reference % 2 ^ 48 →
        b2.file_reference % 2 ^ 48 = b.file_reference % 2 ^ 48 →
        libfsntfs_attribute_compare_by_file_reference (some a2) (some b2)
          = libfsntfs_attribute_compare_by_file_reference (some a) (some b)) := by
  refine ⟨fun h => by rw [compare_result_less a b h],
    fun h => by rw [compare_result_greater a b h],
    fun h => by rw [compare_result_equal a b h], ?_, ?_, ?_⟩
  · rcases compare_cases a b with ⟨_, h⟩ | ⟨_, h⟩ | ⟨_, h⟩ <;> rw [h]
  · rcases compare_cases a b with ⟨_, h⟩ | ⟨_, h⟩ | ⟨_, h⟩ <;> rw [h] <;> decide
  · intro ha hb
    rcases compare_cases a b with ⟨hk, h⟩ | ⟨hk, h⟩ | ⟨hk, h⟩
    · rw [h, compare_result_less a2 b2 (by omega)]
    · rw [h, compare_result_equal a2 b2 (by omega)]
    · rw [h, compare_result_greater a2 b2 (by omega)]

/-- C3 on the file references (mft=1, seq=5) and (mft=2, seq=1): LESS, and the
same with the sequence numbers 9 and 0. -/
theorem compare_by_file_reference_low_48_bits_witness :
    (libfsntfs_attribute_compare_by_file_reference
        (some (sample_attribute (sample_mft_attribute 0x80 none) (5 * 2 ^ 48 + 1)))
        (some (sample_attribute (sample_mft_attribute 0x80 none) (1 * 2 ^ 48 + 2)))).result
      = LIBCDATA_COMPARE_LESS
    ∧ libfsntfs_attribute_compare_by_file_reference
        (some (sample_attribute (sample_mft_attribute 0x80 none) (9 * 2 ^ 48 + 1)))
        (some (sample_attribute (sample_mft_attribute 0x80 none) 2))
      = libfsntfs_attribute_compare_by_file_reference
        (some (sample_attribute (sample_mft_attribute 0x80 none) (5 * 2 ^ 48 + 1)))
        (some (sample_attribute (sample_mft_attribute 0x80 none) (1 * 2 ^ 48 + 2))) :=
  ⟨(compare_by_file_reference_low_48_bits
      (sample_attribute (sample_mft_attribute 0x80 none) (5 * 2 ^ 48 + 1))
      (sample_attribute (sample_mft_attribute 0x80 none) (1 * 2 ^ 48 + 2))
      (sample_attribute (sample_mft_attribute 0x80 none) (9 * 2 ^ 48 + 1))
      (sample_attribute (sample_mft_attribute 0x80 none) 2)).1 (by decide),
   (compare_by_file_reference_low_48_bits
      (sample_attribute (sample_mft_attribute 0x80 none) (5 * 2 ^ 48 + 1))
      (sample_attribute (sample_mft_attribute 0x80 none) (1 * 2 ^ 48 + 2))
      (sample_attribute (sample_mft_attribute 0x80 none) (9 * 2 ^ 48 + 1))
      (sample_attribute (sample_mft_attribute 0x80 none) 2)).2.2.2.2.2
      (by decide) (by decide)⟩

/-- C4: libfsntfs_attribute_compare_by_file_reference is a total order on
present facades by the key file_reference mod 2^48. Total: every pair compares
LESS, EQUAL or GREATER. Antisymmetric: a against b is LESS exactly when b
against a is GREATER, and EQUAL both ways only for the same key. Transitive:
LESS-or-EQUAL composes. Only the key counts: LESS, EQUAL and GREATER are
exactly key below, key equal and key above. -/
theorem compare_by_file_reference_total_order {V : Type}
    (a b c : libfsntfs_internal_attribute V) :
    ((libfsntfs_attribute_compare_by_file_reference (some a) (some b)).result
        = LIBCDATA_COMPARE_LESS
      ∨ (libfsntfs_attribute_compare_by_file_reference (some a) (some b)).result
        = LIBCDATA_COMPARE_EQUAL
      ∨ (libfsntfs_attribute_compare_by_file_reference (some a) (some b)).result
        = LIBCDATA_COMPARE_GREATER)
    ∧ ((libfsntfs_attribute_compare_by_file_reference (some a) (some b)).result
        = LIBCDATA_COMPARE_LESS
      ↔ (libfsntfs_attribute_compare_by_file_reference (some b) (some a)).result
        = LIBCDATA_COMPARE_GREATER)
    ∧ ((libfsntfs_attribute_compare_by_file_reference (some a) (some b)).result
        = LIBCDATA_COMPARE_EQUAL
      ∧ (libfsntfs_attribute_compare_by_file_reference (some b) (some a)).result
        = LIBCDATA_COMPARE_EQUAL
      → a.file_reference % 2 ^ 48 = b.file_reference % 2 ^ 48)
    ∧ (((libfsntfs_attribute_compare_by_file_reference (some a) (some b)).result
          = LIBCDATA_COMPARE_LESS
        ∨ (libfsntfs_attribute_compare_by_file_reference (some a) (some b)).result
          = LIBCDATA_COMPARE_EQUAL)
      → ((libfsntfs_attribute_compare_by_file_reference (some b) (some c)).result
          = LIBCDATA_COMPARE_LESS
        ∨ (libfsntfs_attribute_compare_by_file_reference (some b) (some c)).result
          = LIBCDATA_COMPARE_EQUAL)
      → ((libfsntfs_attribute_compare_by_file_reference (some a) (some c)).result
          = LIBCDATA_COMPARE_LESS
        ∨ (libfsntfs_attribute_compare_by_file_reference (some a) (some c)).result
          = LIBCDATA_COMPARE_EQUAL))
    ∧ ((libfsntfs_attribute_compare_by_file_reference (some a) (some b)).result
        = LIBCDATA_COMPARE_LESS
      ↔ a.file_reference % 2 ^ 48 < b.file_reference % 2 ^ 48)
    ∧ ((libfsntfs_attribute_compare_by_file_reference (some a) (some b)).result
        = LIBCDATA_COMPARE_EQUAL
      ↔ a.file_reference % 2 ^ 48 = b.file_reference % 2 ^ 48)
    ∧ ((libfsntfs_attribute_compare_by_file_reference (some a) (some b)).result
        = LIBCDATA_COMPARE_GREATER
      ↔ b.file_reference % 2 ^ 48 < a.file_reference % 2 ^ 48) := by
  rcases compare_cases a b with ⟨kab, hab⟩ | ⟨kab, hab⟩ | ⟨kab, hab⟩ <;>
  rcases compare_cases b a with ⟨kba, hba⟩ | ⟨kba, hba⟩ | ⟨kba, hba⟩ <;>
  rcases compare_cases b c with ⟨kbc, hbc⟩ | ⟨kbc, hbc⟩ | ⟨kbc, hbc⟩ <;>
  rcases compare_cases a c with ⟨kac, hac⟩ | ⟨kac, hac⟩ | ⟨kac, hac⟩ <;>
  first
    | (exfalso; omega)
    | (rw [hab, hba, hbc, hac]
       simp only [LIBCDATA_COMPARE_LESS, LIBCDATA_COMPARE_EQUAL, LIBCDATA_COMPARE_GREATER]
       refine ⟨?_, ?_, ?_, ?_, ?_, ?_, ?_⟩ <;> first | decide | omega | (simp; omega))

/-- C4 on facades with the keys 1, 2 and 3 (and sequence numbers 7, 0 and 3):
1 against 2 and 2 against 3 are LESS, hence 1 against 3 is LESS or EQUAL. -/
theorem compare_by_file_reference_total_order_witness :
    (libfsntfs_attribute_compare_by_file_reference
        (some (sample_attribute (sample_mft_attribute 0x80 none) (7 * 2 ^ 48 + 1)))
        (some (sample_attribute (sample_mft_attribute 0x80 none) (3 * 2 ^ 48 + 3)))).result
      = LIBCDATA_COMPARE_LESS
    ∨ (libfsntfs_attribute_compare_by_file_reference
        (some (sample_attribute (sample_mft_attribute 0x80 none) (7 * 2 ^ 48 + 1)))
        (some (sample_attribute (sample_mft_attribute 0x80 none) (3 * 2 ^ 48 + 3)))).result
      = LIBCDATA_COMPARE_EQUAL :=
  (compare_by_file_reference_total_order
      (sample_attribute (sample_mft_attribute 0x80 none) (7 * 2 ^ 48 + 1))
      (sample_attribute (sample_mft_attribute 0x80 none) 2)
      (sample_attribute (sample_mft_attribute 0x80 none) (3 * 2 ^ 48 + 3))).2.2.2.1
    (Or.inl (by decide)) (Or.inl (by decide))

/-- C5, as stated, fails: two facades with the same MFT entry index 1, the
sequence numbers 7 and 3 and the different identifiers 1 and 2 compare EQUAL,
in both orders; the identifiers do not break the tie. -/
theorem compare_ignores_identifier_counterexample :
    facade_identifier (sample_attribute (sample_mft_attribute 0x80 none) (7 * 2 ^ 48 + 1))
      = some 1
    ∧ facade_identifier
        (sample_attribute (sample_non_resident_mft_attribute 0x80) (3 * 2 ^ 48 + 1)) = some 2
    ∧ (libfsntfs_attribute_compare_by_file_reference
        (some (sample_attribute (sample_mft_attribute 0x80 none) (7 * 2 ^ 48 + 1)))
        (some (sample_attribute (sample_non_resident_mft_attribute 0x80)
          (3 * 2 ^ 48 + 1)))).result = LIBCDATA_COMPARE_EQUAL
    ∧ (libfsntfs_attribute_compare_by_file_reference
        (some (sample_attribute (sample_non_resident_mft_attribute 0x80) (3 * 2 ^ 48 + 1)))
        (some (sample_attribute (sample_mft_attribute 0x80 none)
          (7 * 2 ^ 48 + 1)))).result = LIBCDATA_COMPARE_EQUAL := by
  decide

/-- C5, amended: when two present facades have the same low-48-bit MFT entry
index, libfsntfs_attribute_compare_by_file_reference returns EQUAL without an
error, whatever their identifiers and sequence numbers are; the identifier
takes no part in the comparison. -/
theorem compare_equal_index_is_equal {V : Type} (a b : libfsntfs_internal_attribute V)
    (h : a.file_reference % 2 ^ 48 = b.file_reference % 2 ^ 48) :
    libfsntfs_attribute_compare_by_file_reference (some a) (some b)
      = ⟨LIBCDATA_COMPARE_EQUAL, none, ()⟩ :=
  compare_result_equal a b h

/-- C5, amended, on (mft=1, seq=7, identifier 1) against (mft=1, seq=3,
identifier 2). -/
theorem compare_equal_index_is_equal_witness :
    libfsntfs_attribute_compare_by_file_reference
        (some (sample_attribute (sample_mft_attribute 0x80 none) (7 * 2 ^ 48 + 1)))
        (some (sample_attribute (sample_non_resident_mft_attribute 0x80) (3 * 2 ^ 48 + 1)))
      = ⟨LIBCDATA_COMPARE_EQUAL, none, ()⟩ :=
  compare_equal_index_is_equal
    (sample_attribute (sample_mft_attribute 0x80 none) (7 * 2 ^ 48 + 1))
    (sample_attribute (sample_non_resident_mft_attribute 0x80) (3 * 2 ^ 48 + 1)) (by decide)

/-! ### libfsntfs_attribute_get_file_reference -/

theorem shift_right_48_eq_div (n : Nat) : n >>> 48 = n / 2 ^ 48 :=
  Nat.shiftRight_eq_div_pow n 48

/-- C6: for every facade whose file reference is a 64-bit value,
libfsntfs_attribute_get_file_reference succeeds and yields mft_entry_index =
file_reference mod 2^48, which is below 2^48, and sequence_number =
file_reference div 2^48, so that sequence_number * 2^48 + mft_entry_index is
the file reference; with the sequence_number output absent the call succeeds
as well and yields the same mft_entry_index. -/
theorem get_file_reference_splits {V : Type} (a : libfsntfs_internal_attribute V)
    (h64 : a.file_reference < 2 ^ 64) :
    libfsntfs_attribute_get_file_reference (some a) true true
      = ⟨1, none, (some (a.file_reference % 2 ^ 48), some (a.file_reference / 2 ^ 48))⟩
    ∧ a.file_reference / 2 ^ 48 * 2 ^ 48 + a.file_reference % 2 ^ 48 = a.file_reference
    ∧ a.file_reference % 2 ^ 48 < 2 ^ 48
    ∧ a.file_reference / 2 ^ 48 < 2 ^ 16
    ∧ libfsntfs_attribute_get_file_reference (some a) true false
      = ⟨1, none, (some (a.file_reference % 2 ^ 48), none)⟩ := by
  have hdiv : a.file_reference / 2 ^ 48 < 2 ^ 16 := by omega
  refine ⟨?_, ?_, ?_, hdiv, ?_⟩
  · simp only [libfsntfs_attribute_get_file_reference, and_mask_eq_mod, shift_right_48_eq_div,
      Nat.mod_eq_of_lt hdiv]
    rfl
  · omega
  · omega
  · simp only [libfsntfs_attribute_get_file_reference, and_mask_eq_mod]
    rfl

/-- C6 on the file reference 0x0001_0000_0000_08C8 of the spec's attribute-list
entry: MFT entry index 0x8C8, sequence number 1. -/
theorem get_file_reference_splits_witness :
    libfsntfs_attribute_get_file_reference
        (some (sample_attribute (sample_mft_attribute 0x80 none) 0x00010000000008C8)) true true
      = ⟨1, none, (some 0x8C8, some 1)⟩ :=
  (get_file_reference_splits
    (sample_attribute (sample_mft_attribute 0x80 none) 0x00010000000008C8) (by decide)).1

/-! ### libfsntfs_attribute_read_value -/

section read_value_lemmas

variable {V W H S C K : Type}

theorem read_value_of_cached (E : collaborators V W H S C K)
    (a : libfsntfs_internal_attribute V) (io_handle : H) (file_io_handle : W) (flags : Nat)
    (hcached : a.value.isSome = true) :
    libfsntfs_attribute_read_value E (some a) io_handle file_io_handle flags
      = ⟨1, none, ⟨some a, file_io_handle, []⟩⟩ := by
  simp only [libfsntfs_attribute_read_value, hcached, if_true]

theorem read_value_of_resident (E : collaborators V W H S C K)
    (a : libfsntfs_internal_attribute V) (io_handle : H) (file_io_handle : W) (flags : Nat)
    (attribute_type : Nat) (resident_data : List Nat) (hvalue : a.value = none)
    (htype : libfsntfs_internal_attribute_get_type E (some a) true
      = ⟨1, none, some attribute_type⟩)
    (hdata : libfsntfs_internal_attribute_get_data E (some a) true true
      = ⟨1, none, some (some resident_data)⟩) :
    libfsntfs_attribute_read_value E (some a) io_handle file_io_handle flags
      = ⟨(read_value_resident E a attribute_type resident_data).result,
          (read_value_resident E a attribute_type resident_data).error,
          ⟨some (read_value_resident E a attribute_type resident_data).out, file_io_handle,
            []⟩⟩ := by
  simp [libfsntfs_attribute_read_value, hvalue, htype, hdata]

theorem read_value_of_non_resident (E : collaborators V W H S C K)
    (a : libfsntfs_internal_attribute V) (io_handle : H) (file_io_handle : W) (flags : Nat)
    (attribute_type : Nat) (hvalue : a.value = none)
    (htype : libfsntfs_internal_attribute_get_type E (some a) true
      = ⟨1, none, some attribute_type⟩)
    (hdata : libfsntfs_internal_attribute_get_data E (some a) true true
      = ⟨1, none, some none⟩) :
    libfsntfs_attribute_read_value E (some a) io_handle file_io_handle flags
      = read_value_non_resident E a attribute_type io_handle file_io_handle flags := by
  simp [libfsntfs_attribute_read_value, hvalue, htype, hdata]

theorem read_value_on_error_free_value (E : collaborators V W H S C K)
    (a : libfsntfs_internal_attribute V) :
    (read_value_on_error E a).free_value = a.free_value := by
  unfold read_value_on_error
  split <;> rfl

theorem read_value_resident_values_result (E : collaborators V W H S C K)
    (a : libfsntfs_internal_attribute V) (kind : value_kind) (data : List Nat)
    (m1 m2 : String) :
    ((read_value_resident_values E a kind data m1 m2).result = 1
      ↔ (parse_typed_value E kind data).isSome = true)
    ∧ ((read_value_resident_values E a kind data m1 m2).result = 1 →
      (read_value_resident_values E a kind data m1 m2).error = none
      ∧ (read_value_resident_values E a kind data m1 m2).out
        = ⟨a.mft_attribute, a.attribute_list_entry, a.file_reference,
            (parse_typed_value E kind data).map fun content => ⟨kind, content⟩, some kind⟩)
    ∧ ((read_value_resident_values E a kind data m1 m2).result = 1
      ∨ (read_value_resident_values E a kind data m1 m2).result = -1)
    ∧ (read_value_resident_values E a kind data m1 m2).out.free_value = some kind := by
  unfold read_value_resident_values parse_typed_value
  cases hinit : E.values_initialize kind with
  | none => simp [read_value_on_error_free_value]
  | some values =>
    cases hread : (E.values_read_data kind values data).2 with
    | false => simp [hread, read_value_on_error_free_value]
    | true => simp [hread]

theorem read_value_resident_of_kind (E : collaborators V W H S C K)
    (a : libfsntfs_internal_attribute V) (attribute_type : Nat) (kind : value_kind)
    (data : List Nat) (hkind : (attribute_type, kind) ∈ resident_value_kinds) :
    ((read_value_resident E a attribute_type data).result = 1
      ↔ (parse_typed_value E kind data).isSome = true)
    ∧ ((read_value_resident E a attribute_type data).result = 1 →
      (read_value_resident E a attribute_type data).error = none
      ∧ (read_value_resident E a attribute_type data).out
        = ⟨a.mft_attribute, a.attribute_list_entry, a.file_reference,
            (parse_typed_value E kind data).map fun content => ⟨kind, content⟩, some kind⟩)
    ∧ ((read_value_resident E a attribute_type data).result = 1
      ∨ (read_value_resident E a attribute_type data).result = -1)
    ∧ (read_value_resident E a attribute_type data).out.free_value = some kind := by
  simp only [resident_value_kinds, List.mem_cons, Prod.mk.injEq, List.mem_singleton,
    List.not_mem_nil, or_false] at hkind
  rcases hkind with h | h | h | h | h | h | h | h
  all_goals
    obtain ⟨htype, hvalue_kind⟩ := h
    subst htype hvalue_kind
    simp only [read_value_resident, LIBFSNTFS_ATTRIBUTE_TYPE_BITMAP,
      LIBFSNTFS_ATTRIBUTE_TYPE_FILE_NAME, LIBFSNTFS_ATTRIBUTE_TYPE_LOGGED_UTILITY_STREAM,
      LIBFSNTFS_ATTRIBUTE_TYPE_OBJECT_IDENTIFIER, LIBFSNTFS_ATTRIBUTE_TYPE_REPARSE_POINT,
      LIBFSNTFS_ATTRIBUTE_TYPE_SECURITY_DESCRIPTOR,
      LIBFSNTFS_ATTRIBUTE_TYPE_STANDARD_INFORMATION,
      LIBFSNTFS_ATTRIBUTE_TYPE_VOLUME_INFORMATION, LIBFSNTFS_ATTRIBUTE_TYPE_VOLUME_NAME,
      Nat.reduceEqDiff, if_true, if_false]
    exact read_value_resident_values_result E a _ data _ _

end read_value_lemmas

/-- C7: on a facade that holds a cached value libfsntfs_attribute_read_value
returns 1, sets no error, makes no call on stream, vector or device and leaves
the facade (value, deleter, bindings, file reference) and the device handle as
they were, for all collaborators (hence every attribute type), IO handles,
flags and device states; a second call on the state the first leaves gives
that same state again. -/
theorem read_value_cached_unchanged {V W H S C K : Type} (E : collaborators V W H S C K)
    (a : libfsntfs_internal_attribute V) (io_handle second_io_handle : H)
    (file_io_handle : W) (flags second_flags : Nat) (hcached : a.value.isSome = true) :
    libfsntfs_attribute_read_value E (some a) io_handle file_io_handle flags
      = ⟨1, none, ⟨some a, file_io_handle, []⟩⟩
    ∧ libfsntfs_attribute_read_value E
        (libfsntfs_attribute_read_value E (some a) io_handle file_io_handle
          flags).out.internal_attribute second_io_handle
        (libfsntfs_attribute_read_value E (some a) io_handle file_io_handle
          flags).out.file_io_handle second_flags
      = libfsntfs_attribute_read_value E (some a) io_handle file_io_handle flags := by
  have h := read_value_of_cached E a io_handle file_io_handle flags hcached
  refine ⟨h, ?_⟩
  rw [h]
  exact read_value_of_cached E a second_io_handle file_io_handle second_flags hcached

/-- C7 on a facade with a cached volume name, read with and without MFT_ONLY. -/
theorem read_value_cached_unchanged_witness :
    libfsntfs_attribute_read_value sample_collaborators (some sample_cached_attribute) () 7 0
      = ⟨1, none, ⟨some sample_cached_attribute, 7, []⟩⟩ :=
  (read_value_cached_unchanged sample_collaborators sample_cached_attribute () () 7 0 1
    rfl).1

/-- C8: for a facade with no cached value whose attribute has one of the types
BITMAP, FILE_NAME, OBJECT_IDENTIFIER, REPARSE_POINT, SECURITY_DESCRIPTOR,
STANDARD_INFORMATION, VOLUME_INFORMATION, VOLUME_NAME and is resident with the
data slice resident_data, libfsntfs_attribute_read_value parses exactly
resident_data with the parser of the matching kind: it returns 1 exactly when
that parser succeeds and -1 otherwise, and when it returns 1 the cached value
is the result of that parser for that slice, of the matching kind, with the
deleter of that kind registered. The device handle is not touched. -/
theorem read_value_resident_parses {V W H S C K : Type} (E : collaborators V W H S C K)
    (a : libfsntfs_internal_attribute V) (io_handle : H) (file_io_handle : W) (flags : Nat)
    (attribute_type : Nat) (kind : value_kind) (resident_data : List Nat)
    (hvalue : a.value = none)
    (hkind : (attribute_type, kind) ∈ resident_value_kinds)
    (htype : libfsntfs_internal_attribute_get_type E (some a) true
      = ⟨1, none, some attribute_type⟩)
    (hdata : libfsntfs_internal_attribute_get_data E (some a) true true
      = ⟨1, none, some (some resident_data)⟩) :
    read_value_parses_with E a io_handle file_io_handle flags kind resident_data := by
  obtain ⟨h1, h2, h3, h4⟩ := read_value_resident_of_kind E a attribute_type kind
    resident_data hkind
  unfold read_value_parses_with
  rw [read_value_of_resident E a io_handle file_io_handle flags attribute_type resident_data
    hvalue htype hdata]
  refine ⟨h1, h3, ?_, ⟨_, rfl, h4⟩, rfl, rfl⟩
  intro hok
  obtain ⟨herr, hout⟩ := h2 hok
  simp only [] at hok
  rw [hok, herr, hout]

/-- C8 on a resident volume name of four bytes: the call succeeds and caches
the volume name value parsed from the four bytes. -/
theorem read_value_resident_parses_witness :
    libfsntfs_attribute_read_value sample_collaborators
        (some (sample_attribute (sample_mft_attribute 0x60 none) 0)) () 7 0
      = ⟨1, none, ⟨some ⟨some (sample_mft_attribute 0x60 none), none, 0,
          some ⟨.volume_name_values, [0, 0, 0, 0]⟩, some .volume_name_values⟩, 7, []⟩⟩ :=
  (read_value_resident_parses sample_collaborators
    (sample_attribute (sample_mft_attribute 0x60 none) 0) () 7 0 0x60 .volume_name_values
    [0, 0, 0, 0] rfl (by decide) rfl rfl).2.2.1 rfl

section logged_utility_stream

variable {V W H S C K : Type}

theorem read_value_parses_with_of_resident_values (E : collaborators V W H S C K)
    (a : libfsntfs_internal_attribute V) (io_handle : H) (file_io_handle : W) (flags : Nat)
    (kind : value_kind) (data : List Nat) (m1 m2 : String)
    (h : libfsntfs_attribute_read_value E (some a) io_handle file_io_handle flags
      = ⟨(read_value_resident_values E a kind data m1 m2).result,
          (read_value_resident_values E a kind data m1 m2).error,
          ⟨some (read_value_resident_values E a kind data m1 m2).out, file_io_handle, []⟩⟩) :
    read_value_parses_with E a io_handle file_io_handle flags kind data := by
  obtain ⟨h1, h2, h3, h4⟩ := read_value_resident_values_result E a kind data m1 m2
  unfold read_value_parses_with
  rw [h]
  refine ⟨h1, h3, ?_, ⟨_, rfl, h4⟩, rfl, rfl⟩
  intro hok
  obtain ⟨herr, hout⟩ := h2 hok
  simp only [] at hok
  rw [hok, herr, hout]

theorem resident_has_mft_attribute (E : collaborators V W H S C K)
    (a : libfsntfs_internal_attribute V) (resident_data : List Nat)
    (hdata : libfsntfs_internal_attribute_get_data E (some a) true true
      = ⟨1, none, some (some resident_data)⟩) :
    ∃ mft_attribute, a.mft_attribute = some mft_attribute := by
  cases hm : a.mft_attribute with
  | some m => exact ⟨m, rfl⟩
  | none => simp [libfsntfs_internal_attribute_get_data, hm] at hdata

end logged_utility_stream

/-- C9: for a facade with no cached value whose attribute is a resident
LOGGED_UTILITY_STREAM with the data slice resident_data,
libfsntfs_attribute_read_value compares the name with the 9 characters of
"$TXF_DATA"; when the comparison fails (-1) it returns -1 with the facade as
it was, no value stored; when the comparison says equal the data is parsed
with the TxF data parser, and when it says different with the logged utility
stream parser. With the name comparison of the spec (byte compare with the
UTF-16 little-endian form of the string) the TxF data parser is used when the
name is "$TXF_DATA" and the logged utility stream parser for every other name
and for no name. -/
theorem read_value_logged_utility_stream {V W H S C K : Type}
    (E : collaborators V W H S C K) (a : libfsntfs_internal_attribute V) (io_handle : H)
    (file_io_handle : W) (flags : Nat) (resident_data : List Nat)
    (hvalue : a.value = none)
    (htype : libfsntfs_internal_attribute_get_type E (some a) true
      = ⟨1, none, some LIBFSNTFS_ATTRIBUTE_TYPE_LOGGED_UTILITY_STREAM⟩)
    (hdata : libfsntfs_internal_attribute_get_data E (some a) true true
      = ⟨1, none, some (some resident_data)⟩) :
    TXF_DATA_utf8_string = "$TXF_DATA".toList.map Char.toNat
    ∧ TXF_DATA_utf8_string.length = 9
    ∧ ((libfsntfs_internal_attribute_compare_name_with_utf8_string E (some a)
          TXF_DATA_utf8_string).result = -1 →
        libfsntfs_attribute_read_value E (some a) io_handle file_io_handle flags
          = ⟨-1, some ⟨.LIBCERROR_RUNTIME_ERROR_GENERIC,
              "%s: unable to compare UTF-8 string with attribute name."⟩,
              ⟨some a, file_io_handle, []⟩⟩)
    ∧ ((libfsntfs_internal_attribute_compare_name_with_utf8_string E (some a)
          TXF_DATA_utf8_string).result ≠ -1 →
        (libfsntfs_internal_attribute_compare_name_with_utf8_string E (some a)
          TXF_DATA_utf8_string).result ≠ 0 →
        read_value_parses_with E a io_handle file_io_handle flags .txf_data_values
          resident_data)
    ∧ ((libfsntfs_internal_attribute_compare_name_with_utf8_string E (some a)
          TXF_DATA_utf8_string).result = 0 →
        read_value_parses_with E a io_handle file_io_handle flags
          .logged_utility_stream_values resident_data)
    ∧ (E.libfsntfs_mft_attribute_compare_name_with_utf8_string
          = mft_attribute_compare_name_with_utf8_string →
        ∃ mft_attribute, a.mft_attribute = some mft_attribute
          ∧ (mft_attribute.name = some (utf16_stream_of_string TXF_DATA_utf8_string) →
            read_value_parses_with E a io_handle file_io_handle flags .txf_data_values
              resident_data)
          ∧ (mft_attribute.name ≠ some (utf16_stream_of_string TXF_DATA_utf8_string) →
            read_value_parses_with E a io_handle file_io_handle flags
              .logged_utility_stream_values resident_data)) := by
  have hrv := read_value_of_resident E a io_handle file_io_handle flags
    LIBFSNTFS_ATTRIBUTE_TYPE_LOGGED_UTILITY_STREAM resident_data hvalue htype hdata
  have hswitch : read_value_resident E a LIBFSNTFS_ATTRIBUTE_TYPE_LOGGED_UTILITY_STREAM
      resident_data
      = if (libfsntfs_internal_attribute_compare_name_with_utf8_string E (some a)
            TXF_DATA_utf8_string).result = -1 then
          ⟨-1, some ⟨.LIBCERROR_RUNTIME_ERROR_GENERIC,
            "%s: unable to compare UTF-8 string with attribute name."⟩,
            read_value_on_error E a⟩
        else if (libfsntfs_internal_attribute_compare_name_with_utf8_string E (some a)
            TXF_DATA_utf8_string).result ≠ 0 then
          read_value_resident_values E a .txf_data_values resident_data
            "%s: unable to create TxF data values." "%s: unable to read TxF data values."
        else
          read_value_resident_values E a .logged_utility_stream_values resident_data
            "%s: unable to create logged utility stream values."
            "%s: unable to read logged utility stream values." := by
    simp only [read_value_resident, LIBFSNTFS_ATTRIBUTE_TYPE_BITMAP,
      LIBFSNTFS_ATTRIBUTE_TYPE_FILE_NAME, LIBFSNTFS_ATTRIBUTE_TYPE_LOGGED_UTILITY_STREAM,
      Nat.reduceEqDiff, if_true, if_false]
  have hfail : (libfsntfs_internal_attribute_compare_name_with_utf8_string E (some a)
        TXF_DATA_utf8_string).result = -1 →
      libfsntfs_attribute_read_value E (some a) io_handle file_io_handle flags
        = ⟨-1, some ⟨.LIBCERROR_RUNTIME_ERROR_GENERIC,
            "%s: unable to compare UTF-8 string with attribute name."⟩,
            ⟨some a, file_io_handle, []⟩⟩ := by
    intro hc
    rw [hrv, hswitch, if_pos hc, read_value_on_error_of_value_none E a hvalue]
  have htxf : (libfsntfs_internal_attribute_compare_name_with_utf8_string E (some a)
        TXF_DATA_utf8_string).result ≠ -1 →
      (libfsntfs_internal_attribute_compare_name_with_utf8_string E (some a)
        TXF_DATA_utf8_string).result ≠ 0 →
      read_value_parses_with E a io_handle file_io_handle flags .txf_data_values
        resident_data := by
    intro hc1 hc0
    apply read_value_parses_with_of_resident_values E a io_handle file_io_handle flags
      .txf_data_values resident_data "%s: unable to create TxF data values."
      "%s: unable to read TxF data values."
    rw [hrv, hswitch, if_neg hc1, if_pos hc0]
  have hlog : (libfsntfs_internal_attribute_compare_name_with_utf8_string E (some a)
        TXF_DATA_utf8_string).result = 0 →
      read_value_parses_with E a io_handle file_io_handle flags
        .logged_utility_stream_values resident_data := by
    intro hc0
    apply read_value_parses_with_of_resident_values E a io_handle file_io_handle flags
      .logged_utility_stream_values resident_data
      "%s: unable to create logged utility stream values."
      "%s: unable to read logged utility stream values."
    rw [hrv, hswitch, if_neg (by rw [hc0]; decide), if_neg (by simpa using hc0)]
  refine ⟨by decide, by decide, hfail, htxf, hlog, ?_⟩
  intro hE
  obtain ⟨m, hm⟩ := resident_has_mft_attribute E a resident_data hdata
  have hcmp : (libfsntfs_internal_attribute_compare_name_with_utf8_string E (some a)
      TXF_DATA_utf8_string).result
      = if m.name = some (utf16_stream_of_string TXF_DATA_utf8_string) then 1 else 0 := by
    simp only [libfsntfs_internal_attribute_compare_name_with_utf8_string, hm, hE,
      mft_attribute_compare_name_with_utf8_string]
    split_ifs <;> simp_all
  refine ⟨m, hm, ?_, ?_⟩
  · intro hname
    rw [if_pos hname] at hcmp
    exact htxf (by rw [hcmp]; decide) (by rw [hcmp]; decide)
  · intro hname
    rw [if_neg hname] at hcmp
    exact hlog hcmp

/-- C9 on a resident logged utility stream named "$TXF_DATA": the comparison
says equal and the four bytes of data are parsed with the TxF data parser. -/
theorem read_value_logged_utility_stream_witness :
    read_value_parses_with sample_collaborators
      (sample_attribute (sample_mft_attribute 0x100
        (some (utf16_stream_of_string TXF_DATA_utf8_string))) 0) () 7 0 .txf_data_values
      [0, 0, 0, 0] :=
  (read_value_logged_utility_stream sample_collaborators
    (sample_attribute (sample_mft_attribute 0x100
      (some (utf16_stream_of_string TXF_DATA_utf8_string))) 0) () 7 0 [0, 0, 0, 0]
    rfl rfl rfl).2.2.2.1 (by decide) (by decide)

section non_resident

variable {V W H S C K : Type}

theorem get_type_of_same_bindings (E : collaborators V W H S C K)
    {a b : libfsntfs_internal_attribute V} (h : same_bindings a b) (type : Bool) :
    libfsntfs_internal_attribute_get_type E (some b) type
      = libfsntfs_internal_attribute_get_type E (some a) type := by
  simp only [libfsntfs_internal_attribute_get_type, h.1, h.2.1]

theorem get_data_of_same_bindings (E : collaborators V W H S C K)
    {a b : libfsntfs_internal_attribute V} (h : same_bindings a b) (data data_size : Bool) :
    libfsntfs_internal_attribute_get_data E (some b) data data_size
      = libfsntfs_internal_attribute_get_data E (some a) data data_size := by
  simp only [libfsntfs_internal_attribute_get_data, h.1]

theorem read_value_non_resident_switch_unsupported (E : collaborators V W H S C K)
    (a : libfsntfs_internal_attribute V) (attribute_type : Nat)
    (ht : attribute_type ∈ resident_only_types) :
    read_value_non_resident_switch E a attribute_type
      = ⟨-1, some ⟨.LIBCERROR_RUNTIME_ERROR_UNSUPPORTED_VALUE,
          "%s: unsupported non-resident attribute."⟩, read_value_on_error E a⟩ := by
  simp only [resident_only_types, List.mem_cons, List.mem_singleton, List.not_mem_nil,
    or_false] at ht
  rcases ht with rfl | rfl | rfl | rfl | rfl | rfl <;>
    simp [read_value_non_resident_switch, LIBFSNTFS_ATTRIBUTE_TYPE_BITMAP,
      LIBFSNTFS_ATTRIBUTE_TYPE_FILE_NAME, LIBFSNTFS_ATTRIBUTE_TYPE_OBJECT_IDENTIFIER,
      LIBFSNTFS_ATTRIBUTE_TYPE_REPARSE_POINT, LIBFSNTFS_ATTRIBUTE_TYPE_SECURITY_DESCRIPTOR,
      LIBFSNTFS_ATTRIBUTE_TYPE_STANDARD_INFORMATION,
      LIBFSNTFS_ATTRIBUTE_TYPE_VOLUME_INFORMATION, LIBFSNTFS_ATTRIBUTE_TYPE_VOLUME_NAME]

theorem read_value_unsupported_of_value_none (E : collaborators V W H S C K)
    (a : libfsntfs_internal_attribute V) (io_handle : H) (file_io_handle : W) (flags : Nat)
    (attribute_type : Nat) (hvalue : a.value = none)
    (ht : attribute_type ∈ resident_only_types)
    (htype : libfsntfs_internal_attribute_get_type E (some a) true
      = ⟨1, none, some attribute_type⟩)
    (hdata : libfsntfs_internal_attribute_get_data E (some a) true true
      = ⟨1, none, some none⟩) :
    libfsntfs_attribute_read_value E (some a) io_handle file_io_handle flags
      = ⟨-1, some ⟨.LIBCERROR_RUNTIME_ERROR_UNSUPPORTED_VALUE,
          "%s: unsupported non-resident attribute."⟩, ⟨some a, file_io_handle, []⟩⟩ := by
  rw [read_value_of_non_resident E a io_handle file_io_handle flags attribute_type hvalue
    htype hdata]
  simp [read_value_non_resident, read_value_non_resident_switch_unsupported E a attribute_type
    ht, read_value_on_error_of_value_none E a hvalue]

theorem unsupported_keeps_no_value_step (E : collaborators V W H S C K)
    (operation : facade_operation H) (a : libfsntfs_internal_attribute V)
    (file_io_handle : W) (attribute_type : Nat)
    (ht : attribute_type ∈ resident_only_types)
    (htype : libfsntfs_internal_attribute_get_type E (some a) true
      = ⟨1, none, some attribute_type⟩)
    (hdata : libfsntfs_internal_attribute_get_data E (some a) true true
      = ⟨1, none, some none⟩)
    (hvalue : a.value = none) :
    (perform_operation E operation a file_io_handle).2.1 = a := by
  cases operation
  case read_value io_handle flags =>
    simp only [perform_operation, read_value_unsupported_of_value_none E a io_handle
      file_io_handle flags attribute_type hvalue ht htype hdata, Option.getD_some]
  all_goals rfl

theorem unsupported_keeps_no_value (E : collaborators V W H S C K)
    (operations : List (facade_operation H)) (a : libfsntfs_internal_attribute V)
    (file_io_handle : W) (attribute_type : Nat)
    (ht : attribute_type ∈ resident_only_types)
    (htype : libfsntfs_internal_attribute_get_type E (some a) true
      = ⟨1, none, some attribute_type⟩)
    (hdata : libfsntfs_internal_attribute_get_data E (some a) true true
      = ⟨1, none, some none⟩)
    (hvalue : a.value = none) :
    (perform_operations E operations a file_io_handle).1 = a := by
  induction operations generalizing file_io_handle with
  | nil => rfl
  | cons operation rest ih =>
    simp only [perform_operations]
    rw [unsupported_keeps_no_value_step E operation a file_io_handle attribute_type ht htype
      hdata hvalue]
    exact ih _

theorem initialize_value_none {V : Type} (sys : system_services)
    (attribute_slot : Option (Option (libfsntfs_internal_attribute V)))
    (mft_attribute : Option libfsntfs_mft_attribute)
    (attribute_list_entry : Option libfsntfs_attribute_list_entry)
    (initial : libfsntfs_internal_attribute V)
    (hok : ( libfsntfs_attribute_initialize sys attribute_slot mft_attribute
      attribute_list_entry).result = 1)
    (hout : ( libfsntfs_attribute_initialize sys attribute_slot mft_attribute
      attribute_list_entry).out = some (some initial)) :
    initial.value = none := by
  rcases attribute_slot with _ | _ | a0
  · simp [ libfsntfs_attribute_initialize] at hok
  · unfold libfsntfs_attribute_initialize at hok hout
    simp only [] at hok hout
    split_ifs at hok hout
    all_goals first
      | (exfalso; simp at hok; done)
      | (simp only [Option.some.injEq] at hout; rw [← hout])
  · simp [ libfsntfs_attribute_initialize] at hok

theorem reachable_unsupported_value_none (E : collaborators V W H S C K)
    (a : libfsntfs_internal_attribute V) (attribute_type : Nat)
    (hreach : facade_reachable E a)
    (ht : attribute_type ∈ resident_only_types)
    (htype : libfsntfs_internal_attribute_get_type E (some a) true
      = ⟨1, none, some attribute_type⟩)
    (hdata : libfsntfs_internal_attribute_get_data E (some a) true true
      = ⟨1, none, some none⟩) :
    a.value = none := by
  obtain ⟨sys, slot, m, e, initial, operations, w0, hok, hout, hops⟩ := hreach
  have hinit := initialize_value_none sys slot m e initial hok hout
  have hsame := perform_operations_same E operations initial w0
  rw [hops] at hsame
  have htype0 := (get_type_of_same_bindings E hsame true).symm.trans htype
  have hdata0 := (get_data_of_same_bindings E hsame true true).symm.trans hdata
  have hkeep := unsupported_keeps_no_value E operations initial w0 attribute_type ht htype0
    hdata0 hinit
  rw [hops] at hkeep
  rw [hkeep]
  exact hinit

end non_resident

/-- C10: for a facade whose attribute is non-resident (its data pointer is
NULL) and of type FILE_NAME, STANDARD_INFORMATION, OBJECT_IDENTIFIER,
REPARSE_POINT, VOLUME_INFORMATION or VOLUME_NAME, in any state that has no
cached value or that arises from libfsntfs_attribute_initialize by later
operations, libfsntfs_attribute_read_value returns -1 with the error
"unsupported non-resident attribute", for every IO handle, flags value and
device state; the facade is left as it was, without a cached value, the device
handle is not touched and no call is made on stream, vector, cache or device. -/
theorem read_value_non_resident_unsupported {V W H S C K : Type}
    (E : collaborators V W H S C K) (a : libfsntfs_internal_attribute V) (io_handle : H)
    (file_io_handle : W) (flags : Nat) (attribute_type : Nat)
    (hstate : a.value = none ∨ facade_reachable E a)
    (ht : attribute_type ∈ resident_only_types)
    (htype : libfsntfs_internal_attribute_get_type E (some a) true
      = ⟨1, none, some attribute_type⟩)
    (hdata : libfsntfs_internal_attribute_get_data E (some a) true true
      = ⟨1, none, some none⟩) :
    libfsntfs_attribute_read_value E (some a) io_handle file_io_handle flags
      = ⟨-1, some ⟨.LIBCERROR_RUNTIME_ERROR_UNSUPPORTED_VALUE,
          "%s: unsupported non-resident attribute."⟩, ⟨some a, file_io_handle, []⟩⟩
    ∧ a.value = none := by
  have hvalue : a.value = none := by
    rcases hstate with h | h
    · exact h
    · exact reachable_unsupported_value_none E a attribute_type h ht htype hdata
  exact ⟨read_value_unsupported_of_value_none E a io_handle file_io_handle flags
    attribute_type hvalue ht htype hdata, hvalue⟩

/-- C10 on a non-resident volume name read with the MFT_ONLY flag set. -/
theorem read_value_non_resident_unsupported_witness :
    libfsntfs_attribute_read_value sample_collaborators
        (some (sample_attribute (sample_non_resident_mft_attribute 0x60) 0)) () 7 1
      = ⟨-1, some ⟨.LIBCERROR_RUNTIME_ERROR_UNSUPPORTED_VALUE,
          "%s: unsupported non-resident attribute."⟩,
          ⟨some (sample_attribute (sample_non_resident_mft_attribute 0x60) 0), 7, []⟩⟩ :=
  (read_value_non_resident_unsupported sample_collaborators
    (sample_attribute (sample_non_resident_mft_attribute 0x60) 0) () 7 1 0x60
    (Or.inl rfl) (by decide) rfl rfl).1

section non_resident_values

variable {V W H S C K : Type}

theorem get_data_flags_of_same_bindings (E : collaborators V W H S C K)
    {a b : libfsntfs_internal_attribute V} (h : same_bindings a b) (data_flags : Bool) :
    libfsntfs_internal_attribute_get_data_flags E (some b) data_flags
      = libfsntfs_internal_attribute_get_data_flags E (some a) data_flags := by
  simp only [libfsntfs_internal_attribute_get_data_flags, h.1]

theorem read_value_non_resident_switch_of_kind (E : collaborators V W H S C K)
    (a : libfsntfs_internal_attribute V) (attribute_type : Nat) (kind : value_kind)
    (hkind : (attribute_type, kind) ∈ non_resident_value_kinds) :
    (∀ values, E.values_initialize kind = some values →
      read_value_non_resident_switch E a attribute_type
        = ⟨1, none, ⟨a.mft_attribute, a.attribute_list_entry, a.file_reference,
            some ⟨kind, values⟩, some kind⟩⟩)
    ∧ (E.values_initialize kind = none →
      (read_value_non_resident_switch E a attribute_type).result = -1
      ∧ (read_value_non_resident_switch E a attribute_type).out
        = read_value_on_error E ⟨a.mft_attribute, a.attribute_list_entry, a.file_reference,
            a.value, some kind⟩
      ∧ ((read_value_non_resident_switch E a attribute_type).error.map fun e => e.code)
        = some .LIBCERROR_RUNTIME_ERROR_INITIALIZE_FAILED) := by
  simp only [non_resident_value_kinds, List.mem_cons, Prod.mk.injEq, List.mem_singleton,
    List.not_mem_nil, or_false] at hkind
  rcases hkind with h | h
  all_goals
    obtain ⟨htype, hvalue_kind⟩ := h
    subst htype hvalue_kind
    simp only [read_value_non_resident_switch, read_value_non_resident_values,
      LIBFSNTFS_ATTRIBUTE_TYPE_BITMAP, LIBFSNTFS_ATTRIBUTE_TYPE_SECURITY_DESCRIPTOR,
      Nat.reduceEqDiff, if_true, if_false]
    constructor
    · intro values hinit
      simp only [hinit]
    · intro hinit
      simp [hinit]

theorem read_value_resident_of_unmaterialized (E : collaborators V W H S C K)
    (a : libfsntfs_internal_attribute V) (attribute_type : Nat) (data : List Nat)
    (ht : attribute_type ∉ materialized_types) :
    read_value_resident E a attribute_type data = ⟨1, none, a⟩ := by
  simp only [materialized_types, List.mem_cons, List.mem_singleton, List.not_mem_nil,
    or_false, not_or] at ht
  obtain ⟨h1, h2, h3, h4, h5, h6, h7, h8, h9⟩ := ht
  simp only [read_value_resident, if_neg h1, if_neg h2, if_neg h3, if_neg h4, if_neg h5,
    if_neg h6, if_neg h7, if_neg h8, if_neg h9]

theorem read_value_non_resident_switch_of_unmaterialized (E : collaborators V W H S C K)
    (a : libfsntfs_internal_attribute V) (attribute_type : Nat)
    (ht : attribute_type ∉ materialized_types) :
    read_value_non_resident_switch E a attribute_type = ⟨1, none, a⟩ := by
  simp only [materialized_types, List.mem_cons, List.mem_singleton, List.not_mem_nil,
    or_false, not_or] at ht
  obtain ⟨h1, h2, _, h4, h5, h6, h7, h8, h9⟩ := ht
  simp only [read_value_non_resident_switch, if_neg h1, if_neg h6, h2, h4, h5, h7, h8, h9,
    or_self, if_false]

theorem read_value_of_unmaterialized (E : collaborators V W H S C K)
    (a : libfsntfs_internal_attribute V) (io_handle : H) (file_io_handle : W) (flags : Nat)
    (attribute_type : Nat) (data : Option (List Nat))
    (ht : attribute_type ∉ materialized_types)
    (htype : libfsntfs_internal_attribute_get_type E (some a) true
      = ⟨1, none, some attribute_type⟩)
    (hdata : libfsntfs_internal_attribute_get_data E (some a) true true
      = ⟨1, none, some data⟩) :
    libfsntfs_attribute_read_value E (some a) io_handle file_io_handle flags
      = ⟨1, none, ⟨some a, file_io_handle, []⟩⟩ := by
  cases hvalue : a.value with
  | some value =>
    exact read_value_of_cached E a io_handle file_io_handle flags (by rw [hvalue]; rfl)
  | none =>
    cases data with
    | some resident_data =>
      rw [read_value_of_resident E a io_handle file_io_handle flags attribute_type
        resident_data hvalue htype hdata,
        read_value_resident_of_unmaterialized E a attribute_type resident_data ht]
    | none =>
      rw [read_value_of_non_resident E a io_handle file_io_handle flags attribute_type hvalue
        htype hdata]
      simp only [read_value_non_resident,
        read_value_non_resident_switch_of_unmaterialized E a attribute_type ht, hvalue]
      rfl

theorem read_value_on_error_released (E : collaborators V W H S C K)
    (a : libfsntfs_internal_attribute V) (hfree : deleters_release E)
    (h : a.value = none ∨ a.free_value.isSome = true) :
    (read_value_on_error E a).value = none := by
  cases hv : a.value with
  | none =>
    rw [read_value_on_error_of_value_none E a hv]
    exact hv
  | some value =>
    cases hf : a.free_value with
    | none =>
      rcases h with h | h
      · rw [hv] at h
        cases h
      · rw [hf] at h
        cases h
    | some free_value =>
      simp only [read_value_on_error, hv, hf]
      exact hfree _ _

theorem read_value_non_resident_of_mft_only (E : collaborators V W H S C K)
    (a : libfsntfs_internal_attribute V) (io_handle : H) (file_io_handle : W) (flags : Nat)
    (attribute_type : Nat) (kind : value_kind) (values : V)
    (hkind : (attribute_type, kind) ∈ non_resident_value_kinds)
    (hinit : E.values_initialize kind = some values)
    (hflags : flags &&& E.LIBFSNTFS_FILE_ENTRY_FLAGS_MFT_ONLY ≠ 0) :
    read_value_non_resident E a attribute_type io_handle file_io_handle flags
      = ⟨1, none, ⟨some ⟨a.mft_attribute, a.attribute_list_entry, a.file_reference,
          some ⟨kind, values⟩, some kind⟩, file_io_handle, []⟩⟩ := by
  have hswitch := (read_value_non_resident_switch_of_kind E a attribute_type kind hkind).1
    values hinit
  simp only [read_value_non_resident, hswitch, if_neg hflags]
  rfl

theorem read_value_non_resident_of_create_failed (E : collaborators V W H S C K)
    (a : libfsntfs_internal_attribute V) (io_handle : H) (file_io_handle : W) (flags : Nat)
    (attribute_type : Nat) (kind : value_kind)
    (hkind : (attribute_type, kind) ∈ non_resident_value_kinds)
    (hinit : E.values_initialize kind = none) :
    (read_value_non_resident E a attribute_type io_handle file_io_handle flags).result = -1
    ∧ (read_value_non_resident E a attribute_type io_handle file_io_handle flags).out
      = ⟨some (read_value_on_error E ⟨a.mft_attribute, a.attribute_list_entry,
          a.file_reference, a.value, some kind⟩), file_io_handle, []⟩
    ∧ ((read_value_non_resident E a attribute_type io_handle file_io_handle
        flags).error.map fun e => e.code)
      = some .LIBCERROR_RUNTIME_ERROR_INITIALIZE_FAILED := by
  obtain ⟨h1, h2, h3⟩ := (read_value_non_resident_switch_of_kind E a attribute_type kind
    hkind).2 hinit
  have hne : (read_value_non_resident_switch E a attribute_type).result ≠ 1 := by
    rw [h1]; decide
  unfold read_value_non_resident
  simp only []
  rw [if_pos hne]
  exact ⟨h1, by rw [h2], h3⟩

theorem read_value_non_resident_of_compressed (E : collaborators V W H S C K)
    (a : libfsntfs_internal_attribute V) (io_handle : H) (file_io_handle : W) (flags : Nat)
    (attribute_type : Nat) (kind : value_kind) (values : V) (data_flags : Nat)
    (hkind : (attribute_type, kind) ∈ non_resident_value_kinds)
    (hinit : E.values_initialize kind = some values)
    (hflags : flags &&& E.LIBFSNTFS_FILE_ENTRY_FLAGS_MFT_ONLY = 0)
    (hdata_flags : libfsntfs_internal_attribute_get_data_flags E (some a) true
      = ⟨1, none, some data_flags⟩)
    (hcompressed : data_flags &&& E.LIBFSNTFS_ATTRIBUTE_FLAG_COMPRESSION_MASK ≠ 0) :
    read_value_non_resident E a attribute_type io_handle file_io_handle flags
      = ⟨-1, some ⟨.LIBCERROR_RUNTIME_ERROR_UNSUPPORTED_VALUE,
          "%s: unsupported compressed attribute data."⟩,
          ⟨some (read_value_on_error E ⟨a.mft_attribute, a.attribute_list_entry,
            a.file_reference, some ⟨kind, values⟩, some kind⟩), file_io_handle, []⟩⟩ := by
  have hswitch := (read_value_non_resident_switch_of_kind E a attribute_type kind hkind).1
    values hinit
  have hsame : same_bindings a (⟨a.mft_attribute, a.attribute_list_entry, a.file_reference,
      some ⟨kind, values⟩, some kind⟩ : libfsntfs_internal_attribute V) := ⟨rfl, rfl, rfl⟩
  have hcall := (get_data_flags_of_same_bindings E hsame true).trans hdata_flags
  simp only [read_value_non_resident, hswitch, if_pos hflags, read_value_non_resident_data,
    hcall, read_value_fail, Option.getD_some, if_pos hcompressed]
  rfl

end non_resident_values

/-- C11, as stated, fails: read with the MFT_ONLY flag set, a non-resident
FILE_NAME attribute makes libfsntfs_attribute_read_value fail with the
unsupported-non-resident error, and a non-resident DATA attribute makes it
succeed without creating any container. -/
theorem read_value_mft_only_counterexample :
    libfsntfs_attribute_read_value sample_collaborators
        (some (sample_attribute (sample_non_resident_mft_attribute 0x30) 0)) () 7 1
      = ⟨-1, some ⟨.LIBCERROR_RUNTIME_ERROR_UNSUPPORTED_VALUE,
          "%s: unsupported non-resident attribute."⟩,
          ⟨some (sample_attribute (sample_non_resident_mft_attribute 0x30) 0), 7, []⟩⟩
    ∧ libfsntfs_attribute_read_value sample_collaborators
        (some (sample_attribute (sample_non_resident_mft_attribute 0x80) 0)) () 7 1
      = ⟨1, none, ⟨some ⟨some (sample_non_resident_mft_attribute 0x80), none, 0, none, none⟩,
          7, []⟩⟩ := by
  constructor <;> rfl

section mft_only

variable {V W H S C K : Type}

/-- The switch of the non-resident attributes does nothing for a type that is
neither BITMAP nor SECURITY_DESCRIPTOR nor one of the six types it rejects. -/
theorem read_value_non_resident_switch_of_other (E : collaborators V W H S C K)
    (a : libfsntfs_internal_attribute V) (attribute_type : Nat)
    (hbitmap : attribute_type ≠ LIBFSNTFS_ATTRIBUTE_TYPE_BITMAP)
    (hsecurity : attribute_type ≠ LIBFSNTFS_ATTRIBUTE_TYPE_SECURITY_DESCRIPTOR)
    (hresident : attribute_type ∉ resident_only_types) :
    read_value_non_resident_switch E a attribute_type = ⟨1, none, a⟩ := by
  have hnone : ¬ (attribute_type = LIBFSNTFS_ATTRIBUTE_TYPE_FILE_NAME
      ∨ attribute_type = LIBFSNTFS_ATTRIBUTE_TYPE_OBJECT_IDENTIFIER
      ∨ attribute_type = LIBFSNTFS_ATTRIBUTE_TYPE_REPARSE_POINT
      ∨ attribute_type = LIBFSNTFS_ATTRIBUTE_TYPE_STANDARD_INFORMATION
      ∨ attribute_type = LIBFSNTFS_ATTRIBUTE_TYPE_VOLUME_INFORMATION
      ∨ attribute_type = LIBFSNTFS_ATTRIBUTE_TYPE_VOLUME_NAME) := by
    simp only [resident_only_types, List.mem_cons, List.mem_singleton, List.not_mem_nil,
      or_false, not_or] at hresident
    tauto
  unfold read_value_non_resident_switch
  rw [if_neg hbitmap, if_neg hsecurity, if_neg hnone]

/-- The branch of the non-resident attributes does nothing for such a type,
whatever the flags are. -/
theorem read_value_non_resident_of_other (E : collaborators V W H S C K)
    (a : libfsntfs_internal_attribute V) (io_handle : H) (file_io_handle : W) (flags : Nat)
    (attribute_type : Nat) (hvalue : a.value = none)
    (hbitmap : attribute_type ≠ LIBFSNTFS_ATTRIBUTE_TYPE_BITMAP)
    (hsecurity : attribute_type ≠ LIBFSNTFS_ATTRIBUTE_TYPE_SECURITY_DESCRIPTOR)
    (hresident : attribute_type ∉ resident_only_types) :
    read_value_non_resident E a attribute_type io_handle file_io_handle flags
      = ⟨1, none, ⟨some a, file_io_handle, []⟩⟩ := by
  simp only [read_value_non_resident,
    read_value_non_resident_switch_of_other E a attribute_type hbitmap hsecurity hresident,
    hvalue]
  rfl

end mft_only

/-- C11, amended: for a facade with no cached value whose attribute is
non-resident, libfsntfs_attribute_read_value called with the MFT_ONLY flag set
builds no cluster-block stream, vector or cache and does not read the device,
and what it returns goes by the type. For BITMAP and SECURITY_DESCRIPTOR it
returns 1 exactly when the container of the matching kind can be created, and
then the cached value is that empty container, of the matching kind, with its
deleter registered. For FILE_NAME, STANDARD_INFORMATION, OBJECT_IDENTIFIER,
REPARSE_POINT, VOLUME_INFORMATION and VOLUME_NAME it returns -1 with the error
"unsupported non-resident attribute" and leaves the facade as it was. For every
other type, among them DATA, INDEX_ALLOCATION, INDEX_ROOT, ATTRIBUTE_LIST and
LOGGED_UTILITY_STREAM, it returns 1 without an error, creates no container and
leaves the facade as it was. -/
theorem read_value_mft_only_creates_container {V W H S C K : Type}
    (E : collaborators V W H S C K) (a : libfsntfs_internal_attribute V) (io_handle : H)
    (file_io_handle : W) (flags : Nat) (attribute_type : Nat)
    (hvalue : a.value = none)
    (htype : libfsntfs_internal_attribute_get_type E (some a) true
      = ⟨1, none, some attribute_type⟩)
    (hdata : libfsntfs_internal_attribute_get_data E (some a) true true
      = ⟨1, none, some none⟩)
    (hflags : flags &&& E.LIBFSNTFS_FILE_ENTRY_FLAGS_MFT_ONLY ≠ 0) :
    (∀ kind, (attribute_type, kind) ∈ non_resident_value_kinds →
      ((libfsntfs_attribute_read_value E (some a) io_handle file_io_handle flags).result = 1
        ↔ (E.values_initialize kind).isSome = true)
      ∧ (∀ values, E.values_initialize kind = some values →
        libfsntfs_attribute_read_value E (some a) io_handle file_io_handle flags
          = ⟨1, none, ⟨some ⟨a.mft_attribute, a.attribute_list_entry, a.file_reference,
              some ⟨kind, values⟩, some kind⟩, file_io_handle, []⟩⟩)
      ∧ (libfsntfs_attribute_read_value E (some a) io_handle file_io_handle
          flags).out.events = []
      ∧ (libfsntfs_attribute_read_value E (some a) io_handle file_io_handle
          flags).out.file_io_handle = file_io_handle)
    ∧ (attribute_type ∈ resident_only_types →
      libfsntfs_attribute_read_value E (some a) io_handle file_io_handle flags
        = ⟨-1, some ⟨.LIBCERROR_RUNTIME_ERROR_UNSUPPORTED_VALUE,
            "%s: unsupported non-resident attribute."⟩, ⟨some a, file_io_handle, []⟩⟩)
    ∧ (attribute_type ≠ LIBFSNTFS_ATTRIBUTE_TYPE_BITMAP →
      attribute_type ≠ LIBFSNTFS_ATTRIBUTE_TYPE_SECURITY_DESCRIPTOR →
      attribute_type ∉ resident_only_types →
      libfsntfs_attribute_read_value E (some a) io_handle file_io_handle flags
        = ⟨1, none, ⟨some a, file_io_handle, []⟩⟩)
    ∧ (∀ other ∈ [LIBFSNTFS_ATTRIBUTE_TYPE_DATA, LIBFSNTFS_ATTRIBUTE_TYPE_INDEX_ALLOCATION,
        LIBFSNTFS_ATTRIBUTE_TYPE_INDEX_ROOT, LIBFSNTFS_ATTRIBUTE_TYPE_ATTRIBUTE_LIST,
        LIBFSNTFS_ATTRIBUTE_TYPE_LOGGED_UTILITY_STREAM],
      other ≠ LIBFSNTFS_ATTRIBUTE_TYPE_BITMAP
      ∧ other ≠ LIBFSNTFS_ATTRIBUTE_TYPE_SECURITY_DESCRIPTOR
      ∧ other ∉ resident_only_types) := by
  refine ⟨?_, ?_, ?_, by decide⟩
  · intro kind hkind
    rw [read_value_of_non_resident E a io_handle file_io_handle flags attribute_type hvalue
      htype hdata]
    cases hinit : E.values_initialize kind with
    | some values =>
      rw [read_value_non_resident_of_mft_only E a io_handle file_io_handle flags
        attribute_type kind values hkind hinit hflags]
      refine ⟨by simp, ?_, rfl, rfl⟩
      intro values2 h2
      cases h2
      rfl
    | none =>
      obtain ⟨h1, h2, _⟩ := read_value_non_resident_of_create_failed E a io_handle
        file_io_handle flags attribute_type kind hkind hinit
      rw [h1, h2]
      refine ⟨by simp, ?_, rfl, rfl⟩
      intro values2 h2
      cases h2
  · intro hresident
    exact read_value_unsupported_of_value_none E a io_handle file_io_handle flags
      attribute_type hvalue hresident htype hdata
  · intro hbitmap hsecurity hresident
    rw [read_value_of_non_resident E a io_handle file_io_handle flags attribute_type hvalue
      htype hdata]
    exact read_value_non_resident_of_other E a io_handle file_io_handle flags attribute_type
      hvalue hbitmap hsecurity hresident

/-- C11, amended, read with MFT_ONLY set: a non-resident BITMAP caches the
empty bitmap container, with no call on vector or device, and a non-resident
LOGGED_UTILITY_STREAM is left without a container. -/
theorem read_value_mft_only_creates_container_witness :
    libfsntfs_attribute_read_value sample_collaborators
        (some (sample_attribute (sample_non_resident_mft_attribute 0xb0) 0)) () 7 1
      = ⟨1, none, ⟨some ⟨some (sample_non_resident_mft_attribute 0xb0), none, 0,
          some ⟨.bitmap_values, []⟩, some .bitmap_values⟩, 7, []⟩⟩
    ∧ libfsntfs_attribute_read_value sample_collaborators
        (some (sample_attribute (sample_non_resident_mft_attribute 0x100) 0)) () 7 1
      = ⟨1, none, ⟨some (sample_attribute (sample_non_resident_mft_attribute 0x100) 0), 7,
          []⟩⟩ :=
  ⟨((read_value_mft_only_creates_container sample_collaborators
      (sample_attribute (sample_non_resident_mft_attribute 0xb0) 0) () 7 1 0xb0
      rfl rfl rfl (by decide)).1 .bitmap_values (by decide)).2.1 [] rfl,
    (read_value_mft_only_creates_container sample_collaborators
      (sample_attribute (sample_non_resident_mft_attribute 0x100) 0) () 7 1 0x100
      rfl rfl rfl (by decide)).2.2.1 (by decide) (by decide) (by decide)⟩

/-- C12: for a facade with no cached value whose attribute is non-resident, of
type BITMAP or SECURITY_DESCRIPTOR, and has a bit of the compression mask set
in its data flags, libfsntfs_attribute_read_value called without the MFT_ONLY
flag returns -1 before any cluster-block stream, vector or cache is created
and without reading the device; the error is "unsupported compressed
attribute data" whenever the container could be created; and, the deleters
releasing what they are given, the facade holds no cached value afterwards and
keeps its bindings and file reference. -/
theorem read_value_compressed_unsupported {V W H S C K : Type}
    (E : collaborators V W H S C K) (a : libfsntfs_internal_attribute V) (io_handle : H)
    (file_io_handle : W) (flags : Nat) (attribute_type : Nat) (kind : value_kind)
    (data_flags : Nat)
    (hvalue : a.value = none)
    (hkind : (attribute_type, kind) ∈ non_resident_value_kinds)
    (htype : libfsntfs_internal_attribute_get_type E (some a) true
      = ⟨1, none, some attribute_type⟩)
    (hdata : libfsntfs_internal_attribute_get_data E (some a) true true
      = ⟨1, none, some none⟩)
    (hflags : flags &&& E.LIBFSNTFS_FILE_ENTRY_FLAGS_MFT_ONLY = 0)
    (hdata_flags : libfsntfs_internal_attribute_get_data_flags E (some a) true
      = ⟨1, none, some data_flags⟩)
    (hcompressed : data_flags &&& E.LIBFSNTFS_ATTRIBUTE_FLAG_COMPRESSION_MASK ≠ 0)
    (hfree : deleters_release E) :
    (libfsntfs_attribute_read_value E (some a) io_handle file_io_handle flags).result = -1
    ∧ ((E.values_initialize kind).isSome = true →
      (libfsntfs_attribute_read_value E (some a) io_handle file_io_handle flags).error
        = some ⟨.LIBCERROR_RUNTIME_ERROR_UNSUPPORTED_VALUE,
            "%s: unsupported compressed attribute data."⟩)
    ∧ (libfsntfs_attribute_read_value E (some a) io_handle file_io_handle
        flags).out.events = []
    ∧ (libfsntfs_attribute_read_value E (some a) io_handle file_io_handle
        flags).out.file_io_handle = file_io_handle
    ∧ ∃ after, (libfsntfs_attribute_read_value E (some a) io_handle file_io_handle
        flags).out.internal_attribute = some after
      ∧ after.value = none ∧ same_bindings a after := by
  rw [read_value_of_non_resident E a io_handle file_io_handle flags attribute_type hvalue
    htype hdata]
  cases hinit : E.values_initialize kind with
  | some values =>
    rw [read_value_non_resident_of_compressed E a io_handle file_io_handle flags
      attribute_type kind values data_flags hkind hinit hflags hdata_flags hcompressed]
    refine ⟨rfl, fun _ => rfl, rfl, rfl, _, rfl, ?_, ?_⟩
    · exact read_value_on_error_released E _ hfree (Or.inr rfl)
    · exact same_bindings_trans ⟨rfl, rfl, rfl⟩ (read_value_on_error_same E _)
  | none =>
    obtain ⟨h1, h2, _⟩ := read_value_non_resident_of_create_failed E a io_handle
      file_io_handle flags attribute_type kind hkind hinit
    rw [h1, h2]
    refine ⟨rfl, (fun h => by cases h), rfl, rfl, _, rfl, ?_, ?_⟩
    · exact read_value_on_error_released E _ hfree (Or.inr rfl)
    · exact same_bindings_trans ⟨rfl, rfl, rfl⟩ (read_value_on_error_same E _)

/-- C12 on a compressed non-resident BITMAP read without MFT_ONLY: the call
fails with the unsupported-compression error. -/
theorem read_value_compressed_unsupported_witness :
    (libfsntfs_attribute_read_value sample_collaborators
        (some (sample_attribute (sample_compressed_mft_attribute 0xb0) 0)) () 7 0).result = -1
    ∧ (libfsntfs_attribute_read_value sample_collaborators
        (some (sample_attribute (sample_compressed_mft_attribute 0xb0) 0)) () 7 0).error
      = some ⟨.LIBCERROR_RUNTIME_ERROR_UNSUPPORTED_VALUE,
          "%s: unsupported compressed attribute data."⟩ :=
  ⟨(read_value_compressed_unsupported sample_collaborators
      (sample_attribute (sample_compressed_mft_attribute 0xb0) 0) () 7 0 0xb0 .bitmap_values
      1 rfl (by decide) rfl rfl (by decide) rfl (by decide) (fun _ _ => rfl)).1,
   (read_value_compressed_unsupported sample_collaborators
      (sample_attribute (sample_compressed_mft_attribute 0xb0) 0) () 7 0 0xb0 .bitmap_values
      1 rfl (by decide) rfl rfl (by decide) rfl (by decide) (fun _ _ => rfl)).2.1 rfl⟩

/-- C13, as stated, fails: for a non-resident DATA attribute with the
compression flag set and a compression unit size of 4,
libfsntfs_attribute_read_value called without the MFT_ONLY flag returns 1 and
sets no error; no unsupported-compression error is raised. -/
theorem read_value_compressed_data_counterexample :
    (sample_compressed_mft_attribute 0x80).compression_unit_size = 4
    ∧ (sample_compressed_mft_attribute 0x80).data_flags
        &&& sample_collaborators.LIBFSNTFS_ATTRIBUTE_FLAG_COMPRESSION_MASK ≠ 0
    ∧ libfsntfs_attribute_read_value sample_collaborators
        (some (sample_attribute (sample_compressed_mft_attribute 0x80) 0)) () 7 0
      = ⟨1, none, ⟨some (sample_attribute (sample_compressed_mft_attribute 0x80) 0), 7, []⟩⟩ := by
  refine ⟨rfl, by decide, rfl⟩

/-- C13, amended: reading the value of a non-resident DATA attribute with
libfsntfs_attribute_read_value returns 1 without an error, leaves the facade
as it was (no value is materialized) and makes no call on stream, vector,
cache or device, whatever the data flags and the compression unit size of the
attribute are and whether the MFT_ONLY flag is set or not. -/
theorem read_value_data_is_left_alone {V W H S C K : Type}
    (E : collaborators V W H S C K) (a : libfsntfs_internal_attribute V) (io_handle : H)
    (file_io_handle : W) (flags : Nat)
    (htype : libfsntfs_internal_attribute_get_type E (some a) true
      = ⟨1, none, some LIBFSNTFS_ATTRIBUTE_TYPE_DATA⟩)
    (hdata : libfsntfs_internal_attribute_get_data E (some a) true true
      = ⟨1, none, some none⟩) :
    libfsntfs_attribute_read_value E (some a) io_handle file_io_handle flags
      = ⟨1, none, ⟨some a, file_io_handle, []⟩⟩ :=
  read_value_of_unmaterialized E a io_handle file_io_handle flags
    LIBFSNTFS_ATTRIBUTE_TYPE_DATA none (by decide) htype hdata

/-- C13, amended, on the compressed DATA attribute read with MFT_ONLY set. -/
theorem read_value_data_is_left_alone_witness :
    libfsntfs_attribute_read_value sample_collaborators
        (some (sample_attribute (sample_compressed_mft_attribute 0x80) 0)) () 7 1
      = ⟨1, none, ⟨some (sample_attribute (sample_compressed_mft_attribute 0x80) 0), 7, []⟩⟩ :=
  read_value_data_is_left_alone sample_collaborators
    (sample_attribute (sample_compressed_mft_attribute 0x80) 0) () 7 1 rfl rfl

/-- C14: the types INDEX_ALLOCATION, INDEX_ROOT, DATA and ATTRIBUTE_LIST have
no case of their own in libfsntfs_attribute_read_value, and for every
attribute of such a type or of any other type without such a case, resident
(with any data) or non-resident, in any state of the facade and for every
flags value, IO handle and device state, libfsntfs_attribute_read_value
returns 1 without an error, leaves the facade as it was, so that a cached
value that was absent stays absent, and makes no call on stream, vector, cache
or device. -/
theorem read_value_leaves_other_types {V W H S C K : Type}
    (E : collaborators V W H S C K) (a : libfsntfs_internal_attribute V) (io_handle : H)
    (file_io_handle : W) (flags : Nat) (attribute_type : Nat) (data : Option (List Nat))
    (ht : attribute_type ∉ materialized_types)
    (htype : libfsntfs_internal_attribute_get_type E (some a) true
      = ⟨1, none, some attribute_type⟩)
    (hdata : libfsntfs_internal_attribute_get_data E (some a) true true
      = ⟨1, none, some data⟩) :
    LIBFSNTFS_ATTRIBUTE_TYPE_INDEX_ALLOCATION ∉ materialized_types
    ∧ LIBFSNTFS_ATTRIBUTE_TYPE_INDEX_ROOT ∉ materialized_types
    ∧ LIBFSNTFS_ATTRIBUTE_TYPE_DATA ∉ materialized_types
    ∧ LIBFSNTFS_ATTRIBUTE_TYPE_ATTRIBUTE_LIST ∉ materialized_types
    ∧ libfsntfs_attribute_read_value E (some a) io_handle file_io_handle flags
      = ⟨1, none, ⟨some a, file_io_handle, []⟩⟩
    ∧ (a.value = none →
      ∃ after, (libfsntfs_attribute_read_value E (some a) io_handle file_io_handle
          flags).out.internal_attribute = some after ∧ after.value = none) := by
  have h := read_value_of_unmaterialized E a io_handle file_io_handle flags attribute_type
    data ht htype hdata
  refine ⟨by decide, by decide, by decide, by decide, h, ?_⟩
  intro hvalue
  rw [h]
  exact ⟨a, rfl, hvalue⟩

/-- C14 on a resident INDEX_ROOT attribute and a type outside the recognised
set (0x1000), non-resident. -/
theorem read_value_leaves_other_types_witness :
    libfsntfs_attribute_read_value sample_collaborators
        (some (sample_attribute (sample_mft_attribute 0x90 none) 0)) () 7 0
      = ⟨1, none, ⟨some (sample_attribute (sample_mft_attribute 0x90 none) 0), 7, []⟩⟩
    ∧ libfsntfs_attribute_read_value sample_collaborators
        (some (sample_attribute (sample_non_resident_mft_attribute 0x1000) 0)) () 7 0
      = ⟨1, none, ⟨some (sample_attribute (sample_non_resident_mft_attribute 0x1000) 0), 7,
          []⟩⟩ :=
  ⟨(read_value_leaves_other_types sample_collaborators
      (sample_attribute (sample_mft_attribute 0x90 none) 0) () 7 0 0x90
      (some [0, 0, 0, 0]) (by decide) rfl rfl).2.2.2.2.1,
   (read_value_leaves_other_types sample_collaborators
      (sample_attribute (sample_non_resident_mft_attribute 0x1000) 0) () 7 0 0x1000 none
      (by decide) rfl rfl).2.2.2.2.1⟩

section failure

variable {V W H S C K : Type}

theorem read_value_resident_values_deleter_irrelevant (E : collaborators V W H S C K)
    (a : libfsntfs_internal_attribute V) (free_value : Option value_kind) (kind : value_kind)
    (data : List Nat) (m1 m2 : String) :
    read_value_resident_values E
        ⟨a.mft_attribute, a.attribute_list_entry, a.file_reference, a.value, free_value⟩
        kind data m1 m2
      = read_value_resident_values E a kind data m1 m2 := rfl

theorem read_value_non_resident_values_deleter_irrelevant (E : collaborators V W H S C K)
    (a : libfsntfs_internal_attribute V) (free_value : Option value_kind) (kind : value_kind)
    (m1 : String) :
    read_value_non_resident_values E
        ⟨a.mft_attribute, a.attribute_list_entry, a.file_reference, a.value, free_value⟩
        kind m1
      = read_value_non_resident_values E a kind m1 := rfl

theorem compare_name_deleter_irrelevant (E : collaborators V W H S C K)
    (a : libfsntfs_internal_attribute V) (free_value : Option value_kind)
    (utf8_string : List Nat) :
    libfsntfs_internal_attribute_compare_name_with_utf8_string E
        (some ⟨a.mft_attribute, a.attribute_list_entry, a.file_reference, a.value,
          free_value⟩) utf8_string
      = libfsntfs_internal_attribute_compare_name_with_utf8_string E (some a) utf8_string :=
  rfl

theorem read_value_resident_congr (E : collaborators V W H S C K)
    (x y : libfsntfs_internal_attribute V) (attribute_type : Nat) (data : List Nat)
    (hvalues : ∀ kind m1 m2, read_value_resident_values E x kind data m1 m2
      = read_value_resident_values E y kind data m1 m2)
    (hcompare : libfsntfs_internal_attribute_compare_name_with_utf8_string E (some x)
        TXF_DATA_utf8_string
      = libfsntfs_internal_attribute_compare_name_with_utf8_string E (some y)
        TXF_DATA_utf8_string)
    (hx : read_value_on_error E x = x) (hy : read_value_on_error E y = y) :
    read_value_resident E x attribute_type data = read_value_resident E y attribute_type data
    ∨ ∃ result error, read_value_resident E x attribute_type data = ⟨result, error, x⟩
      ∧ read_value_resident E y attribute_type data = ⟨result, error, y⟩ := by
  unfold read_value_resident
  rw [hcompare, hx, hy]
  conv => zeta
  by_cases h0 : attribute_type = LIBFSNTFS_ATTRIBUTE_TYPE_BITMAP
  · rw [if_pos h0, if_pos h0]
    exact Or.inl (hvalues _ _ _)
  rw [if_neg h0, if_neg h0]
  by_cases h1 : attribute_type = LIBFSNTFS_ATTRIBUTE_TYPE_FILE_NAME
  · rw [if_pos h1, if_pos h1]
    exact Or.inl (hvalues _ _ _)
  rw [if_neg h1, if_neg h1]
  by_cases h2 : attribute_type = LIBFSNTFS_ATTRIBUTE_TYPE_LOGGED_UTILITY_STREAM
  · rw [if_pos h2, if_pos h2]
    by_cases hfail : (libfsntfs_internal_attribute_compare_name_with_utf8_string E (some y)
        TXF_DATA_utf8_string).result = -1
    · rw [if_pos hfail, if_pos hfail]
      exact Or.inr ⟨_, _, rfl, rfl⟩
    rw [if_neg hfail, if_neg hfail]
    by_cases hequal : (libfsntfs_internal_attribute_compare_name_with_utf8_string E (some y)
        TXF_DATA_utf8_string).result ≠ 0
    · rw [if_pos hequal, if_pos hequal]
      exact Or.inl (hvalues _ _ _)
    rw [if_neg hequal, if_neg hequal]
    exact Or.inl (hvalues _ _ _)
  rw [if_neg h2, if_neg h2]
  by_cases h3 : attribute_type = LIBFSNTFS_ATTRIBUTE_TYPE_OBJECT_IDENTIFIER
  · rw [if_pos h3, if_pos h3]
    exact Or.inl (hvalues _ _ _)
  rw [if_neg h3, if_neg h3]
  by_cases h4 : attribute_type = LIBFSNTFS_ATTRIBUTE_TYPE_REPARSE_POINT
  · rw [if_pos h4, if_pos h4]
    exact Or.inl (hvalues _ _ _)
  rw [if_neg h4, if_neg h4]
  by_cases h5 : attribute_type = LIBFSNTFS_ATTRIBUTE_TYPE_SECURITY_DESCRIPTOR
  · rw [if_pos h5, if_pos h5]
    exact Or.inl (hvalues _ _ _)
  rw [if_neg h5, if_neg h5]
  by_cases h6 : attribute_type = LIBFSNTFS_ATTRIBUTE_TYPE_STANDARD_INFORMATION
  · rw [if_pos h6, if_pos h6]
    exact Or.inl (hvalues _ _ _)
  rw [if_neg h6, if_neg h6]
  by_cases h7 : attribute_type = LIBFSNTFS_ATTRIBUTE_TYPE_VOLUME_INFORMATION
  · rw [if_pos h7, if_pos h7]
    exact Or.inl (hvalues _ _ _)
  rw [if_neg h7, if_neg h7]
  by_cases h8 : attribute_type = LIBFSNTFS_ATTRIBUTE_TYPE_VOLUME_NAME
  · rw [if_pos h8, if_pos h8]
    exact Or.inl (hvalues _ _ _)
  rw [if_neg h8, if_neg h8]
  exact Or.inr ⟨_, _, rfl, rfl⟩

theorem read_value_non_resident_switch_congr (E : collaborators V W H S C K)
    (x y : libfsntfs_internal_attribute V) (attribute_type : Nat)
    (hvalues : ∀ kind m1, read_value_non_resident_values E x kind m1
      = read_value_non_resident_values E y kind m1)
    (hx : read_value_on_error E x = x) (hy : read_value_on_error E y = y) :
    read_value_non_resident_switch E x attribute_type
      = read_value_non_resident_switch E y attribute_type
    ∨ ∃ result error, read_value_non_resident_switch E x attribute_type = ⟨result, error, x⟩
      ∧ read_value_non_resident_switch E y attribute_type = ⟨result, error, y⟩ := by
  unfold read_value_non_resident_switch
  rw [hx, hy]
  by_cases hbitmap : attribute_type = LIBFSNTFS_ATTRIBUTE_TYPE_BITMAP
  · rw [if_pos hbitmap, if_pos hbitmap]
    exact Or.inl (hvalues _ _)
  rw [if_neg hbitmap, if_neg hbitmap]
  by_cases hsecurity : attribute_type = LIBFSNTFS_ATTRIBUTE_TYPE_SECURITY_DESCRIPTOR
  · rw [if_pos hsecurity, if_pos hsecurity]
    exact Or.inl (hvalues _ _)
  rw [if_neg hsecurity, if_neg hsecurity]
  by_cases hresident : attribute_type = LIBFSNTFS_ATTRIBUTE_TYPE_FILE_NAME
      ∨ attribute_type = LIBFSNTFS_ATTRIBUTE_TYPE_OBJECT_IDENTIFIER
      ∨ attribute_type = LIBFSNTFS_ATTRIBUTE_TYPE_REPARSE_POINT
      ∨ attribute_type = LIBFSNTFS_ATTRIBUTE_TYPE_STANDARD_INFORMATION
      ∨ attribute_type = LIBFSNTFS_ATTRIBUTE_TYPE_VOLUME_INFORMATION
      ∨ attribute_type = LIBFSNTFS_ATTRIBUTE_TYPE_VOLUME_NAME
  · rw [if_pos hresident, if_pos hresident]
    exact Or.inr ⟨_, _, rfl, rfl⟩
  rw [if_neg hresident, if_neg hresident]
  exact Or.inr ⟨_, _, rfl, rfl⟩

theorem read_value_resident_shape (E : collaborators V W H S C K)
    (a : libfsntfs_internal_attribute V) (attribute_type : Nat) (data : List Nat) :
    (∃ kind m1 m2, read_value_resident E a attribute_type data
        = read_value_resident_values E a kind data m1 m2)
    ∨ (∃ error, read_value_resident E a attribute_type data
        = ⟨-1, some error, read_value_on_error E a⟩)
    ∨ read_value_resident E a attribute_type data = ⟨1, none, a⟩ := by
  unfold read_value_resident
  conv => zeta
  by_cases h0 : attribute_type = LIBFSNTFS_ATTRIBUTE_TYPE_BITMAP
  · rw [if_pos h0]
    exact Or.inl ⟨_, _, _, rfl⟩
  rw [if_neg h0]
  by_cases h1 : attribute_type = LIBFSNTFS_ATTRIBUTE_TYPE_FILE_NAME
  · rw [if_pos h1]
    exact Or.inl ⟨_, _, _, rfl⟩
  rw [if_neg h1]
  by_cases h2 : attribute_type = LIBFSNTFS_ATTRIBUTE_TYPE_LOGGED_UTILITY_STREAM
  · rw [if_pos h2]
    by_cases hfail : (libfsntfs_internal_attribute_compare_name_with_utf8_string E (some a)
        TXF_DATA_utf8_string).result = -1
    · rw [if_pos hfail]
      exact Or.inr (Or.inl ⟨_, rfl⟩)
    rw [if_neg hfail]
    by_cases hequal : (libfsntfs_internal_attribute_compare_name_with_utf8_string E (some a)
        TXF_DATA_utf8_string).result ≠ 0
    · rw [if_pos hequal]
      exact Or.inl ⟨_, _, _, rfl⟩
    rw [if_neg hequal]
    exact Or.inl ⟨_, _, _, rfl⟩
  rw [if_neg h2]
  by_cases h3 : attribute_type = LIBFSNTFS_ATTRIBUTE_TYPE_OBJECT_IDENTIFIER
  · rw [if_pos h3]
    exact Or.inl ⟨_, _, _, rfl⟩
  rw [if_neg h3]
  by_cases h4 : attribute_type = LIBFSNTFS_ATTRIBUTE_TYPE_REPARSE_POINT
  · rw [if_pos h4]
    exact Or.inl ⟨_, _, _, rfl⟩
  rw [if_neg h4]
  by_cases h5 : attribute_type = LIBFSNTFS_ATTRIBUTE_TYPE_SECURITY_DESCRIPTOR
  · rw [if_pos h5]
    exact Or.inl ⟨_, _, _, rfl⟩
  rw [if_neg h5]
  by_cases h6 : attribute_type = LIBFSNTFS_ATTRIBUTE_TYPE_STANDARD_INFORMATION
  · rw [if_pos h6]
    exact Or.inl ⟨_, _, _, rfl⟩
  rw [if_neg h6]
  by_cases h7 : attribute_type = LIBFSNTFS_ATTRIBUTE_TYPE_VOLUME_INFORMATION
  · rw [if_pos h7]
    exact Or.inl ⟨_, _, _, rfl⟩
  rw [if_neg h7]
  by_cases h8 : attribute_type = LIBFSNTFS_ATTRIBUTE_TYPE_VOLUME_NAME
  · rw [if_pos h8]
    exact Or.inl ⟨_, _, _, rfl⟩
  rw [if_neg h8]
  exact Or.inr (Or.inr rfl)

theorem read_value_non_resident_switch_shape (E : collaborators V W H S C K)
    (a : libfsntfs_internal_attribute V) (attribute_type : Nat) :
    (∃ kind m1, read_value_non_resident_switch E a attribute_type
        = read_value_non_resident_values E a kind m1)
    ∨ (∃ error, read_value_non_resident_switch E a attribute_type
        = ⟨-1, some error, read_value_on_error E a⟩)
    ∨ read_value_non_resident_switch E a attribute_type = ⟨1, none, a⟩ := by
  unfold read_value_non_resident_switch
  by_cases hbitmap : attribute_type = LIBFSNTFS_ATTRIBUTE_TYPE_BITMAP
  · rw [if_pos hbitmap]
    exact Or.inl ⟨_, _, rfl⟩
  rw [if_neg hbitmap]
  by_cases hsecurity : attribute_type = LIBFSNTFS_ATTRIBUTE_TYPE_SECURITY_DESCRIPTOR
  · rw [if_pos hsecurity]
    exact Or.inl ⟨_, _, rfl⟩
  rw [if_neg hsecurity]
  by_cases hresident : attribute_type = LIBFSNTFS_ATTRIBUTE_TYPE_FILE_NAME
      ∨ attribute_type = LIBFSNTFS_ATTRIBUTE_TYPE_OBJECT_IDENTIFIER
      ∨ attribute_type = LIBFSNTFS_ATTRIBUTE_TYPE_REPARSE_POINT
      ∨ attribute_type = LIBFSNTFS_ATTRIBUTE_TYPE_STANDARD_INFORMATION
      ∨ attribute_type = LIBFSNTFS_ATTRIBUTE_TYPE_VOLUME_INFORMATION
      ∨ attribute_type = LIBFSNTFS_ATTRIBUTE_TYPE_VOLUME_NAME
  · rw [if_pos hresident]
    exact Or.inr (Or.inl ⟨_, rfl⟩)
  rw [if_neg hresident]
  exact Or.inr (Or.inr rfl)

theorem get_type_cases (E : collaborators V W H S C K)
    (a : libfsntfs_internal_attribute V) (type : Bool) :
    (∃ attribute_type, libfsntfs_internal_attribute_get_type E (some a) type
        = ⟨1, none, some attribute_type⟩)
    ∨ libfsntfs_internal_attribute_get_type E (some a) type
        = ⟨-1, (libfsntfs_internal_attribute_get_type E (some a) type).error, none⟩ := by
  unfold libfsntfs_internal_attribute_get_type
  repeat' split
  all_goals first
    | exact Or.inl ⟨_, rfl⟩
    | exact Or.inr rfl

theorem get_data_cases (E : collaborators V W H S C K)
    (a : libfsntfs_internal_attribute V) :
    (∃ data, libfsntfs_internal_attribute_get_data E (some a) true true
        = ⟨1, none, some data⟩)
    ∨ libfsntfs_internal_attribute_get_data E (some a) true true
        = ⟨-1, (libfsntfs_internal_attribute_get_data E (some a) true true).error, none⟩ := by
  unfold libfsntfs_internal_attribute_get_data
  repeat' split
  all_goals first
    | exact Or.inl ⟨_, rfl⟩
    | exact Or.inr rfl

theorem read_value_of_type_failed (E : collaborators V W H S C K)
    (a : libfsntfs_internal_attribute V) (io_handle : H) (file_io_handle : W) (flags : Nat)
    (hvalue : a.value = none)
    (htype : (libfsntfs_internal_attribute_get_type E (some a) true).result ≠ 1) :
    libfsntfs_attribute_read_value E (some a) io_handle file_io_handle flags
      = ⟨-1, some ⟨.LIBCERROR_RUNTIME_ERROR_GET_FAILED,
          "%s: unable to retrieve type from attribute."⟩, ⟨some a, file_io_handle, []⟩⟩ := by
  simp only [libfsntfs_attribute_read_value, hvalue, Option.isSome_none, if_pos htype,
    read_value_fail, read_value_on_error_of_value_none E a hvalue]
  rfl

theorem read_value_of_data_failed (E : collaborators V W H S C K)
    (a : libfsntfs_internal_attribute V) (io_handle : H) (file_io_handle : W) (flags : Nat)
    (hvalue : a.value = none)
    (htype : (libfsntfs_internal_attribute_get_type E (some a) true).result = 1)
    (hdata : (libfsntfs_internal_attribute_get_data E (some a) true true).result ≠ 1) :
    libfsntfs_attribute_read_value E (some a) io_handle file_io_handle flags
      = ⟨-1, some ⟨.LIBCERROR_RUNTIME_ERROR_GET_FAILED,
          "%s: unable to retrieve data from attribute."⟩, ⟨some a, file_io_handle, []⟩⟩ := by
  simp only [libfsntfs_attribute_read_value, hvalue, Option.isSome_none,
    if_neg (not_not.mpr htype), if_pos hdata, read_value_fail,
    read_value_on_error_of_value_none E a hvalue]
  rfl

theorem released_through_deleter_same (E : collaborators V W H S C K)
    (a after : libfsntfs_internal_attribute V) (h : released_through_deleter E a after) :
    same_bindings a after := by
  rcases h with h | ⟨kind, _, h⟩ | ⟨kind, content, _, h⟩
  all_goals
    rw [h]
    exact ⟨rfl, rfl, rfl⟩

theorem released_through_deleter_value_none (E : collaborators V W H S C K)
    (a after : libfsntfs_internal_attribute V) (hvalue : a.value = none)
    (hfree : deleters_release E) (h : released_through_deleter E a after) :
    after.value = none := by
  rcases h with h | ⟨kind, _, h⟩ | ⟨kind, content, _, h⟩
  · rw [h]
    exact hvalue
  · rw [h]
  · rw [h]
    exact hfree kind _

theorem read_value_resident_values_released (E : collaborators V W H S C K)
    (a : libfsntfs_internal_attribute V) (kind : value_kind) (data : List Nat)
    (m1 m2 : String) (hvalue : a.value = none)
    (hfail : (read_value_resident_values E a kind data m1 m2).result ≠ 1) :
    released_through_deleter E a (read_value_resident_values E a kind data m1 m2).out := by
  obtain ⟨mft_attribute, attribute_list_entry, file_reference, value, free_value⟩ := a
  simp only at hvalue
  subst hvalue
  unfold read_value_resident_values at hfail ⊢
  cases hinit : E.values_initialize kind with
  | none =>
    simp only [hinit]
    exact Or.inr (Or.inl ⟨kind, hinit, rfl⟩)
  | some values =>
    simp only [hinit] at hfail ⊢
    split_ifs at hfail ⊢
    · exact absurd rfl hfail
    · exact Or.inr (Or.inr ⟨kind, _, by rw [hinit]; rfl, rfl⟩)

/-- A resident case whose container was created and whose parser rejects the
data hands that container, with what the parser left in it, to the deleter of
its kind. -/
theorem read_value_resident_values_rejected (E : collaborators V W H S C K)
    (a : libfsntfs_internal_attribute V) (kind : value_kind) (data : List Nat)
    (m1 m2 : String) (values : V) (hinit : E.values_initialize kind = some values)
    (hfail : (read_value_resident_values E a kind data m1 m2).result ≠ 1) :
    (read_value_resident_values E a kind data m1 m2).out
      = ⟨a.mft_attribute, a.attribute_list_entry, a.file_reference,
          (E.values_free kind ⟨kind, (E.values_read_data kind values data).1⟩).1,
          some kind⟩ := by
  unfold read_value_resident_values at hfail ⊢
  simp only [hinit] at hfail ⊢
  split_ifs at hfail ⊢
  · exact absurd rfl hfail
  · rfl

theorem read_value_resident_of_kind_rejected (E : collaborators V W H S C K)
    (a : libfsntfs_internal_attribute V) (attribute_type : Nat) (kind : value_kind)
    (data : List Nat) (values : V) (hkind : (attribute_type, kind) ∈ resident_value_kinds)
    (hinit : E.values_initialize kind = some values)
    (hfail : (read_value_resident E a attribute_type data).result ≠ 1) :
    (read_value_resident E a attribute_type data).out
      = ⟨a.mft_attribute, a.attribute_list_entry, a.file_reference,
          (E.values_free kind ⟨kind, (E.values_read_data kind values data).1⟩).1,
          some kind⟩ := by
  simp only [resident_value_kinds, List.mem_cons, Prod.mk.injEq, List.mem_singleton,
    List.not_mem_nil, or_false] at hkind
  rcases hkind with h | h | h | h | h | h | h | h
  all_goals
    obtain ⟨htype, hvalue_kind⟩ := h
    subst htype hvalue_kind
    simp only [read_value_resident, LIBFSNTFS_ATTRIBUTE_TYPE_BITMAP,
      LIBFSNTFS_ATTRIBUTE_TYPE_FILE_NAME, LIBFSNTFS_ATTRIBUTE_TYPE_LOGGED_UTILITY_STREAM,
      LIBFSNTFS_ATTRIBUTE_TYPE_OBJECT_IDENTIFIER, LIBFSNTFS_ATTRIBUTE_TYPE_REPARSE_POINT,
      LIBFSNTFS_ATTRIBUTE_TYPE_SECURITY_DESCRIPTOR,
      LIBFSNTFS_ATTRIBUTE_TYPE_STANDARD_INFORMATION,
      LIBFSNTFS_ATTRIBUTE_TYPE_VOLUME_INFORMATION, LIBFSNTFS_ATTRIBUTE_TYPE_VOLUME_NAME,
      Nat.reduceEqDiff, if_true, if_false] at hfail ⊢
    exact read_value_resident_values_rejected E a _ data _ _ values hinit hfail

theorem read_value_resident_released (E : collaborators V W H S C K)
    (a : libfsntfs_internal_attribute V) (attribute_type : Nat) (data : List Nat)
    (hvalue : a.value = none) :
    (read_value_resident E a attribute_type data).result = 1
    ∨ ((read_value_resident E a attribute_type data).result = -1
      ∧ released_through_deleter E a (read_value_resident E a attribute_type data).out) := by
  rcases read_value_resident_shape E a attribute_type data with
    ⟨kind, m1, m2, h⟩ | ⟨error, h⟩ | h
  · rw [h]
    rcases (read_value_resident_values_result E a kind data m1 m2).2.2.1 with h1 | h1
    · exact Or.inl h1
    · exact Or.inr ⟨h1, read_value_resident_values_released E a kind data m1 m2 hvalue
        (by rw [h1]; decide)⟩
  · rw [h]
    exact Or.inr ⟨rfl, Or.inl (read_value_on_error_of_value_none E a hvalue)⟩
  · rw [h]
    exact Or.inl rfl

theorem read_value_non_resident_values_released (E : collaborators V W H S C K)
    (a : libfsntfs_internal_attribute V) (kind : value_kind) (m1 : String)
    (hvalue : a.value = none) :
    ((read_value_non_resident_values E a kind m1).result = 1
      ∧ ∃ values, E.values_initialize kind = some values
        ∧ (read_value_non_resident_values E a kind m1).out
          = ⟨a.mft_attribute, a.attribute_list_entry, a.file_reference, some ⟨kind, values⟩,
              some kind⟩)
    ∨ ((read_value_non_resident_values E a kind m1).result = -1
      ∧ released_through_deleter E a (read_value_non_resident_values E a kind m1).out) := by
  obtain ⟨mft_attribute, attribute_list_entry, file_reference, value, free_value⟩ := a
  simp only at hvalue
  subst hvalue
  unfold read_value_non_resident_values
  cases hinit : E.values_initialize kind with
  | none => exact Or.inr ⟨rfl, Or.inr (Or.inl ⟨kind, hinit, rfl⟩)⟩
  | some values => exact Or.inl ⟨rfl, values, rfl, rfl⟩

theorem read_value_non_resident_switch_released (E : collaborators V W H S C K)
    (a : libfsntfs_internal_attribute V) (attribute_type : Nat) (hvalue : a.value = none) :
    ((read_value_non_resident_switch E a attribute_type).result = 1
      ∧ ((read_value_non_resident_switch E a attribute_type).out = a
        ∨ ∃ kind values, E.values_initialize kind = some values
          ∧ (read_value_non_resident_switch E a attribute_type).out
            = ⟨a.mft_attribute, a.attribute_list_entry, a.file_reference,
                some ⟨kind, values⟩, some kind⟩))
    ∨ ((read_value_non_resident_switch E a attribute_type).result = -1
      ∧ released_through_deleter E a
        (read_value_non_resident_switch E a attribute_type).out) := by
  rcases read_value_non_resident_switch_shape E a attribute_type with
    ⟨kind, m1, h⟩ | ⟨error, h⟩ | h
  · rw [h]
    rcases read_value_non_resident_values_released E a kind m1 hvalue with
      ⟨h1, values, hinit, hout⟩ | h1
    · exact Or.inl ⟨h1, Or.inr ⟨kind, values, hinit, hout⟩⟩
    · exact Or.inr h1
  · rw [h]
    exact Or.inr ⟨rfl, Or.inl (read_value_on_error_of_value_none E a hvalue)⟩
  · rw [h]
    exact Or.inl ⟨rfl, Or.inl rfl⟩

/-- The read of the data of a non-resident attribute, entered with the
container created: when it fails, the container, with the content it has by
then, has been handed to the deleter of its kind. -/
theorem read_value_non_resident_data_released (E : collaborators V W H S C K)
    (mft_attribute : Option libfsntfs_mft_attribute)
    (attribute_list_entry : Option libfsntfs_attribute_list_entry) (file_reference : Nat)
    (kind : value_kind) (values : V) (attribute_type : Nat) (io_handle : H)
    (file_io_handle : W) :
    ∃ after, (read_value_non_resident_data E
          ⟨mft_attribute, attribute_list_entry, file_reference, some ⟨kind, values⟩, some kind⟩
          ⟨kind, values⟩ attribute_type io_handle file_io_handle).out.internal_attribute
        = some after
      ∧ ((read_value_non_resident_data E
            ⟨mft_attribute, attribute_list_entry, file_reference, some ⟨kind, values⟩,
              some kind⟩
            ⟨kind, values⟩ attribute_type io_handle file_io_handle).result = 1
        ∨ ((read_value_non_resident_data E
              ⟨mft_attribute, attribute_list_entry, file_reference, some ⟨kind, values⟩,
                some kind⟩
              ⟨kind, values⟩ attribute_type io_handle file_io_handle).result = -1
          ∧ ∃ content, after
            = ⟨mft_attribute, attribute_list_entry, file_reference,
                (E.values_free kind ⟨kind, content⟩).1, some kind⟩)) := by
  unfold read_value_non_resident_data read_value_fail
  simp only []
  repeat' split
  all_goals first
    | exact ⟨_, rfl, Or.inl rfl⟩
    | exact ⟨_, rfl, Or.inr ⟨rfl, _, rfl⟩⟩

theorem read_value_non_resident_released (E : collaborators V W H S C K)
    (a : libfsntfs_internal_attribute V) (attribute_type : Nat) (io_handle : H)
    (file_io_handle : W) (flags : Nat) (hvalue : a.value = none) :
    ∃ after, (read_value_non_resident E a attribute_type io_handle file_io_handle
        flags).out.internal_attribute = some after
      ∧ ((read_value_non_resident E a attribute_type io_handle file_io_handle
          flags).result = 1
        ∨ ((read_value_non_resident E a attribute_type io_handle file_io_handle
            flags).result = -1 ∧ released_through_deleter E a after)) := by
  unfold read_value_non_resident
  simp only []
  rcases read_value_non_resident_switch_released E a attribute_type hvalue with
    ⟨hok, hstate⟩ | ⟨hfail, hreleased⟩
  · rw [if_neg (by rw [hok]; decide)]
    rcases hstate with hsame | ⟨kind, values, hinit, hout⟩
    · rw [hsame, hvalue]
      exact ⟨_, rfl, Or.inl rfl⟩
    · rw [hout]
      simp only []
      split
      · obtain ⟨after, hafter, hcases⟩ := read_value_non_resident_data_released E
          a.mft_attribute a.attribute_list_entry a.file_reference kind values attribute_type
          io_handle file_io_handle
        refine ⟨after, hafter, ?_⟩
        rcases hcases with h1 | ⟨h1, content, h2⟩
        · exact Or.inl h1
        · exact Or.inr ⟨h1, Or.inr (Or.inr ⟨kind, content, by rw [hinit]; rfl, h2⟩)⟩
      · exact ⟨_, rfl, Or.inl rfl⟩
  · rw [if_pos (by rw [hfail]; decide)]
    exact ⟨_, rfl, Or.inr ⟨hfail, hreleased⟩⟩

theorem read_value_released (E : collaborators V W H S C K)
    (a : libfsntfs_internal_attribute V) (io_handle : H) (file_io_handle : W) (flags : Nat)
    (hvalue : a.value = none) :
    ∃ after, (libfsntfs_attribute_read_value E (some a) io_handle file_io_handle
        flags).out.internal_attribute = some after
      ∧ ((libfsntfs_attribute_read_value E (some a) io_handle file_io_handle flags).result = 1
        ∨ ((libfsntfs_attribute_read_value E (some a) io_handle file_io_handle
            flags).result = -1 ∧ released_through_deleter E a after)) := by
  rcases get_type_cases E a true with ⟨attribute_type, htype⟩ | htype
  · rcases get_data_cases E a with ⟨data, hdata⟩ | hdata
    · cases data with
      | some resident_data =>
        rw [read_value_of_resident E a io_handle file_io_handle flags attribute_type
          resident_data hvalue htype hdata]
        exact ⟨_, rfl, read_value_resident_released E a attribute_type resident_data hvalue⟩
      | none =>
        rw [read_value_of_non_resident E a io_handle file_io_handle flags attribute_type
          hvalue htype hdata]
        exact read_value_non_resident_released E a attribute_type io_handle file_io_handle
          flags hvalue
    · rw [read_value_of_data_failed E a io_handle file_io_handle flags hvalue
        (by rw [htype]) (by rw [hdata]; simp)]
      exact ⟨a, rfl, Or.inr ⟨rfl, Or.inl rfl⟩⟩
  · rw [read_value_of_type_failed E a io_handle file_io_handle flags hvalue
      (by rw [htype]; simp)]
    exact ⟨a, rfl, Or.inr ⟨rfl, Or.inl rfl⟩⟩

theorem same_bindings_symm {a b : libfsntfs_internal_attribute V} (h : same_bindings a b) :
    same_bindings b a :=
  ⟨h.1.symm, h.2.1.symm, h.2.2.symm⟩

theorem same_outcome_of_eq (first second : call_result (read_value_state V W))
    (x : libfsntfs_internal_attribute V) (h : first = second)
    (hx : second.out.internal_attribute = some x) :
    same_outcome_up_to_deleter first second := by
  subst h
  exact ⟨rfl, rfl, rfl, rfl, x, x, hx, hx, rfl, same_bindings_refl x⟩

theorem read_value_non_resident_deleter_irrelevant (E : collaborators V W H S C K)
    (a b : libfsntfs_internal_attribute V) (attribute_type : Nat) (io_handle : H)
    (file_io_handle : W) (flags : Nat) (hvalue : a.value = none) (hb : b.value = none)
    (hsame : same_bindings a b) :
    same_outcome_up_to_deleter
      (read_value_non_resident E b attribute_type io_handle file_io_handle flags)
      (read_value_non_resident E a attribute_type io_handle file_io_handle flags) := by
  have hvalues : ∀ kind m1, read_value_non_resident_values E b kind m1
      = read_value_non_resident_values E a kind m1 := by
    intro kind m1
    obtain ⟨h1, h2, h3⟩ := hsame
    simp only [read_value_non_resident_values, read_value_on_error, h1, h2, h3, hvalue, hb]
  rcases read_value_non_resident_switch_congr E b a attribute_type hvalues
    (read_value_on_error_of_value_none E b hb) (read_value_on_error_of_value_none E a hvalue)
    with h | ⟨result, error, h1, h2⟩
  · obtain ⟨x, hx, _⟩ := read_value_non_resident_same E a attribute_type io_handle
      file_io_handle flags
    refine same_outcome_of_eq _ _ x ?_ hx
    unfold read_value_non_resident
    rw [h]
  · unfold read_value_non_resident
    simp only [h1, h2, hvalue, hb]
    by_cases hr : result ≠ 1
    · rw [if_pos hr, if_pos hr]
      exact ⟨rfl, rfl, rfl, rfl, b, a, rfl, rfl, hb.trans hvalue.symm,
        same_bindings_symm hsame⟩
    · rw [if_neg hr, if_neg hr]
      exact ⟨rfl, rfl, rfl, rfl, b, a, rfl, rfl, hb.trans hvalue.symm,
        same_bindings_symm hsame⟩

theorem read_value_deleter_irrelevant (E : collaborators V W H S C K)
    (a b : libfsntfs_internal_attribute V) (io_handle : H) (file_io_handle : W) (flags : Nat)
    (hvalue : a.value = none) (hb : b.value = none) (hsame : same_bindings a b) :
    same_outcome_up_to_deleter
      (libfsntfs_attribute_read_value E (some b) io_handle file_io_handle flags)
      (libfsntfs_attribute_read_value E (some a) io_handle file_io_handle flags) := by
  have ht := get_type_of_same_bindings E hsame true
  have hd := get_data_of_same_bindings E hsame true true
  have hback : same_outcome_up_to_deleter
      (⟨-1, some ⟨.LIBCERROR_RUNTIME_ERROR_GET_FAILED,
        "%s: unable to retrieve type from attribute."⟩, ⟨some b, file_io_handle, []⟩⟩ :
        call_result (read_value_state V W))
      ⟨-1, some ⟨.LIBCERROR_RUNTIME_ERROR_GET_FAILED,
        "%s: unable to retrieve type from attribute."⟩, ⟨some a, file_io_handle, []⟩⟩ :=
    ⟨rfl, rfl, rfl, rfl, b, a, rfl, rfl, hb.trans hvalue.symm, same_bindings_symm hsame⟩
  rcases get_type_cases E a true with ⟨attribute_type, htype⟩ | htype
  · rcases get_data_cases E a with ⟨data, hdata⟩ | hdata
    · cases data with
      | some resident_data =>
        rw [read_value_of_resident E b io_handle file_io_handle flags attribute_type
          resident_data hb (ht.trans htype) (hd.trans hdata),
          read_value_of_resident E a io_handle file_io_handle flags attribute_type
          resident_data hvalue htype hdata]
        have hvalues : ∀ kind m1 m2, read_value_resident_values E b kind resident_data m1 m2
            = read_value_resident_values E a kind resident_data m1 m2 := by
          intro kind m1 m2
          obtain ⟨h1, h2, h3⟩ := hsame
          simp only [read_value_resident_values, read_value_on_error, h1, h2, h3, hvalue, hb]
        have hcompare : libfsntfs_internal_attribute_compare_name_with_utf8_string E (some b)
            TXF_DATA_utf8_string
            = libfsntfs_internal_attribute_compare_name_with_utf8_string E (some a)
              TXF_DATA_utf8_string := by
          simp only [libfsntfs_internal_attribute_compare_name_with_utf8_string, hsame.1,
            hsame.2.1]
        rcases read_value_resident_congr E b a attribute_type resident_data hvalues hcompare
          (read_value_on_error_of_value_none E b hb)
          (read_value_on_error_of_value_none E a hvalue) with h | ⟨result, error, h1, h2⟩
        · rw [h]
          exact same_outcome_of_eq _ _ _ rfl rfl
        · rw [h1, h2]
          exact ⟨rfl, rfl, rfl, rfl, b, a, rfl, rfl, hb.trans hvalue.symm,
            same_bindings_symm hsame⟩
      | none =>
        rw [read_value_of_non_resident E b io_handle file_io_handle flags attribute_type hb
          (ht.trans htype) (hd.trans hdata),
          read_value_of_non_resident E a io_handle file_io_handle flags attribute_type hvalue
          htype hdata]
        exact read_value_non_resident_deleter_irrelevant E a b attribute_type io_handle
          file_io_handle flags hvalue hb hsame
    · rw [read_value_of_data_failed E b io_handle file_io_handle flags hb
        (by rw [ht, htype]) (by rw [hd, hdata]; simp),
        read_value_of_data_failed E a io_handle file_io_handle flags hvalue
        (by rw [htype]) (by rw [hdata]; simp)]
      exact ⟨rfl, rfl, rfl, rfl, b, a, rfl, rfl, hb.trans hvalue.symm,
        same_bindings_symm hsame⟩
  · rw [read_value_of_type_failed E b io_handle file_io_handle flags hb
      (by rw [ht, htype]; simp),
      read_value_of_type_failed E a io_handle file_io_handle flags hvalue
      (by rw [htype]; simp)]
    exact hback

end failure

/-- C15: a call of libfsntfs_attribute_read_value that fails on a present
facade with no cached value returns -1 and leaves a facade with the same
bindings and file reference. If a container was created during the call, the
deleter registered is the one of its kind and the slot of the value holds what
that deleter, called on the slot with the container in it, has left there;
otherwise the facade is as it was, or only has the deleter of a kind registered
whose container could not be created. In particular, when the parser of a
resident type rejects the data, the container it worked on is the one handed to
the deleter. The deleters releasing what they are given, the facade has no
cached value afterwards, and a later libfsntfs_attribute_read_value on it does
what it does on the facade as it was before the failing call: the same value
returned, error, device state, calls and cached value (the failure is not
remembered). -/
theorem read_value_failure_releases {V W H S C K : Type} (E : collaborators V W H S C K)
    (a : libfsntfs_internal_attribute V) (io_handle : H) (file_io_handle : W) (flags : Nat)
    (hvalue : a.value = none)
    (hfail : (libfsntfs_attribute_read_value E (some a) io_handle file_io_handle
      flags).result ≠ 1) :
    (libfsntfs_attribute_read_value E (some a) io_handle file_io_handle flags).result = -1
    ∧ ∃ after, (libfsntfs_attribute_read_value E (some a) io_handle file_io_handle
        flags).out.internal_attribute = some after
      ∧ same_bindings a after
      ∧ released_through_deleter E a after
      ∧ (∀ attribute_type kind resident_data values,
          (attribute_type, kind) ∈ resident_value_kinds →
          libfsntfs_internal_attribute_get_type E (some a) true
            = ⟨1, none, some attribute_type⟩ →
          libfsntfs_internal_attribute_get_data E (some a) true true
            = ⟨1, none, some (some resident_data)⟩ →
          E.values_initialize kind = some values →
          after = ⟨a.mft_attribute, a.attribute_list_entry, a.file_reference,
            (E.values_free kind ⟨kind, (E.values_read_data kind values resident_data).1⟩).1,
            some kind⟩)
      ∧ (deleters_release E →
          after.value = none
          ∧ ∀ (later_io_handle : H) (later_file_io_handle : W) (later_flags : Nat),
              same_outcome_up_to_deleter
                (libfsntfs_attribute_read_value E (some after) later_io_handle
                  later_file_io_handle later_flags)
                (libfsntfs_attribute_read_value E (some a) later_io_handle
                  later_file_io_handle later_flags)) := by
  obtain ⟨after, hout, hcases⟩ := read_value_released E a io_handle file_io_handle flags hvalue
  rcases hcases with hok | ⟨hresult, hreleased⟩
  · exact absurd hok hfail
  · have hsame := released_through_deleter_same E a after hreleased
    refine ⟨hresult, after, hout, hsame, hreleased, ?_, ?_⟩
    · intro attribute_type kind resident_data values hkind htype hdata hinit
      have hread := read_value_of_resident E a io_handle file_io_handle flags attribute_type
        resident_data hvalue htype hdata
      rw [hread] at hout hfail
      simp only [Option.some.injEq] at hout
      rw [← hout]
      exact read_value_resident_of_kind_rejected E a attribute_type kind resident_data values
        hkind hinit hfail
    · intro hfree
      have hnone := released_through_deleter_value_none E a after hvalue hfree hreleased
      exact ⟨hnone, fun io2 w2 flags2 =>
        read_value_deleter_irrelevant E a after io2 w2 flags2 hvalue hnone hsame⟩

/-- C15 on a compressed non-resident BITMAP read without MFT_ONLY, with
deleters that fail and leave the container in the slot: the call returns -1
and the slot holds what the deleter of the bitmap values left, the container
that was created. -/
theorem read_value_failure_releases_witness :
    (libfsntfs_attribute_read_value sample_collaborators_keeping_values
        (some (sample_attribute (sample_compressed_mft_attribute 0xb0) 0)) () 7 0).result = -1
    ∧ ∃ after, (libfsntfs_attribute_read_value sample_collaborators_keeping_values
          (some (sample_attribute (sample_compressed_mft_attribute 0xb0) 0)) () 7
            0).out.internal_attribute = some after
      ∧ released_through_deleter sample_collaborators_keeping_values
          (sample_attribute (sample_compressed_mft_attribute 0xb0) 0) after
      ∧ after = ⟨some (sample_compressed_mft_attribute 0xb0), none, 0,
          (sample_collaborators_keeping_values.values_free .bitmap_values
            ⟨.bitmap_values, []⟩).1, some .bitmap_values⟩ :=
  ⟨(read_value_failure_releases sample_collaborators_keeping_values
      (sample_attribute (sample_compressed_mft_attribute 0xb0) 0) () 7 0 rfl
      (by decide)).1,
    (read_value_failure_releases sample_collaborators_keeping_values
      (sample_attribute (sample_compressed_mft_attribute 0xb0) 0) () 7 0 rfl
      (by decide)).2.imp fun _ h => ⟨h.1, h.2.2.1, Option.some.inj (h.1.symm.trans rfl)⟩⟩

/-- C16: for every facade bound to an attribute-list entry (no MFT attribute
bound), whatever the list entry, the file reference and the cached value are,
libfsntfs_attribute_get_data_flags, libfsntfs_attribute_get_data_size and
libfsntfs_attribute_get_valid_data_size return 1 without an error and write 0,
and libfsntfs_attribute_get_data_vcn_range returns 0, neither 1 nor -1, without
an error and writes nothing. -/
theorem list_entry_binding_reads_zero {V W H S C K : Type} (E : collaborators V W H S C K)
    (attribute_list_entry : libfsntfs_attribute_list_entry) (file_reference : Nat)
    (value : Option (attribute_value V)) (free_value : Option value_kind) :
    libfsntfs_attribute_get_data_flags E
        (some ⟨none, some attribute_list_entry, file_reference, value, free_value⟩) true
      = ⟨1, none, some 0⟩
    ∧ libfsntfs_attribute_get_data_size E
        (some ⟨none, some attribute_list_entry, file_reference, value, free_value⟩) true
      = ⟨1, none, some 0⟩
    ∧ libfsntfs_attribute_get_valid_data_size E
        (some ⟨none, some attribute_list_entry, file_reference, value, free_value⟩) true
      = ⟨1, none, some 0⟩
    ∧ libfsntfs_attribute_get_data_vcn_range E
        (some ⟨none, some attribute_list_entry, file_reference, value, free_value⟩) true true
      = ⟨0, none, none⟩ := by
  refine ⟨?_, ?_, ?_, ?_⟩
  · simp [libfsntfs_attribute_get_data_flags, libfsntfs_internal_attribute_get_data_flags]
  · simp [libfsntfs_attribute_get_data_size, libfsntfs_internal_attribute_get_data_size]
  · simp [libfsntfs_attribute_get_valid_data_size]
  · simp [libfsntfs_attribute_get_data_vcn_range]

/-- C16 on the list entry named "$SDS": the data flags read 0 and the VCN
range is not available. -/
theorem list_entry_binding_reads_zero_witness :
    (libfsntfs_attribute_get_data_flags sample_collaborators
        (some (sample_list_entry_attribute sample_attribute_list_entry)) true).out = some 0
    ∧ (libfsntfs_attribute_get_data_vcn_range sample_collaborators
        (some (sample_list_entry_attribute sample_attribute_list_entry)) true true).result = 0 :=
  ⟨by rw [sample_list_entry_attribute,
      (list_entry_binding_reads_zero sample_collaborators sample_attribute_list_entry 0 none
        none).1],
    by rw [sample_list_entry_attribute,
      (list_entry_binding_reads_zero sample_collaborators sample_attribute_list_entry 0 none
        none).2.2.2]⟩

/-- C17, counterexample: with collaborators in which every accessor of the
attribute-list entry fails (the type accessor of the facade fails accordingly),
the accessors data_flags, data_size, valid_data_size and data_run_count of a
facade bound to a list entry still succeed, and data_vcn_range returns 0: they
do not route to an accessor of the list entry. -/
theorem list_entry_accessors_not_routed_counterexample :
    (libfsntfs_attribute_get_type sample_collaborators_failing_list_entry
        (some (sample_list_entry_attribute sample_attribute_list_entry)) true).result = -1
    ∧ (libfsntfs_attribute_get_data_flags sample_collaborators_failing_list_entry
        (some (sample_list_entry_attribute sample_attribute_list_entry)) true).result = 1
    ∧ (libfsntfs_attribute_get_data_size sample_collaborators_failing_list_entry
        (some (sample_list_entry_attribute sample_attribute_list_entry)) true).result = 1
    ∧ (libfsntfs_attribute_get_valid_data_size sample_collaborators_failing_list_entry
        (some (sample_list_entry_attribute sample_attribute_list_entry)) true).result = 1
    ∧ (libfsntfs_attribute_get_number_of_data_runs sample_collaborators_failing_list_entry
        (some (sample_list_entry_attribute sample_attribute_list_entry)) true).result = 1
    ∧ (libfsntfs_attribute_get_data_vcn_range sample_collaborators_failing_list_entry
        (some (sample_list_entry_attribute sample_attribute_list_entry)) true true).result = 0 :=
  ⟨rfl, rfl, rfl, rfl, rfl, rfl⟩

/-- C17, amended: on a facade with an MFT attribute bound, the accessors type,
data_flags, utf8_name_size, utf8_name, utf16_name_size, utf16_name, data_size,
valid_data_size, data_run_count and data_run_at write what the corresponding
accessor of the MFT attribute writes, return 1 exactly when it succeeds and -1
exactly when it fails, and data_vcn_range returns the value and the range of
the MFT attribute's accessor (1, 0 or -1). On a facade with no MFT attribute
bound, type and the four name accessors do the same with the accessors of the
attribute-list entry; data_flags, data_size, valid_data_size and data_run_count
succeed with 0 and data_vcn_range returns 0 without consulting a collaborator,
and data_run_at hands the absent MFT attribute to the MFT attribute's
accessor. -/
theorem accessors_route_to_binding {V W H S C K : Type} (E : collaborators V W H S C K)
    (mft_attribute : libfsntfs_mft_attribute)
    (attribute_list_entry : Option libfsntfs_attribute_list_entry) (file_reference : Nat)
    (value : Option (attribute_value V)) (free_value : Option value_kind)
    (output : Bool) (size : Nat) (data_run_index : Int) :
    (routes_to
        (libfsntfs_attribute_get_type E
          (some ⟨some mft_attribute, attribute_list_entry, file_reference, value, free_value⟩)
          output)
        (E.libfsntfs_mft_attribute_get_type mft_attribute output)
      ∧ routes_to
        (libfsntfs_attribute_get_data_flags E
          (some ⟨some mft_attribute, attribute_list_entry, file_reference, value, free_value⟩)
          output)
        (E.libfsntfs_mft_attribute_get_data_flags mft_attribute output)
      ∧ routes_to
        (libfsntfs_attribute_get_utf8_name_size E
          (some ⟨some mft_attribute, attribute_list_entry, file_reference, value, free_value⟩)
          output)
        (E.libfsntfs_mft_attribute_get_utf8_name_size mft_attribute output)
      ∧ routes_to
        (libfsntfs_attribute_get_utf8_name E
          (some ⟨some mft_attribute, attribute_list_entry, file_reference, value, free_value⟩)
          output size)
        (E.libfsntfs_mft_attribute_get_utf8_name mft_attribute output size)
      ∧ routes_to
        (libfsntfs_attribute_get_utf16_name_size E
          (some ⟨some mft_attribute, attribute_list_entry, file_reference, value, free_value⟩)
          output)
        (E.libfsntfs_mft_attribute_get_utf16_name_size mft_attribute output)
      ∧ routes_to
        (libfsntfs_attribute_get_utf16_name E
          (some ⟨some mft_attribute, attribute_list_entry, file_reference, value, free_value⟩)
          output size)
        (E.libfsntfs_mft_attribute_get_utf16_name mft_attribute output size)
      ∧ routes_to
        (libfsntfs_attribute_get_data_size E
          (some ⟨some mft_attribute, attribute_list_entry, file_reference, value, free_value⟩)
          output)
        (E.libfsntfs_mft_attribute_get_data_size mft_attribute output)
      ∧ routes_to
        (libfsntfs_attribute_get_valid_data_size E
          (some ⟨some mft_attribute, attribute_list_entry, file_reference, value, free_value⟩)
          output)
        (E.libfsntfs_mft_attribute_get_valid_data_size mft_attribute output)
      ∧ routes_to
        (libfsntfs_attribute_get_number_of_data_runs E
          (some ⟨some mft_attribute, attribute_list_entry, file_reference, value, free_value⟩)
          output)
        (E.libfsntfs_mft_attribute_get_number_of_data_runs mft_attribute output)
      ∧ routes_to
        (libfsntfs_attribute_get_data_run_by_index E
          (some ⟨some mft_attribute, attribute_list_entry, file_reference, value, free_value⟩)
          data_run_index output)
        (E.libfsntfs_mft_attribute_get_data_run_by_index (some mft_attribute) data_run_index
          output)
      ∧ (libfsntfs_attribute_get_data_vcn_range E
          (some ⟨some mft_attribute, attribute_list_entry, file_reference, value, free_value⟩)
          true true).result
        = (E.libfsntfs_mft_attribute_get_data_vcn_range mft_attribute).1
      ∧ (libfsntfs_attribute_get_data_vcn_range E
          (some ⟨some mft_attribute, attribute_list_entry, file_reference, value, free_value⟩)
          true true).out
        = (E.libfsntfs_mft_attribute_get_data_vcn_range mft_attribute).2)
    ∧ (routes_to
        (libfsntfs_attribute_get_type E
          (some ⟨none, attribute_list_entry, file_reference, value, free_value⟩) output)
        (E.libfsntfs_attribute_list_entry_get_type attribute_list_entry output)
      ∧ routes_to
        (libfsntfs_attribute_get_utf8_name_size E
          (some ⟨none, attribute_list_entry, file_reference, value, free_value⟩) output)
        (E.libfsntfs_attribute_list_entry_get_utf8_name_size attribute_list_entry output)
      ∧ routes_to
        (libfsntfs_attribute_get_utf8_name E
          (some ⟨none, attribute_list_entry, file_reference, value, free_value⟩) output size)
        (E.libfsntfs_attribute_list_entry_get_utf8_name attribute_list_entry output size)
      ∧ routes_to
        (libfsntfs_attribute_get_utf16_name_size E
          (some ⟨none, attribute_list_entry, file_reference, value, free_value⟩) output)
        (E.libfsntfs_attribute_list_entry_get_utf16_name_size attribute_list_entry output)
      ∧ routes_to
        (libfsntfs_attribute_get_utf16_name E
          (some ⟨none, attribute_list_entry, file_reference, value, free_value⟩) output size)
        (E.libfsntfs_attribute_list_entry_get_utf16_name attribute_list_entry output size)
      ∧ libfsntfs_attribute_get_data_flags E
          (some ⟨none, attribute_list_entry, file_reference, value, free_value⟩) true
        = ⟨1, none, some 0⟩
      ∧ libfsntfs_attribute_get_data_size E
          (some ⟨none, attribute_list_entry, file_reference, value, free_value⟩) true
        = ⟨1, none, some 0⟩
      ∧ libfsntfs_attribute_get_valid_data_size E
          (some ⟨none, attribute_list_entry, file_reference, value, free_value⟩) true
        = ⟨1, none, some 0⟩
      ∧ libfsntfs_attribute_get_number_of_data_runs E
          (some ⟨none, attribute_list_entry, file_reference, value, free_value⟩) true
        = ⟨1, none, some 0⟩
      ∧ libfsntfs_attribute_get_data_vcn_range E
          (some ⟨none, attribute_list_entry, file_reference, value, free_value⟩) true true
        = ⟨0, none, none⟩
      ∧ routes_to
        (libfsntfs_attribute_get_data_run_by_index E
          (some ⟨none, attribute_list_entry, file_reference, value, free_value⟩)
          data_run_index output)
        (E.libfsntfs_mft_attribute_get_data_run_by_index none data_run_index output)) := by
  refine ⟨⟨?_, ?_, ?_, ?_, ?_, ?_, ?_, ?_, ?_, ?_, ?_, ?_⟩,
    ⟨?_, ?_, ?_, ?_, ?_, ?_, ?_, ?_, ?_, ?_, ?_⟩⟩
  · cases h : E.libfsntfs_mft_attribute_get_type mft_attribute output <;>
      simp [routes_to, libfsntfs_attribute_get_type, libfsntfs_internal_attribute_get_type, h]
  · cases h : E.libfsntfs_mft_attribute_get_data_flags mft_attribute output <;>
      simp [routes_to, libfsntfs_attribute_get_data_flags, libfsntfs_internal_attribute_get_data_flags, h]
  · cases h : E.libfsntfs_mft_attribute_get_utf8_name_size mft_attribute output <;>
      simp [routes_to, libfsntfs_attribute_get_utf8_name_size, h]
  · cases h : E.libfsntfs_mft_attribute_get_utf8_name mft_attribute output size <;>
      simp [routes_to, libfsntfs_attribute_get_utf8_name, h]
  · cases h : E.libfsntfs_mft_attribute_get_utf16_name_size mft_attribute output <;>
      simp [routes_to, libfsntfs_attribute_get_utf16_name_size, h]
  · cases h : E.libfsntfs_mft_attribute_get_utf16_name mft_attribute output size <;>
      simp [routes_to, libfsntfs_attribute_get_utf16_name, h]
  · cases h : E.libfsntfs_mft_attribute_get_data_size mft_attribute output <;>
      simp [routes_to, libfsntfs_attribute_get_data_size, libfsntfs_internal_attribute_get_data_size, h]
  · cases h : E.libfsntfs_mft_attribute_get_valid_data_size mft_attribute output <;>
      simp [routes_to, libfsntfs_attribute_get_valid_data_size, h]
  · cases h : E.libfsntfs_mft_attribute_get_number_of_data_runs mft_attribute output <;>
      simp [routes_to, libfsntfs_attribute_get_number_of_data_runs, h]
  · cases h : E.libfsntfs_mft_attribute_get_data_run_by_index (some mft_attribute) data_run_index output <;>
      simp [routes_to, libfsntfs_attribute_get_data_run_by_index, h]
  · simp only [libfsntfs_attribute_get_data_vcn_range]
    by_cases h : (E.libfsntfs_mft_attribute_get_data_vcn_range mft_attribute).1 = -1
    · simp [h]
    · simp [h]
  · simp only [libfsntfs_attribute_get_data_vcn_range]
    by_cases h : (E.libfsntfs_mft_attribute_get_data_vcn_range mft_attribute).1 = -1
    · simp [h]
    · simp [h]
  · cases h : E.libfsntfs_attribute_list_entry_get_type attribute_list_entry output <;>
      simp [routes_to, libfsntfs_attribute_get_type, libfsntfs_internal_attribute_get_type, h]
  · cases h : E.libfsntfs_attribute_list_entry_get_utf8_name_size attribute_list_entry output <;>
      simp [routes_to, libfsntfs_attribute_get_utf8_name_size, h]
  · cases h : E.libfsntfs_attribute_list_entry_get_utf8_name attribute_list_entry output size <;>
      simp [routes_to, libfsntfs_attribute_get_utf8_name, h]
  · cases h : E.libfsntfs_attribute_list_entry_get_utf16_name_size attribute_list_entry output <;>
      simp [routes_to, libfsntfs_attribute_get_utf16_name_size, h]
  · cases h : E.libfsntfs_attribute_list_entry_get_utf16_name attribute_list_entry output size <;>
      simp [routes_to, libfsntfs_attribute_get_utf16_name, h]
  · simp [libfsntfs_attribute_get_data_flags, libfsntfs_internal_attribute_get_data_flags]
  · simp [libfsntfs_attribute_get_data_size, libfsntfs_internal_attribute_get_data_size]
  · simp [libfsntfs_attribute_get_valid_data_size]
  · simp [libfsntfs_attribute_get_number_of_data_runs]
  · simp [libfsntfs_attribute_get_data_vcn_range]
  · cases h : E.libfsntfs_mft_attribute_get_data_run_by_index none data_run_index output <;>
      simp [routes_to, libfsntfs_attribute_get_data_run_by_index, h]

/-- C17, amended, on the sample collaborators: the type of a facade bound to
the list entry named "$SDS" is the type 0x80 read by the accessor of the list
entry, and the data run accessor fails because that of the MFT attribute
does. -/
theorem accessors_route_to_binding_witness :
    routes_to
        (libfsntfs_attribute_get_type sample_collaborators
          (some ⟨none, some sample_attribute_list_entry, 0, none, none⟩) true)
        (some 0x80)
    ∧ routes_to
        (libfsntfs_attribute_get_data_run_by_index sample_collaborators
          (some ⟨none, some sample_attribute_list_entry, 0, none, none⟩) 0 true)
        none :=
  ⟨(accessors_route_to_binding sample_collaborators (sample_mft_attribute 0x80 none)
      (some sample_attribute_list_entry) 0 none none true 0 0).2.1,
    (accessors_route_to_binding sample_collaborators (sample_mft_attribute 0x80 none)
      (some sample_attribute_list_entry) 0 none none true 0 0).2.2.2.2.2.2.2.2.2.2.2⟩

/-- C18: libfsntfs_attribute_list_entry_read_data on a blank entry and bytes
that hold the fixed part (26 bytes), with a declared size of at least 0x19 and
at most the bytes available and a name within the declared size, succeeds with
the type read as a little-endian u32 at offset 0, the size as a u16 at 4, the
name length as a u8 at 6, the start VCN as a u64 at 8, the file reference as a
u64 at 16, the identifier as a u16 at 24, and the name the 2·name_length bytes
(name_length UTF-16LE code units) at the name offset, a u8 at 7; a name
length of 0 gives no name. On the 40 bytes of the test it succeeds with type
0x80, size 40, name length 4, name offset 0x1A, start VCN 0, file reference
0x00010000000008C8 (MFT index 0x8C8, sequence 1), identifier 0 and the name
"$SDS". -/
theorem read_data_reads_fixed_layout (data : List Nat)
    (hheader : 26 ≤ data.length)
    (hsize : 0x19 ≤ little_endian_field data 4 2)
    (havailable : little_endian_field data 4 2 ≤ data.length)
    (hname : attribute_list_entry_name_offset data + 2 * little_endian_field data 6 1
      ≤ little_endian_field data 4 2) :
    (libfsntfs_attribute_list_entry_read_data (some blank_attribute_list_entry) (some data)
        = .ok ⟨little_endian_field data 0 4, little_endian_field data 4 2,
            little_endian_field data 6 1, little_endian_field data 8 8,
            little_endian_field data 16 8, little_endian_field data 24 2,
            if little_endian_field data 6 1 = 0 then none
            else some ((data.drop (little_endian_field data 7 1)).take
              (2 * little_endian_field data 6 1))⟩
      ∧ ((data.drop (little_endian_field data 7 1)).take
          (2 * little_endian_field data 6 1)).length = 2 * little_endian_field data 6 1)
    ∧ (libfsntfs_attribute_list_entry_read_data (some blank_attribute_list_entry)
          (some fsntfs_test_attribute_list_entry_data1)
        = .ok ⟨0x80, 40, 4, 0, 0x00010000000008C8, 0,
            some (utf16_stream_of_string [0x24, 0x53, 0x44, 0x53])⟩
      ∧ attribute_list_entry_name_offset fsntfs_test_attribute_list_entry_data1 = 0x1A
      ∧ 0x00010000000008C8 % 2 ^ 48 = 0x8C8 ∧ 0x00010000000008C8 / 2 ^ 48 = 1) := by
  refine ⟨⟨?_, ?_⟩, ?_, ?_, ?_, ?_⟩
  · unfold libfsntfs_attribute_list_entry_read_data
    have h1 : ¬ data.length < 26 := by omega
    have h2 : ¬ (little_endian_field data 4 2 < 0x19
        ∨ data.length < little_endian_field data 4 2) := by omega
    have h3 : ¬ little_endian_field data 4 2
        < attribute_list_entry_name_offset data + 2 * little_endian_field data 6 1 := by omega
    simp only [ne_eq, not_true_eq_false, if_false, h1, h2, h3]
    rfl
  · rw [List.length_take, List.length_drop]
    unfold attribute_list_entry_name_offset at hname
    omega
  · rfl
  · rfl
  · norm_num
  · norm_num

/-- C18 on the 40 bytes of the test: the call succeeds and the entry it
returns is the one of the spec's scenario. -/
theorem read_data_reads_fixed_layout_witness :
    libfsntfs_attribute_list_entry_read_data (some blank_attribute_list_entry)
        (some fsntfs_test_attribute_list_entry_data1)
      = .ok sample_attribute_list_entry :=
  (read_data_reads_fixed_layout fsntfs_test_attribute_list_entry_data1 (by decide) (by decide)
    (by decide) (by decide)).1.1

/-- C19: libfsntfs_attribute_list_entry_read_data fails, whatever the entry it
is called on, when the input is empty, when the declared size is below 0x19 or
exceeds the bytes available, and when name_offset + 2·name_length exceeds the
declared size; and it fails on every input when called on an entry that an
earlier successful libfsntfs_attribute_list_entry_read_data has populated. The
test's three inputs (size set to 0xffff, name offset set to 0xff, name length
set to 0xff on the 40 bytes) are rejected on a blank entry. -/
theorem read_data_rejects_out_of_bounds
    (attribute_list_entry : Option libfsntfs_attribute_list_entry) (data : List Nat)
    (earlier_data : List Nat) (populated : libfsntfs_attribute_list_entry)
    (later_data : Option (List Nat)) :
    (data = [] ∨ little_endian_field data 4 2 < 0x19
        ∨ data.length < little_endian_field data 4 2
        ∨ little_endian_field data 4 2
          < attribute_list_entry_name_offset data + 2 * little_endian_field data 6 1 →
      failed ( libfsntfs_attribute_list_entry_read_data attribute_list_entry (some data)) = true)
    ∧ (libfsntfs_attribute_list_entry_read_data (some blank_attribute_list_entry)
          (some earlier_data) = .ok populated →
      failed ( libfsntfs_attribute_list_entry_read_data (some populated) later_data) = true)
    ∧ failed ( libfsntfs_attribute_list_entry_read_data (some blank_attribute_list_entry)
        (some fsntfs_test_attribute_list_entry_data1_size_0xffff)) = true
    ∧ failed ( libfsntfs_attribute_list_entry_read_data (some blank_attribute_list_entry)
        (some fsntfs_test_attribute_list_entry_data1_name_offset_0xff)) = true
    ∧ failed ( libfsntfs_attribute_list_entry_read_data (some blank_attribute_list_entry)
        (some fsntfs_test_attribute_list_entry_data1_name_length_0xff)) = true := by
  refine ⟨?_, ?_, by decide, by decide, by decide⟩
  · intro hbounds
    unfold libfsntfs_attribute_list_entry_read_data
    cases attribute_list_entry with
    | none => rfl
    | some entry =>
      simp only []
      by_cases hblank : entry = blank_attribute_list_entry
      · rw [if_neg (by simpa using hblank)]
        by_cases hheader : data.length < 26
        · rw [if_pos hheader]; rfl
        · rw [if_neg hheader]
          by_cases hsize : little_endian_field data 4 2 < 0x19
              ∨ data.length < little_endian_field data 4 2
          · rw [if_pos hsize]; rfl
          · rw [if_neg hsize]
            have hname : little_endian_field data 4 2
                < attribute_list_entry_name_offset data + 2 * little_endian_field data 6 1 := by
              rcases hbounds with h | h | h | h
              · subst h; simp at hheader
              · exact absurd (Or.inl h) hsize
              · exact absurd (Or.inr h) hsize
              · exact h
            rw [if_pos hname]; rfl
      · rw [if_pos hblank]; rfl
  · intro hearlier
    have hpopulated : populated ≠ blank_attribute_list_entry := by
      intro hblank
      subst hblank
      unfold libfsntfs_attribute_list_entry_read_data at hearlier
      simp only [ne_eq, not_true_eq_false, if_false] at hearlier
      split_ifs at hearlier with h1 h2 h3 h4
      all_goals
        have hsize := congrArg libfsntfs_attribute_list_entry.size (Except.ok.inj hearlier)
        simp only [blank_attribute_list_entry] at hsize
        omega
    unfold libfsntfs_attribute_list_entry_read_data
    simp only []
    rw [if_pos hpopulated]
    rfl

/-- C19 on the test's bytes with the size set to 0xffff, which exceeds the 40
bytes available, and on the entry that the first read of the test
populates. -/
theorem read_data_rejects_out_of_bounds_witness :
    failed ( libfsntfs_attribute_list_entry_read_data (some blank_attribute_list_entry)
        (some fsntfs_test_attribute_list_entry_data1_size_0xffff)) = true
    ∧ failed ( libfsntfs_attribute_list_entry_read_data (some sample_attribute_list_entry)
        (some fsntfs_test_attribute_list_entry_data1)) = true :=
  ⟨(read_data_rejects_out_of_bounds (some blank_attribute_list_entry)
      fsntfs_test_attribute_list_entry_data1_size_0xffff
      fsntfs_test_attribute_list_entry_data1 sample_attribute_list_entry
      (some fsntfs_test_attribute_list_entry_data1)).1 (Or.inr (Or.inr (Or.inl (by decide)))),
    (read_data_rejects_out_of_bounds (some blank_attribute_list_entry)
      fsntfs_test_attribute_list_entry_data1_size_0xffff
      fsntfs_test_attribute_list_entry_data1 sample_attribute_list_entry
      (some fsntfs_test_attribute_list_entry_data1)).2.1 rfl⟩

section names

/-- A name of 2·n bytes has n UTF-16 code units. -/
theorem code_units_length (name_length : Nat) :
    ∀ name : List Nat, name.length = 2 * name_length →
      (code_units_of_utf16_stream name).length = name_length := by
  induction name_length with
  | zero =>
    intro name hlength
    have hnil : name = [] := List.length_eq_zero.mp (by omega)
    subst hnil
    rfl
  | succ n ih =>
    intro name hlength
    match name, hlength with
    | low :: high :: rest, hlength =>
      simp only [code_units_of_utf16_stream, List.length_cons]
      rw [ih rest (by simp only [List.length_cons] at hlength; omega)]

/-- The code units of a name of bytes re-encode to the name. -/
theorem code_units_reencode (name_length : Nat) :
    ∀ name : List Nat, name.length = 2 * name_length → (∀ byte ∈ name, byte < 256) →
      utf16_stream_of_code_units (code_units_of_utf16_stream name) = name := by
  induction name_length with
  | zero =>
    intro name hlength _
    have hnil : name = [] := List.length_eq_zero.mp (by omega)
    subst hnil
    rfl
  | succ n ih =>
    intro name hlength hbytes
    match name, hlength, hbytes with
    | low :: high :: rest, hlength, hbytes =>
      have hlow : low < 256 := hbytes low (by simp)
      have hhigh : high < 256 := hbytes high (by simp)
      simp only [code_units_of_utf16_stream, utf16_stream_of_code_units]
      rw [ih rest (by simp only [List.length_cons] at hlength; omega)
        (fun byte hbyte => hbytes byte (by simp [hbyte]))]
      have h1 : (low + 256 * high) % 256 = low := by omega
      have h2 : (low + 256 * high) / 256 = high := by omega
      rw [h1, h2]

/-- A string of 7-bit code units has as many UTF-8 bytes as code units. -/
theorem utf8_of_code_units_length :
    ∀ code_units : List Nat, (∀ code_unit ∈ code_units, code_unit < 0x80) →
      (utf8_of_code_units code_units).length = code_units.length := by
  intro code_units
  induction code_units with
  | nil => intro _; rfl
  | cons code_unit rest ih =>
    intro hsmall
    have hunit : code_unit < 0x80 := hsmall code_unit (by simp)
    have hrest := ih (fun u hu => hsmall u (by simp [hu]))
    cases rest with
    | nil => simp [utf8_of_code_units, utf8_of_character, hunit]
    | cons next rest =>
      have hnot : ¬ (0xd800 ≤ code_unit ∧ code_unit < 0xdc00 ∧ 0xdc00 ≤ next
          ∧ next < 0xe000) := by omega
      rw [utf8_of_code_units, if_neg hnot, List.length_append, hrest]
      simp [utf8_of_character, hunit]
      omega

/-- The name invariance of a name as the accessors modelled from the spec read
it. -/
theorem name_get_reads_back (name : List Nat) (name_length : Nat)
    (hlength : name.length = 2 * name_length) :
    name_get_utf16_string_size (some name) true = some (name_length + 1)
    ∧ name_get_utf16_string (some name) true (name_length + 1)
      = some (code_units_of_utf16_stream name ++ [0])
    ∧ ((∀ code_unit ∈ code_units_of_utf16_stream name, code_unit < 0x80) →
        name_get_utf8_string_size (some name) true = some (name_length + 1)) := by
  have hunits := code_units_length name_length name hlength
  refine ⟨?_, ?_, ?_⟩
  · simp [name_get_utf16_string_size, hunits]
  · simp [name_get_utf16_string, hunits]
  · intro hsmall
    simp [name_get_utf8_string_size, utf8_of_code_units_length _ hsmall, hunits]

end names

/-- C20: with the name accessors of the collaborators as the spec describes
them, for a facade whose bound collaborator (the MFT attribute, or with no MFT
attribute bound the attribute-list entry) has a name of name_length UTF-16
code units, libfsntfs_attribute_get_utf16_name_size succeeds with
name_length + 1, libfsntfs_attribute_get_utf16_name with a buffer of that size
succeeds with name_length code units followed by the end-of-string character,
and these code units re-encode to the bytes of the name; a name of 7-bit
characters has the UTF-8 name size name_length + 1 as well. For a facade bound
to an attribute-list entry with no name both sizes are 0. -/
theorem name_size_counts_end_of_string {V W H S C K : Type} (E : collaborators V W H S C K)
    (hE : name_accessors_as_specified E)
    (mft_attribute : libfsntfs_mft_attribute)
    (entry : libfsntfs_attribute_list_entry)
    (attribute_list_entry : Option libfsntfs_attribute_list_entry) (file_reference : Nat)
    (value : Option (attribute_value V)) (free_value : Option value_kind)
    (name : List Nat) (name_length : Nat)
    (hlength : name.length = 2 * name_length) (hbytes : ∀ byte ∈ name, byte < 256) :
    (mft_attribute.name = some name →
      name_reads_back E
        ⟨some mft_attribute, attribute_list_entry, file_reference, value, free_value⟩
        name name_length)
    ∧ (entry.name = some name →
      name_reads_back E ⟨none, some entry, file_reference, value, free_value⟩ name name_length)
    ∧ (entry.name = none →
      libfsntfs_attribute_get_utf16_name_size E
          (some ⟨none, some entry, file_reference, value, free_value⟩) true
        = ⟨1, none, some 0⟩
      ∧ libfsntfs_attribute_get_utf8_name_size E
          (some ⟨none, some entry, file_reference, value, free_value⟩) true
        = ⟨1, none, some 0⟩) := by
  obtain ⟨hm16size, hm16, hm8size, he16size, he16, he8size⟩ := hE
  obtain ⟨hsize, hstring, hutf8⟩ := name_get_reads_back name name_length hlength
  refine ⟨?_, ?_, ?_⟩
  · intro hname
    refine ⟨?_, ⟨code_units_of_utf16_stream name, ?_, code_units_length _ _ hlength,
      code_units_reencode _ _ hlength hbytes⟩, ?_⟩
    · simp [libfsntfs_attribute_get_utf16_name_size, hm16size, hname, hsize]
    · simp [libfsntfs_attribute_get_utf16_name, hm16, hname, hstring]
    · intro hsmall
      simp [libfsntfs_attribute_get_utf8_name_size, hm8size, hname, hutf8 hsmall]
  · intro hname
    refine ⟨?_, ⟨code_units_of_utf16_stream name, ?_, code_units_length _ _ hlength,
      code_units_reencode _ _ hlength hbytes⟩, ?_⟩
    · simp [libfsntfs_attribute_get_utf16_name_size, he16size, hname, hsize]
    · simp [libfsntfs_attribute_get_utf16_name, he16, hname, hstring]
    · intro hsmall
      simp [libfsntfs_attribute_get_utf8_name_size, he8size, hname, hutf8 hsmall]
  · intro hname
    constructor
    · simp [libfsntfs_attribute_get_utf16_name_size, he16size, hname,
        name_get_utf16_string_size]
    · simp [libfsntfs_attribute_get_utf8_name_size, he8size, hname,
        name_get_utf8_string_size]

/-- The sample collaborators have the name accessors of the spec. -/
theorem sample_name_accessors_as_specified : name_accessors_as_specified sample_collaborators :=
  ⟨fun _ _ => rfl, fun _ _ _ => rfl, fun _ _ => rfl, fun _ _ => rfl, fun _ _ _ => rfl,
    fun _ _ => rfl⟩

/-- C20 on the list entry named "$SDS" of four code units: the UTF-16 name size
is 5 and, the name being of 7-bit characters, the UTF-8 name size is 5 as
well. -/
theorem name_size_counts_end_of_string_witness :
    libfsntfs_attribute_get_utf16_name_size sample_collaborators
        (some (sample_list_entry_attribute sample_attribute_list_entry)) true
      = ⟨1, none, some 5⟩
    ∧ libfsntfs_attribute_get_utf8_name_size sample_collaborators
        (some (sample_list_entry_attribute sample_attribute_list_entry)) true
      = ⟨1, none, some 5⟩ :=
  ⟨((name_size_counts_end_of_string sample_collaborators sample_name_accessors_as_specified
      (sample_mft_attribute 0x80 none) sample_attribute_list_entry none 0 none none
      [0x24, 0x00, 0x53, 0x00, 0x44, 0x00, 0x53, 0x00] 4 rfl (by decide)).2.1 rfl).1,
    ((name_size_counts_end_of_string sample_collaborators sample_name_accessors_as_specified
      (sample_mft_attribute 0x80 none) sample_attribute_list_entry none 0 none none
      [0x24, 0x00, 0x53, 0x00, 0x44, 0x00, 0x53, 0x00] 4 rfl (by decide)).2.1 rfl).2.2
      (by decide)⟩

/-- C21: whenever the caller's output slot already holds a facade,
libfsntfs_attribute_initialize returns -1 with the error "value already set"
and leaves the slot holding that facade, whatever the two bindings and the
outcome of the system services are: bindings that are both absent or both
present get this error and not the one of the check of the bindings. -/
theorem initialize_occupied_slot_value_already_set {V : Type} (sys : system_services)
    (occupant : libfsntfs_internal_attribute V)
    (mft_attribute : Option libfsntfs_mft_attribute)
    (attribute_list_entry : Option libfsntfs_attribute_list_entry) :
    ( libfsntfs_attribute_initialize sys (some (some occupant)) mft_attribute
        attribute_list_entry)
      = ⟨-1, some ⟨.LIBCERROR_RUNTIME_ERROR_VALUE_ALREADY_SET,
          "%s: invalid attribute value already set."⟩, some (some occupant)⟩ :=
  rfl

/-- C21 on an occupied slot with both bindings absent: the error is "value
already set" and the slot keeps its facade. -/
theorem initialize_occupied_slot_value_already_set_witness :
    (( libfsntfs_attribute_initialize ⟨true, true, true⟩ (some (some sample_cached_attribute))
        none none).error.map fun e => e.code)
      = some .LIBCERROR_RUNTIME_ERROR_VALUE_ALREADY_SET
    ∧ ( libfsntfs_attribute_initialize ⟨true, true, true⟩ (some (some sample_cached_attribute))
        none none).out = some (some sample_cached_attribute) :=
  ⟨congrArg (fun call => call.error.map fun e => e.code)
      (initialize_occupied_slot_value_already_set ⟨true, true, true⟩ sample_cached_attribute
        none none),
    congrArg (fun call => call.out)
      (initialize_occupied_slot_value_already_set ⟨true, true, true⟩ sample_cached_attribute
        none none)⟩

/-- C23: every public operation of the facade returns -1 with the error
"invalid value" of the argument domain when the facade handle (for
libfsntfs_attribute_initialize and libfsntfs_attribute_free the slot, for the
comparison either facade) is absent, and then writes no output and leaves the
slot, the device handle and the trace of calls as they were. On a facade with
no MFT attribute bound the getters the facade answers itself (data flags, data
size, valid data size, number of data runs) return -1 and write nothing when
their output address is absent, with the argument error set where the address
is tested; libfsntfs_attribute_get_value, libfsntfs_attribute_get_data_vcn_range
and libfsntfs_attribute_get_file_reference do so on every facade; and the type
and name getters do so whenever the accessor of the list entry they call
rejects the absent address. -/
theorem absent_argument_is_rejected {V W H S C K : Type} (E : collaborators V W H S C K)
    (sys : system_services) (mft_attribute : Option libfsntfs_mft_attribute)
    (attribute_list_entry : Option libfsntfs_attribute_list_entry) (file_reference : Nat)
    (value : Option (attribute_value V)) (free_value : Option value_kind)
    (other : Option (libfsntfs_internal_attribute V)) (present : libfsntfs_internal_attribute V)
    (io_handle : H) (file_io_handle : W) (flags : Nat) (output second_output : Bool)
    (size : Nat) (data_run_index : Int) :
    (( libfsntfs_attribute_initialize sys
          (none : Option (Option (libfsntfs_internal_attribute V))) mft_attribute
          attribute_list_entry)
        = ⟨-1, some ⟨.LIBCERROR_ARGUMENT_ERROR_INVALID_VALUE, "%s: invalid attribute."⟩, none⟩
      ∧ libfsntfs_attribute_free (none : Option (Option (libfsntfs_internal_attribute V)))
        = ⟨-1, some ⟨.LIBCERROR_ARGUMENT_ERROR_INVALID_VALUE, "%s: invalid attribute."⟩, none⟩
      ∧ libfsntfs_attribute_compare_by_file_reference none other
        = ⟨-1, some ⟨.LIBCERROR_ARGUMENT_ERROR_INVALID_VALUE, "%s: invalid first attribute."⟩,
            ()⟩
      ∧ libfsntfs_attribute_compare_by_file_reference (some present) none
        = ⟨-1, some ⟨.LIBCERROR_ARGUMENT_ERROR_INVALID_VALUE,
            "%s: invalid second attribute."⟩, ()⟩
      ∧ libfsntfs_attribute_read_value E none io_handle file_io_handle flags
        = ⟨-1, some ⟨.LIBCERROR_ARGUMENT_ERROR_INVALID_VALUE, "%s: invalid attribute."⟩,
            ⟨none, file_io_handle, []⟩⟩
      ∧ libfsntfs_attribute_get_type E none output
        = ⟨-1, some ⟨.LIBCERROR_ARGUMENT_ERROR_INVALID_VALUE, "%s: invalid attribute."⟩, none⟩
      ∧ libfsntfs_attribute_get_data_flags E none output
        = ⟨-1, some ⟨.LIBCERROR_ARGUMENT_ERROR_INVALID_VALUE, "%s: invalid attribute."⟩, none⟩
      ∧ libfsntfs_attribute_get_value
          (none : Option (libfsntfs_internal_attribute V)) output
        = ⟨-1, some ⟨.LIBCERROR_ARGUMENT_ERROR_INVALID_VALUE, "%s: invalid attribute."⟩, none⟩
      ∧ libfsntfs_attribute_get_utf8_name_size E none output
        = ⟨-1, some ⟨.LIBCERROR_ARGUMENT_ERROR_INVALID_VALUE, "%s: invalid attribute."⟩, none⟩
      ∧ libfsntfs_attribute_get_utf8_name E none output size
        = ⟨-1, some ⟨.LIBCERROR_ARGUMENT_ERROR_INVALID_VALUE, "%s: invalid attribute."⟩, none⟩
      ∧ libfsntfs_attribute_get_utf16_name_size E none output
        = ⟨-1, some ⟨.LIBCERROR_ARGUMENT_ERROR_INVALID_VALUE, "%s: invalid attribute."⟩, none⟩
      ∧ libfsntfs_attribute_get_utf16_name E none output size
        = ⟨-1, some ⟨.LIBCERROR_ARGUMENT_ERROR_INVALID_VALUE, "%s: invalid attribute."⟩, none⟩
      ∧ libfsntfs_attribute_get_data_vcn_range E none output second_output
        = ⟨-1, some ⟨.LIBCERROR_ARGUMENT_ERROR_INVALID_VALUE, "%s: invalid attribute."⟩, none⟩
      ∧ libfsntfs_attribute_get_file_reference
          (none : Option (libfsntfs_internal_attribute V)) output second_output
        = ⟨-1, some ⟨.LIBCERROR_ARGUMENT_ERROR_INVALID_VALUE, "%s: invalid attribute."⟩,
            (none, none)⟩
      ∧ libfsntfs_attribute_get_data_size E none output
        = ⟨-1, some ⟨.LIBCERROR_ARGUMENT_ERROR_INVALID_VALUE, "%s: invalid attribute."⟩, none⟩
      ∧ libfsntfs_attribute_get_valid_data_size E none output
        = ⟨-1, some ⟨.LIBCERROR_ARGUMENT_ERROR_INVALID_VALUE, "%s: invalid attribute."⟩, none⟩
      ∧ libfsntfs_attribute_get_number_of_data_runs E none output
        = ⟨-1, some ⟨.LIBCERROR_ARGUMENT_ERROR_INVALID_VALUE, "%s: invalid attribute."⟩, none⟩
      ∧ libfsntfs_attribute_get_data_run_by_index E none data_run_index output
        = ⟨-1, some ⟨.LIBCERROR_ARGUMENT_ERROR_INVALID_VALUE, "%s: invalid attribute."⟩,
            none⟩)
    ∧ (libfsntfs_internal_attribute_get_data_flags E (some ⟨none, attribute_list_entry, file_reference, value, free_value⟩) false
        = ⟨-1, some ⟨.LIBCERROR_ARGUMENT_ERROR_INVALID_VALUE, "%s: invalid data flags."⟩, none⟩
      ∧ (libfsntfs_attribute_get_data_flags E (some ⟨none, attribute_list_entry, file_reference, value, free_value⟩) false).result = -1
      ∧ (libfsntfs_attribute_get_data_flags E (some ⟨none, attribute_list_entry, file_reference, value, free_value⟩) false).out = none
      ∧ libfsntfs_internal_attribute_get_data_size E (some ⟨none, attribute_list_entry, file_reference, value, free_value⟩) false
        = ⟨-1, some ⟨.LIBCERROR_ARGUMENT_ERROR_INVALID_VALUE, "%s: invalid data size."⟩, none⟩
      ∧ (libfsntfs_attribute_get_data_size E (some ⟨none, attribute_list_entry, file_reference, value, free_value⟩) false).result = -1
      ∧ (libfsntfs_attribute_get_data_size E (some ⟨none, attribute_list_entry, file_reference, value, free_value⟩) false).out = none
      ∧ libfsntfs_attribute_get_valid_data_size E (some ⟨none, attribute_list_entry, file_reference, value, free_value⟩) false
        = ⟨-1, some ⟨.LIBCERROR_ARGUMENT_ERROR_INVALID_VALUE, "%s: invalid valid data size."⟩,
            none⟩
      ∧ libfsntfs_attribute_get_number_of_data_runs E (some ⟨none, attribute_list_entry, file_reference, value, free_value⟩) false
        = ⟨-1, some ⟨.LIBCERROR_ARGUMENT_ERROR_INVALID_VALUE,
            "%s: invalid number of data runs."⟩, none⟩)
    ∧ (libfsntfs_attribute_get_value (some present) false
        = ⟨-1, some ⟨.LIBCERROR_ARGUMENT_ERROR_INVALID_VALUE, "%s: invalid value."⟩, none⟩
      ∧ libfsntfs_attribute_get_data_vcn_range E (some present) false second_output
        = ⟨-1, some ⟨.LIBCERROR_ARGUMENT_ERROR_INVALID_VALUE, "%s: invalid data first VCN."⟩,
            none⟩
      ∧ libfsntfs_attribute_get_data_vcn_range E (some present) true false
        = ⟨-1, some ⟨.LIBCERROR_ARGUMENT_ERROR_INVALID_VALUE, "%s: invalid data last VCN."⟩,
            none⟩
      ∧ libfsntfs_attribute_get_file_reference (some present) false second_output
        = ⟨-1, some ⟨.LIBCERROR_ARGUMENT_ERROR_INVALID_VALUE, "%s: invalid MFT entry index."⟩,
            (none, none)⟩)
    ∧ (list_entry_accessors_require_output E →
        ((libfsntfs_attribute_get_type E (some ⟨none, attribute_list_entry, file_reference, value, free_value⟩) false).result = -1
          ∧ (libfsntfs_attribute_get_type E (some ⟨none, attribute_list_entry, file_reference, value, free_value⟩) false).out = none)
        ∧ libfsntfs_attribute_get_utf8_name_size E (some ⟨none, attribute_list_entry, file_reference, value, free_value⟩) false
          = ⟨-1, some ⟨.LIBCERROR_RUNTIME_ERROR_GET_FAILED,
              "%s: unable to retrieve UTF-8 name size from attribute list entry."⟩, none⟩
        ∧ libfsntfs_attribute_get_utf8_name E (some ⟨none, attribute_list_entry, file_reference, value, free_value⟩) false size
          = ⟨-1, some ⟨.LIBCERROR_RUNTIME_ERROR_GET_FAILED,
              "%s: unable to retrieve UTF-8 name from attribute list entry."⟩, none⟩
        ∧ libfsntfs_attribute_get_utf16_name_size E (some ⟨none, attribute_list_entry, file_reference, value, free_value⟩) false
          = ⟨-1, some ⟨.LIBCERROR_RUNTIME_ERROR_GET_FAILED,
              "%s: unable to retrieve UTF-16 name size from attribute list entry."⟩, none⟩
        ∧ libfsntfs_attribute_get_utf16_name E (some ⟨none, attribute_list_entry, file_reference, value, free_value⟩) false size
          = ⟨-1, some ⟨.LIBCERROR_RUNTIME_ERROR_GET_FAILED,
              "%s: unable to retrieve UTF-16 name from attribute list entry."⟩, none⟩) := by
  refine ⟨⟨rfl, rfl, rfl, rfl, rfl, rfl, rfl, rfl, rfl, rfl, rfl, rfl, rfl, rfl, rfl, rfl, rfl,
    rfl⟩, ⟨rfl, ?_, ?_, rfl, ?_, ?_, rfl, rfl⟩, ⟨rfl, rfl, rfl, rfl⟩, ?_⟩
  · simp [libfsntfs_attribute_get_data_flags, libfsntfs_internal_attribute_get_data_flags]
  · simp [libfsntfs_attribute_get_data_flags, libfsntfs_internal_attribute_get_data_flags]
  · simp [libfsntfs_attribute_get_data_size, libfsntfs_internal_attribute_get_data_size]
  · simp [libfsntfs_attribute_get_data_size, libfsntfs_internal_attribute_get_data_size]
  · intro hreject
    obtain ⟨htype, h8size, h8, h16size, h16⟩ := hreject attribute_list_entry size
    refine ⟨?_, ?_, ?_, ?_, ?_⟩
    · simp [libfsntfs_attribute_get_type, libfsntfs_internal_attribute_get_type, htype]
    · simp [libfsntfs_attribute_get_utf8_name_size, h8size]
    · simp [libfsntfs_attribute_get_utf8_name, h8]
    · simp [libfsntfs_attribute_get_utf16_name_size, h16size]
    · simp [libfsntfs_attribute_get_utf16_name, h16]

/-- The sample collaborators whose type accessor looks at its output address
reject an absent output address in every accessor of the list entry. -/
theorem sample_collaborators_require_output :
    list_entry_accessors_require_output sample_collaborators_checking_output := by
  intro attribute_list_entry size
  cases attribute_list_entry with
  | none => exact ⟨rfl, rfl, rfl, rfl, rfl⟩
  | some entry =>
    refine ⟨rfl, rfl, ?_, rfl, ?_⟩
    · show name_get_utf8_string entry.name false size = none
      unfold name_get_utf8_string
      cases entry.name <;> rfl
    · show name_get_utf16_string entry.name false size = none
      unfold name_get_utf16_string
      cases entry.name <;> rfl

/-- C23 on the facade bound to the list entry named "$SDS": without an output
address the type getter fails and writes nothing. -/
theorem absent_argument_is_rejected_witness :
    (libfsntfs_attribute_get_type sample_collaborators_checking_output
        (some (sample_list_entry_attribute sample_attribute_list_entry)) false).result = -1
    ∧ (libfsntfs_attribute_get_type sample_collaborators_checking_output
        (some (sample_list_entry_attribute sample_attribute_list_entry)) false).out = none :=
  ((absent_argument_is_rejected sample_collaborators_checking_output ⟨true, true, true⟩ none
    (some sample_attribute_list_entry) 0 none none none sample_cached_attribute () 0 0 true
    true 0 0).2.2.2 sample_collaborators_require_output).1

/-- C24: libfsntfs_attribute_free on a present slot returns 1 without an error
and leaves the slot empty, whether the slot held a facade or was empty, so
that a second call on the same slot does the same; what it does is the same
for every content of the slot (it is handed no deleter and no release function
and reads nothing of the facade); and it returns -1 exactly when the address
of the slot is absent, with the error "invalid value". -/
theorem attribute_free_empties_slot {V : Type}
    (content : Option (libfsntfs_internal_attribute V))
    (attribute_slot : Option (Option (libfsntfs_internal_attribute V))) :
    libfsntfs_attribute_free (some content) = ⟨1, none, some none⟩
    ∧ libfsntfs_attribute_free (libfsntfs_attribute_free (some content)).out
      = ⟨1, none, some none⟩
    ∧ libfsntfs_attribute_free (some content)
      = libfsntfs_attribute_free (some (none : Option (libfsntfs_internal_attribute V)))
    ∧ ((libfsntfs_attribute_free attribute_slot).result = -1 ↔ attribute_slot = none)
    ∧ ((libfsntfs_attribute_free attribute_slot).result = 1 ↔ attribute_slot ≠ none)
    ∧ libfsntfs_attribute_free (none : Option (Option (libfsntfs_internal_attribute V)))
      = ⟨-1, some ⟨.LIBCERROR_ARGUMENT_ERROR_INVALID_VALUE, "%s: invalid attribute."⟩,
          none⟩ := by
  refine ⟨rfl, rfl, rfl, ?_, ?_, rfl⟩
  · cases attribute_slot <;> simp [libfsntfs_attribute_free]
  · cases attribute_slot <;> simp [libfsntfs_attribute_free]

/-- C24 on a slot holding a facade with a cached value: the slot is emptied
and a second call returns 1 again. -/
theorem attribute_free_empties_slot_witness :
    libfsntfs_attribute_free (some (some sample_cached_attribute)) = ⟨1, none, some none⟩
    ∧ libfsntfs_attribute_free
        (libfsntfs_attribute_free (some (some sample_cached_attribute))).out
      = ⟨1, none, some none⟩ :=
  ⟨(attribute_free_empties_slot (some sample_cached_attribute) none).1,
    (attribute_free_empties_slot (some sample_cached_attribute) none).2.1⟩

/-- C28: for a facade with no MFT attribute bound (bound to an attribute-list
entry), libfsntfs_internal_attribute_get_data returns 1 with the data pointer
`NULL` (size 0), so that libfsntfs_attribute_read_value, on such a facade with
no cached value whose list entry has the type `attribute_type`, takes the
branch of the non-resident attributes: for FILE_NAME, STANDARD_INFORMATION,
OBJECT_IDENTIFIER, REPARSE_POINT, VOLUME_INFORMATION and VOLUME_NAME it
returns -1 with the error "unsupported non-resident attribute" for every flags
value, MFT_ONLY included, and leaves facade and device as they were; for
BITMAP and SECURITY_DESCRIPTOR with MFT_ONLY set it returns 1 and caches the
empty container of the matching kind (the container being created), without
any call on stream, vector, cache or device. -/
theorem read_value_list_entry_is_non_resident {V W H S C K : Type}
    (E : collaborators V W H S C K)
    (attribute_list_entry : Option libfsntfs_attribute_list_entry) (file_reference : Nat)
    (value : Option (attribute_value V)) (free_value : Option value_kind)
    (io_handle : H) (file_io_handle : W) (flags : Nat) (attribute_type : Nat)
    (htype : E.libfsntfs_attribute_list_entry_get_type attribute_list_entry true
      = some attribute_type) :
    libfsntfs_internal_attribute_get_data E
        (some ⟨none, attribute_list_entry, file_reference, value, free_value⟩) true true
      = ⟨1, none, some none⟩
    ∧ (attribute_type ∈ resident_only_types →
      libfsntfs_attribute_read_value E
          (some ⟨none, attribute_list_entry, file_reference, none, free_value⟩) io_handle
          file_io_handle flags
        = ⟨-1, some ⟨.LIBCERROR_RUNTIME_ERROR_UNSUPPORTED_VALUE,
            "%s: unsupported non-resident attribute."⟩,
            ⟨some ⟨none, attribute_list_entry, file_reference, none, free_value⟩,
              file_io_handle, []⟩⟩)
    ∧ (∀ (kind : value_kind) (values : V),
      (attribute_type, kind) ∈ non_resident_value_kinds →
      E.values_initialize kind = some values →
      flags &&& E.LIBFSNTFS_FILE_ENTRY_FLAGS_MFT_ONLY ≠ 0 →
      libfsntfs_attribute_read_value E
          (some ⟨none, attribute_list_entry, file_reference, none, free_value⟩) io_handle
          file_io_handle flags
        = ⟨1, none, ⟨some ⟨none, attribute_list_entry, file_reference, some ⟨kind, values⟩,
            some kind⟩, file_io_handle, []⟩⟩) := by
  have htype_call : ∀ cached : Option (attribute_value V),
      libfsntfs_internal_attribute_get_type E
          (some ⟨none, attribute_list_entry, file_reference, cached, free_value⟩) true
        = ⟨1, none, some attribute_type⟩ := by
    intro cached
    simp [libfsntfs_internal_attribute_get_type, htype]
  have hdata_call : ∀ cached : Option (attribute_value V),
      libfsntfs_internal_attribute_get_data E
          (some ⟨none, attribute_list_entry, file_reference, cached, free_value⟩) true true
        = ⟨1, none, some none⟩ := by
    intro cached
    simp [libfsntfs_internal_attribute_get_data]
  refine ⟨hdata_call value, ?_, ?_⟩
  · intro hresident
    exact read_value_unsupported_of_value_none E _ io_handle file_io_handle flags
      attribute_type rfl hresident (htype_call none) (hdata_call none)
  · intro kind values hkind hinit hflags
    rw [read_value_of_non_resident E _ io_handle file_io_handle flags attribute_type rfl
      (htype_call none) (hdata_call none)]
    exact read_value_non_resident_of_mft_only E _ io_handle file_io_handle flags
      attribute_type kind values hkind hinit hflags

/-- C28 on facades bound to a list entry of type FILE_NAME, read with MFT_ONLY
set, which fails as unsupported, and of type BITMAP, read with MFT_ONLY set,
which caches the empty bitmap container. -/
theorem read_value_list_entry_is_non_resident_witness :
    (libfsntfs_attribute_read_value sample_collaborators
        (some (sample_list_entry_attribute (sample_attribute_list_entry_of_type 0x30))) () 7
        1).result = -1
    ∧ libfsntfs_attribute_read_value sample_collaborators
        (some (sample_list_entry_attribute (sample_attribute_list_entry_of_type 0xb0))) () 7 1
      = ⟨1, none, ⟨some ⟨none, some (sample_attribute_list_entry_of_type 0xb0), 0,
          some ⟨.bitmap_values, []⟩, some .bitmap_values⟩, 7, []⟩⟩ :=
  ⟨congrArg (fun call => call.result)
      ((read_value_list_entry_is_non_resident sample_collaborators
        (some (sample_attribute_list_entry_of_type 0x30)) 0 none none () 7 1 0x30 rfl).2.1
        (by decide)),
    (read_value_list_entry_is_non_resident sample_collaborators
      (some (sample_attribute_list_entry_of_type 0xb0)) 0 none none () 7 1 0xb0 rfl).2.2
      .bitmap_values [] (by decide) rfl (by decide)⟩

/-- C29: for every facade with no MFT attribute bound (bound to an
attribute-list entry), libfsntfs_attribute_get_number_of_data_runs returns 1
and writes 0; libfsntfs_attribute_get_data_run_by_index hands the absent MFT
attribute to the accessor of the MFT attribute and, that accessor rejecting an
absent MFT attribute, returns -1 for every index and writes no data run; and
libfsntfs_attribute_get_data_vcn_range returns 0 without an error and writes
neither the first nor the last VCN. -/
theorem list_entry_run_accessors_agree {V W H S C K : Type} (E : collaborators V W H S C K)
    (hreject : mft_attribute_accessors_reject_absent E)
    (attribute_list_entry : Option libfsntfs_attribute_list_entry) (file_reference : Nat)
    (value : Option (attribute_value V)) (free_value : Option value_kind)
    (data_run_index : Int) (data_run : Bool) :
    libfsntfs_attribute_get_number_of_data_runs E
        (some ⟨none, attribute_list_entry, file_reference, value, free_value⟩) true
      = ⟨1, none, some 0⟩
    ∧ libfsntfs_attribute_get_data_run_by_index E
        (some ⟨none, attribute_list_entry, file_reference, value, free_value⟩) data_run_index
        data_run
      = ⟨-1, some ⟨.LIBCERROR_RUNTIME_ERROR_GET_FAILED, "%s: unable to retrieve data run: %d."⟩,
          none⟩
    ∧ libfsntfs_attribute_get_data_vcn_range E
        (some ⟨none, attribute_list_entry, file_reference, value, free_value⟩) true true
      = ⟨0, none, none⟩ := by
  refine ⟨?_, ?_, ?_⟩
  · simp [libfsntfs_attribute_get_number_of_data_runs]
  · simp [libfsntfs_attribute_get_data_run_by_index, hreject data_run_index data_run]
  · simp [libfsntfs_attribute_get_data_vcn_range]

/-- C29 on the facade bound to the list entry named "$SDS": no data runs, and
the run at index 0 cannot be retrieved. -/
theorem list_entry_run_accessors_agree_witness :
    (libfsntfs_attribute_get_number_of_data_runs sample_collaborators
        (some (sample_list_entry_attribute sample_attribute_list_entry)) true).out = some 0
    ∧ (libfsntfs_attribute_get_data_run_by_index sample_collaborators
        (some (sample_list_entry_attribute sample_attribute_list_entry)) 0 true).result = -1 :=
  ⟨congrArg (fun call => call.out)
      (list_entry_run_accessors_agree sample_collaborators (fun _ _ => rfl)
        (some sample_attribute_list_entry) 0 none none 0 true).1,
    congrArg (fun call => call.result)
      (list_entry_run_accessors_agree sample_collaborators (fun _ _ => rfl)
        (some sample_attribute_list_entry) 0 none none 0 true).2.1⟩

/-- C26, counterexample: in a build with multi-thread support in which the
release of the read/write lock fails, libfsntfs_internal_attribute_free on a
present slot returns -1 although the release of the MFT attribute and the
deleter of the cached value both return 1. -/
theorem internal_attribute_free_lock_counterexample :
    (libfsntfs_internal_attribute_free sample_collaborators
        sample_release_services_failing_lock (some (some sample_cached_attribute))).result = -1
    ∧ sample_release_services_failing_lock.libfsntfs_mft_attribute_free
        (sample_mft_attribute LIBFSNTFS_ATTRIBUTE_TYPE_VOLUME_NAME none) = 1
    ∧ (sample_collaborators.values_free .volume_name_values
        ⟨.volume_name_values, [0x4b, 0x00, 0x57, 0x00]⟩).2 = 1
    ∧ (libfsntfs_internal_attribute_free sample_collaborators
        sample_release_services_failing_lock
        (some (some sample_cached_attribute))).out.internal_attribute = some none :=
  ⟨rfl, rfl, rfl, rfl⟩

/-- C26, amended: on a slot holding a facade, libfsntfs_internal_attribute_free
hands the bound MFT attribute, when one is bound, to
libfsntfs_mft_attribute_free, hands the cached value, when one is cached and a
deleter is registered, to that deleter, frees the facade and leaves the slot
empty in every case; it returns -1 exactly when one of the releases fails (of
the read/write lock, of the MFT attribute or of the cached value) and 1
otherwise. On an empty slot it returns 1 and releases nothing; with the address
of the slot absent it returns -1 with the error "invalid value" and releases
nothing. -/
theorem internal_attribute_free_releases {V W H S C K : Type} (E : collaborators V W H S C K)
    (services : release_services) (a : libfsntfs_internal_attribute V) :
    (libfsntfs_internal_attribute_free E services (some (some a))).out.internal_attribute
      = some none
    ∧ (∀ mft_attribute, a.mft_attribute = some mft_attribute →
      release_call.free_mft_attribute mft_attribute
        ∈ (libfsntfs_internal_attribute_free E services (some (some a))).out.released)
    ∧ (∀ value free_value, a.value = some value → a.free_value = some free_value →
      release_call.free_value free_value value
        ∈ (libfsntfs_internal_attribute_free E services (some (some a))).out.released)
    ∧ release_call.memory_free a
        ∈ (libfsntfs_internal_attribute_free E services (some (some a))).out.released
    ∧ ((libfsntfs_internal_attribute_free E services (some (some a))).result = -1
      ↔ (services.read_write_lock_free_ok = false
        ∨ (∃ mft_attribute, a.mft_attribute = some mft_attribute
          ∧ services.libfsntfs_mft_attribute_free mft_attribute ≠ 1)
        ∨ (∃ value free_value, a.value = some value ∧ a.free_value = some free_value
          ∧ (E.values_free free_value value).2 ≠ 1)))
    ∧ ((libfsntfs_internal_attribute_free E services (some (some a))).result = 1
      ∨ (libfsntfs_internal_attribute_free E services (some (some a))).result = -1)
    ∧ libfsntfs_internal_attribute_free E services (some none) = ⟨1, none, ⟨some none, [], []⟩⟩
    ∧ (libfsntfs_internal_attribute_free E services none).result = -1
    ∧ ((libfsntfs_internal_attribute_free E services none).error.map fun e => e.code)
      = some .LIBCERROR_ARGUMENT_ERROR_INVALID_VALUE
    ∧ (libfsntfs_internal_attribute_free E services none).out.internal_attribute = none
    ∧ (libfsntfs_internal_attribute_free E services none).out.released = [] := by
  obtain ⟨mft_attribute, attribute_list_entry, file_reference, value, free_value⟩ := a
  refine ⟨rfl, ?_, ?_, ?_, ?_, ?_, rfl, rfl, rfl, rfl, rfl⟩
  · intro m hm
    simp only at hm
    subst hm
    simp [libfsntfs_internal_attribute_free]
  · intro v k hv hk
    simp only at hv hk
    subst hv hk
    simp [libfsntfs_internal_attribute_free]
  · simp [libfsntfs_internal_attribute_free]
  · cases hlock : services.read_write_lock_free_ok <;> cases mft_attribute <;>
      cases value <;> cases free_value <;>
      simp only [libfsntfs_internal_attribute_free, hlock] <;>
      split_ifs <;> simp_all
  · cases hlock : services.read_write_lock_free_ok <;> cases mft_attribute <;>
      cases value <;> cases free_value <;>
      simp only [libfsntfs_internal_attribute_free, hlock] <;>
      split_ifs <;> simp_all

/-- C26, amended, on the facade with a cached volume name: the value is
released and the slot is emptied, and -1 is returned when the release of the
read/write lock fails. -/
theorem internal_attribute_free_releases_witness :
    (libfsntfs_internal_attribute_free sample_collaborators sample_release_services
        (some (some sample_cached_attribute))).out.internal_attribute = some none
    ∧ release_call.free_value .volume_name_values ⟨.volume_name_values, [0x4b, 0x00, 0x57, 0x00]⟩
      ∈ (libfsntfs_internal_attribute_free sample_collaborators sample_release_services
        (some (some sample_cached_attribute))).out.released
    ∧ (libfsntfs_internal_attribute_free sample_collaborators
        sample_release_services_failing_lock (some (some sample_cached_attribute))).result
      = -1 :=
  ⟨(internal_attribute_free_releases sample_collaborators sample_release_services
      sample_cached_attribute).1,
    (internal_attribute_free_releases sample_collaborators sample_release_services
      sample_cached_attribute).2.2.1 _ _ rfl rfl,
    (internal_attribute_free_releases sample_collaborators
      sample_release_services_failing_lock sample_cached_attribute).2.2.2.2.1.mpr
      (Or.inl rfl)⟩

section deleter_invariant

variable {V W H S C K : Type}

/-- A facade without a cached value has the invariant. -/
theorem value_has_deleter_of_none (a : libfsntfs_internal_attribute V) (h : a.value = none) :
    value_has_deleter a := by
  intro value hvalue
  rw [h] at hvalue
  cases hvalue

/-- The label `on_error` keeps the invariant. -/
theorem read_value_on_error_has_deleter (E : collaborators V W H S C K)
    (hkeep : deleters_keep_kind E) (a : libfsntfs_internal_attribute V)
    (h : value_has_deleter a) : value_has_deleter (read_value_on_error E a) := by
  unfold read_value_on_error
  cases hv : a.value with
  | none => simpa [hv] using h
  | some value =>
    cases hf : a.free_value with
    | none => simpa [hv, hf] using h
    | some free_value =>
      intro left hleft
      simp only [] at hleft ⊢
      rw [hkeep free_value value left hleft]

theorem read_value_resident_values_has_deleter (E : collaborators V W H S C K)
    (hkeep : deleters_keep_kind E) (a : libfsntfs_internal_attribute V) (kind : value_kind)
    (data : List Nat) (m1 m2 : String) (hvalue : a.value = none) :
    value_has_deleter (read_value_resident_values E a kind data m1 m2).out := by
  unfold read_value_resident_values
  simp only []
  split
  · exact read_value_on_error_has_deleter E hkeep _ (value_has_deleter_of_none _ hvalue)
  · split
    · intro value hv
      simp only [Option.some.injEq] at hv
      rw [← hv]
    · refine read_value_on_error_has_deleter E hkeep _ ?_
      intro value hv
      simp only [Option.some.injEq] at hv
      rw [← hv]

theorem read_value_resident_has_deleter (E : collaborators V W H S C K)
    (hkeep : deleters_keep_kind E) (a : libfsntfs_internal_attribute V) (attribute_type : Nat)
    (data : List Nat) (hvalue : a.value = none) :
    value_has_deleter (read_value_resident E a attribute_type data).out := by
  rcases read_value_resident_shape E a attribute_type data with
    ⟨kind, m1, m2, h⟩ | ⟨error, h⟩ | h
  · rw [h]
    exact read_value_resident_values_has_deleter E hkeep a kind data m1 m2 hvalue
  · rw [h]
    exact read_value_on_error_has_deleter E hkeep a (value_has_deleter_of_none a hvalue)
  · rw [h]
    exact value_has_deleter_of_none a hvalue

theorem read_value_non_resident_values_has_deleter (E : collaborators V W H S C K)
    (hkeep : deleters_keep_kind E) (a : libfsntfs_internal_attribute V) (kind : value_kind)
    (m1 : String) (hvalue : a.value = none) :
    value_has_deleter (read_value_non_resident_values E a kind m1).out := by
  unfold read_value_non_resident_values
  simp only []
  split
  · exact read_value_on_error_has_deleter E hkeep _ (value_has_deleter_of_none _ hvalue)
  · intro value hv
    simp only [Option.some.injEq] at hv
    rw [← hv]

theorem read_value_non_resident_switch_has_deleter (E : collaborators V W H S C K)
    (hkeep : deleters_keep_kind E) (a : libfsntfs_internal_attribute V) (attribute_type : Nat)
    (hvalue : a.value = none) :
    value_has_deleter (read_value_non_resident_switch E a attribute_type).out := by
  rcases read_value_non_resident_switch_shape E a attribute_type with
    ⟨kind, m1, h⟩ | ⟨error, h⟩ | h
  · rw [h]
    exact read_value_non_resident_values_has_deleter E hkeep a kind m1 hvalue
  · rw [h]
    exact read_value_on_error_has_deleter E hkeep a (value_has_deleter_of_none a hvalue)
  · rw [h]
    exact value_has_deleter_of_none a hvalue

/-- Storing a value of the kind of the deleter registered keeps the
invariant. -/
theorem with_value_has_deleter (a : libfsntfs_internal_attribute V) (kind : value_kind)
    (content : V) (h : a.free_value = some kind) :
    value_has_deleter { a with value := some ⟨kind, content⟩ } := by
  intro value hv
  simp only [Option.some.injEq] at hv
  rw [← hv]
  exact h

theorem read_value_non_resident_data_has_deleter (E : collaborators V W H S C K)
    (hkeep : deleters_keep_kind E) (a : libfsntfs_internal_attribute V)
    (value : attribute_value V) (attribute_type : Nat) (io_handle : H) (file_io_handle : W)
    (h : value_has_deleter a) (hkind : a.free_value = some value.kind) :
    ∃ after, (read_value_non_resident_data E a value attribute_type io_handle
        file_io_handle).out.internal_attribute = some after ∧ value_has_deleter after := by
  unfold read_value_non_resident_data read_value_fail
  simp only []
  repeat' split
  all_goals first
    | exact ⟨_, rfl, read_value_on_error_has_deleter E hkeep _ h⟩
    | exact ⟨_, rfl, read_value_on_error_has_deleter E hkeep _
        (with_value_has_deleter a value.kind _ hkind)⟩
    | exact ⟨_, rfl, with_value_has_deleter a value.kind _ hkind⟩

theorem read_value_non_resident_has_deleter (E : collaborators V W H S C K)
    (hkeep : deleters_keep_kind E) (a : libfsntfs_internal_attribute V) (attribute_type : Nat)
    (io_handle : H) (file_io_handle : W) (flags : Nat) (hvalue : a.value = none) :
    ∃ after, (read_value_non_resident E a attribute_type io_handle file_io_handle
        flags).out.internal_attribute = some after ∧ value_has_deleter after := by
  have hs := read_value_non_resident_switch_has_deleter E hkeep a attribute_type hvalue
  unfold read_value_non_resident
  simp only []
  split
  · exact ⟨_, rfl, hs⟩
  · split
    · rename_i value hsome
      split
      · exact read_value_non_resident_data_has_deleter E hkeep _ value attribute_type
          io_handle file_io_handle hs (hs value hsome)
      · exact ⟨_, rfl, hs⟩
    · exact ⟨_, rfl, hs⟩

/-- A call of `libfsntfs_attribute_read_value` keeps the invariant. -/
theorem read_value_has_deleter (E : collaborators V W H S C K)
    (hkeep : deleters_keep_kind E) (a : libfsntfs_internal_attribute V) (io_handle : H)
    (file_io_handle : W) (flags : Nat) (h : value_has_deleter a) :
    ∃ after, (libfsntfs_attribute_read_value E (some a) io_handle file_io_handle
        flags).out.internal_attribute = some after ∧ value_has_deleter after := by
  cases hvalue : a.value with
  | some value =>
    rw [read_value_of_cached E a io_handle file_io_handle flags (by rw [hvalue]; rfl)]
    exact ⟨a, rfl, h⟩
  | none =>
    rcases get_type_cases E a true with ⟨attribute_type, htype⟩ | htype
    · rcases get_data_cases E a with ⟨data, hdata⟩ | hdata
      · cases data with
        | some resident_data =>
          rw [read_value_of_resident E a io_handle file_io_handle flags attribute_type
            resident_data hvalue htype hdata]
          exact ⟨_, rfl,
            read_value_resident_has_deleter E hkeep a attribute_type resident_data hvalue⟩
        | none =>
          rw [read_value_of_non_resident E a io_handle file_io_handle flags attribute_type
            hvalue htype hdata]
          exact read_value_non_resident_has_deleter E hkeep a attribute_type io_handle
            file_io_handle flags hvalue
      · rw [read_value_of_data_failed E a io_handle file_io_handle flags hvalue
          (by rw [htype]) (by rw [hdata]; simp)]
        exact ⟨a, rfl, h⟩
    · rw [read_value_of_type_failed E a io_handle file_io_handle flags hvalue
        (by rw [htype]; simp)]
      exact ⟨a, rfl, h⟩

theorem perform_operation_has_deleter (E : collaborators V W H S C K)
    (hkeep : deleters_keep_kind E) (operation : facade_operation H)
    (a : libfsntfs_internal_attribute V) (file_io_handle : W) (h : value_has_deleter a) :
    value_has_deleter (perform_operation E operation a file_io_handle).2.1 := by
  cases operation
  case read_value io_handle flags =>
    obtain ⟨after, h1, h2⟩ := read_value_has_deleter E hkeep a io_handle file_io_handle flags h
    simp only [perform_operation, h1, Option.getD_some]
    exact h2
  all_goals exact h

theorem perform_operations_has_deleter (E : collaborators V W H S C K)
    (hkeep : deleters_keep_kind E) (operations : List (facade_operation H))
    (a : libfsntfs_internal_attribute V) (file_io_handle : W) (h : value_has_deleter a) :
    value_has_deleter (perform_operations E operations a file_io_handle).1 := by
  induction operations generalizing a file_io_handle with
  | nil => exact h
  | cons operation rest ih =>
    simp only [perform_operations]
    exact ih _ _ (perform_operation_has_deleter E hkeep operation a file_io_handle h)

/-- The deleters that release what they are given keep their kind. -/
theorem deleters_keep_kind_of_release (E : collaborators V W H S C K)
    (hfree : deleters_release E) : deleters_keep_kind E := by
  intro kind value left hleft
  rw [hfree kind value] at hleft
  cases hleft

end deleter_invariant

/-- C27: the deleters leaving in a slot nothing or a container of their own
kind, in every state of a facade that arises from a successful
libfsntfs_attribute_initialize by calls of libfsntfs_attribute_read_value (and
of the accessors), a cached value is present only together with a registered
deleter, which is the one of the kind of the value; hence
libfsntfs_internal_attribute_free on a slot holding the facade hands the
cached value to that deleter. -/
theorem reachable_value_has_deleter {V W H S C K : Type} (E : collaborators V W H S C K)
    (hkeep : deleters_keep_kind E) (a : libfsntfs_internal_attribute V)
    (hreach : facade_reachable E a) (services : release_services) :
    (∀ value, a.value = some value → a.free_value = some value.kind)
    ∧ (∀ value, a.value = some value →
      release_call.free_value value.kind value
        ∈ (libfsntfs_internal_attribute_free E services (some (some a))).out.released) := by
  obtain ⟨sys, slot, m, e, initial, operations, w0, hok, hout, hops⟩ := hreach
  have hinit := initialize_value_none sys slot m e initial hok hout
  have hinvariant := perform_operations_has_deleter E hkeep operations initial w0
    (value_has_deleter_of_none initial hinit)
  rw [hops] at hinvariant
  refine ⟨hinvariant, ?_⟩
  intro value hvalue
  have hdeleter := hinvariant value hvalue
  simp [libfsntfs_internal_attribute_free, hvalue, hdeleter]

/-- The facade with a cached volume name arises from
`libfsntfs_attribute_initialize` by one call of
`libfsntfs_attribute_read_value`. -/
theorem sample_read_attribute_reachable :
    facade_reachable sample_collaborators
      (⟨some (sample_mft_attribute LIBFSNTFS_ATTRIBUTE_TYPE_VOLUME_NAME none), none, 0,
        some ⟨.volume_name_values, [0, 0, 0, 0]⟩, some .volume_name_values⟩ :
        libfsntfs_internal_attribute (List Nat)) :=
  ⟨⟨true, true, true⟩, some none,
    some (sample_mft_attribute LIBFSNTFS_ATTRIBUTE_TYPE_VOLUME_NAME none), none,
    ⟨some (sample_mft_attribute LIBFSNTFS_ATTRIBUTE_TYPE_VOLUME_NAME none), none, 0, none, none⟩,
    [.read_value () 0], (0 : Nat), rfl, rfl, rfl⟩

/-- C27 on the facade that one read of a resident volume name leaves: its
cached value has the deleter of the volume name values. -/
theorem reachable_value_has_deleter_witness :
    (⟨some (sample_mft_attribute LIBFSNTFS_ATTRIBUTE_TYPE_VOLUME_NAME none), none, 0,
        some ⟨.volume_name_values, [0, 0, 0, 0]⟩, some .volume_name_values⟩ :
        libfsntfs_internal_attribute (List Nat)).free_value
      = some .volume_name_values :=
  (reachable_value_has_deleter sample_collaborators
    (deleters_keep_kind_of_release sample_collaborators (fun _ _ => rfl)) _
    sample_read_attribute_reachable sample_release_services).1
    ⟨.volume_name_values, [0, 0, 0, 0]⟩ rfl

section bitmap_blocks_lemmas

variable {V W H S C K : Type}

theorem cluster_block_calls_zero (first : Int) : cluster_block_calls first 0 = [] := rfl

theorem cluster_block_calls_succ (first : Int) (count : Nat) :
    cluster_block_calls first (count + 1)
      = .get_cluster_block first :: cluster_block_calls (first + 1) count := by
  unfold cluster_block_calls
  rw [List.range_succ_eq_map, List.map_cons, List.map_map]
  congr 1
  · simp
  · apply List.map_congr_left
    intro offset _
    simp only [Function.comp_apply, Nat.cast_succ]
    congr 1
    ring

/-- The loop over the cluster blocks of a bitmap: when every block is handed
out with data and the parser accepts each, it ends with the value the parser
gives for the blocks in order, after one call for each index; otherwise it
fails at the first block that is not, after the calls up to that block. -/
theorem read_value_cluster_blocks_of_bitmap (E : collaborators V W H S C K)
    (cluster_block_vector : C) :
    ∀ (remaining : Nat) (cluster_block_index : Int) (state : cluster_blocks_state V W K),
      (∀ datas values,
        (cluster_block_data_in_order E cluster_block_vector remaining cluster_block_index
          state.file_io_handle state.cluster_block_cache).1 = some datas →
        bitmap_values_of_blocks E state.values datas = some values →
        read_value_cluster_blocks E cluster_block_vector LIBFSNTFS_ATTRIBUTE_TYPE_BITMAP
            remaining cluster_block_index state
          = ⟨1, none, ⟨values,
              (cluster_block_data_in_order E cluster_block_vector remaining
                cluster_block_index state.file_io_handle state.cluster_block_cache).2.1,
              (cluster_block_data_in_order E cluster_block_vector remaining
                cluster_block_index state.file_io_handle state.cluster_block_cache).2.2,
              state.events ++ cluster_block_calls cluster_block_index remaining⟩⟩)
      ∧ (((cluster_block_data_in_order E cluster_block_vector remaining cluster_block_index
            state.file_io_handle state.cluster_block_cache).1 = none
          ∨ ∃ datas,
            (cluster_block_data_in_order E cluster_block_vector remaining cluster_block_index
              state.file_io_handle state.cluster_block_cache).1 = some datas
            ∧ bitmap_values_of_blocks E state.values datas = none) →
        (read_value_cluster_blocks E cluster_block_vector LIBFSNTFS_ATTRIBUTE_TYPE_BITMAP
            remaining cluster_block_index state).result = -1
        ∧ ∃ fetched, fetched < remaining
          ∧ (read_value_cluster_blocks E cluster_block_vector LIBFSNTFS_ATTRIBUTE_TYPE_BITMAP
              remaining cluster_block_index state).out.events
            = state.events ++ cluster_block_calls cluster_block_index (fetched + 1)) := by
  intro remaining
  induction remaining with
  | zero =>
    intro cluster_block_index state
    constructor
    · intro datas values hdatas hvalues
      simp only [cluster_block_data_in_order, Option.some.injEq] at hdatas
      subst hdatas
      simp only [bitmap_values_of_blocks, Option.some.injEq] at hvalues
      subst hvalues
      simp [read_value_cluster_blocks, cluster_block_data_in_order, cluster_block_calls]
    · rintro (h | ⟨datas, hdatas, hvalues⟩)
      · simp [cluster_block_data_in_order] at h
      · simp only [cluster_block_data_in_order, Option.some.injEq] at hdatas
        subst hdatas
        simp [bitmap_values_of_blocks] at hvalues
  | succ n ih =>
    intro cluster_block_index state
    simp only [read_value_cluster_blocks, cluster_block_data_in_order]
    generalize E.libfdata_vector_get_element_value_by_index cluster_block_vector
      state.file_io_handle state.cluster_block_cache cluster_block_index = element
    obtain ⟨⟨block, file_io_handle⟩, cluster_block_cache⟩ := element
    have hone : cluster_block_calls cluster_block_index (0 + 1)
        = [.get_cluster_block cluster_block_index] := by
      rw [cluster_block_calls_succ, cluster_block_calls_zero]
    rcases block with _ | _ | cluster_block
    · simp only []
      constructor
      · intro datas values hdatas
        cases hdatas
      · intro _
        exact ⟨trivial, 0, Nat.succ_pos n, by rw [hone]⟩
    · simp only []
      constructor
      · intro datas values hdatas
        cases hdatas
      · intro _
        exact ⟨trivial, 0, Nat.succ_pos n, by rw [hone]⟩
    · simp only []
      cases hdata : cluster_block.data with
      | none =>
        simp only []
        constructor
        · intro datas values hdatas
          cases hdatas
        · intro _
          exact ⟨trivial, 0, Nat.succ_pos n, by rw [hone]⟩
      | some data =>
        simp only [if_true]
        obtain ⟨hgood, hbad⟩ := ih (cluster_block_index + 1)
          ⟨(E.values_read_data .bitmap_values state.values data).1, file_io_handle,
            cluster_block_cache, state.events ++ [.get_cluster_block cluster_block_index]⟩
        by_cases hread : (E.values_read_data .bitmap_values state.values data).2 = true
        · rw [if_pos hread]
          constructor
          · intro datas values hdatas hvalues
            obtain ⟨later, hlater, hcons⟩ := Option.map_eq_some'.mp hdatas
            subst hcons
            simp only [bitmap_values_of_blocks, hread, if_true] at hvalues
            rw [hgood later values hlater hvalues, cluster_block_calls_succ]
            simp
          · rintro (hnone | ⟨datas, hdatas, hvalues⟩)
            · obtain ⟨hresult, fetched, hfetched, hevents⟩ :=
                hbad (Or.inl (Option.map_eq_none'.mp hnone))
              refine ⟨hresult, fetched + 1, by omega, ?_⟩
              rw [hevents, cluster_block_calls_succ cluster_block_index (fetched + 1)]
              simp
            · obtain ⟨later, hlater, hcons⟩ := Option.map_eq_some'.mp hdatas
              subst hcons
              simp only [bitmap_values_of_blocks, hread, if_true] at hvalues
              obtain ⟨hresult, fetched, hfetched, hevents⟩ :=
                hbad (Or.inr ⟨later, hlater, hvalues⟩)
              refine ⟨hresult, fetched + 1, by omega, ?_⟩
              rw [hevents, cluster_block_calls_succ cluster_block_index (fetched + 1)]
              simp
        · rw [if_neg hread]
          constructor
          · intro datas values hdatas hvalues
            obtain ⟨later, hlater, hcons⟩ := Option.map_eq_some'.mp hdatas
            subst hcons
            simp [bitmap_values_of_blocks, hread] at hvalues
          · intro _
            exact ⟨rfl, 0, Nat.succ_pos n, by rw [hone]⟩

/-- The loop over the cluster blocks of a bitmap stops at the first block that
cannot be retrieved, is missing, has no data or is rejected by the parser: the
blocks before it were all accepted, and the last call made is the one for that
block. -/
theorem read_value_cluster_blocks_fails_at_first (E : collaborators V W H S C K)
    (cluster_block_vector : C) :
    ∀ (remaining : Nat) (cluster_block_index : Int) (state : cluster_blocks_state V W K),
      cluster_blocks_refused E cluster_block_vector remaining cluster_block_index
        state.values state.file_io_handle state.cluster_block_cache →
      (read_value_cluster_blocks E cluster_block_vector LIBFSNTFS_ATTRIBUTE_TYPE_BITMAP
          remaining cluster_block_index state).result = -1
      ∧ ∃ fetched, fetched < remaining
        ∧ cluster_blocks_accepted E cluster_block_vector fetched cluster_block_index
          state.values state.file_io_handle state.cluster_block_cache
        ∧ cluster_blocks_refused E cluster_block_vector (fetched + 1) cluster_block_index
          state.values state.file_io_handle state.cluster_block_cache
        ∧ (read_value_cluster_blocks E cluster_block_vector LIBFSNTFS_ATTRIBUTE_TYPE_BITMAP
            remaining cluster_block_index state).out.events
          = state.events ++ cluster_block_calls cluster_block_index (fetched + 1)
        ∧ (read_value_cluster_blocks E cluster_block_vector LIBFSNTFS_ATTRIBUTE_TYPE_BITMAP
            remaining cluster_block_index state).out.file_io_handle
          = (cluster_block_data_in_order E cluster_block_vector (fetched + 1)
              cluster_block_index state.file_io_handle state.cluster_block_cache).2.1 := by
  intro remaining
  induction remaining with
  | zero =>
    intro cluster_block_index state hrefused
    exfalso
    rcases hrefused with h | ⟨datas, hdatas, hvalues⟩
    · simp [cluster_block_data_in_order] at h
    · simp only [cluster_block_data_in_order, Option.some.injEq] at hdatas
      subst hdatas
      simp [bitmap_values_of_blocks] at hvalues
  | succ n ih =>
    intro cluster_block_index state hrefused
    have hone : cluster_block_calls cluster_block_index (0 + 1)
        = [.get_cluster_block cluster_block_index] := by
      rw [cluster_block_calls_succ, cluster_block_calls_zero]
    have hnone : cluster_blocks_accepted E cluster_block_vector 0 cluster_block_index
        state.values state.file_io_handle state.cluster_block_cache :=
      ⟨[], state.values, rfl, rfl⟩
    rcases helement : E.libfdata_vector_get_element_value_by_index cluster_block_vector
      state.file_io_handle state.cluster_block_cache cluster_block_index with
      ⟨⟨block, file_io_handle⟩, cluster_block_cache⟩
    rcases block with _ | _ | cluster_block
    · refine ⟨by simp [read_value_cluster_blocks, helement], 0, Nat.succ_pos n, hnone,
        Or.inl (by simp [cluster_block_data_in_order, helement]),
        by simp [read_value_cluster_blocks, helement, hone],
        by simp [read_value_cluster_blocks, cluster_block_data_in_order, helement]⟩
    · refine ⟨by simp [read_value_cluster_blocks, helement], 0, Nat.succ_pos n, hnone,
        Or.inl (by simp [cluster_block_data_in_order, helement]),
        by simp [read_value_cluster_blocks, helement, hone],
        by simp [read_value_cluster_blocks, cluster_block_data_in_order, helement]⟩
    · cases hdata : cluster_block.data with
      | none =>
        refine ⟨by simp [read_value_cluster_blocks, helement, hdata], 0, Nat.succ_pos n, hnone,
          Or.inl (by simp [cluster_block_data_in_order, helement, hdata]),
          by simp [read_value_cluster_blocks, helement, hdata, hone],
          by simp [read_value_cluster_blocks, cluster_block_data_in_order, helement, hdata]⟩
      | some data =>
        have hstep : ∀ count, cluster_block_data_in_order E cluster_block_vector (count + 1)
            cluster_block_index state.file_io_handle state.cluster_block_cache
            = ((cluster_block_data_in_order E cluster_block_vector count
                (cluster_block_index + 1) file_io_handle cluster_block_cache).1.map
                  fun later => data :: later,
                (cluster_block_data_in_order E cluster_block_vector count
                  (cluster_block_index + 1) file_io_handle cluster_block_cache).2) := by
          intro count
          simp [cluster_block_data_in_order, helement, hdata]
        by_cases hread : (E.values_read_data .bitmap_values state.values data).2 = true
        · have hloop : read_value_cluster_blocks E cluster_block_vector
              LIBFSNTFS_ATTRIBUTE_TYPE_BITMAP (n + 1) cluster_block_index state
              = read_value_cluster_blocks E cluster_block_vector
                LIBFSNTFS_ATTRIBUTE_TYPE_BITMAP n (cluster_block_index + 1)
                ⟨(E.values_read_data .bitmap_values state.values data).1, file_io_handle,
                  cluster_block_cache,
                  state.events ++ [.get_cluster_block cluster_block_index]⟩ := by
            simp [read_value_cluster_blocks, helement, hdata, hread]
          have hlater : cluster_blocks_refused E cluster_block_vector n
              (cluster_block_index + 1)
              (E.values_read_data .bitmap_values state.values data).1 file_io_handle
              cluster_block_cache := by
            rcases hrefused with h | ⟨datas, hdatas, hvalues⟩
            · rw [hstep n] at h
              exact Or.inl (Option.map_eq_none'.mp h)
            · rw [hstep n] at hdatas
              obtain ⟨later, hl, hcons⟩ := Option.map_eq_some'.mp hdatas
              subst hcons
              simp only [bitmap_values_of_blocks, hread, if_true] at hvalues
              exact Or.inr ⟨later, hl, hvalues⟩
          obtain ⟨hresult, fetched, hfetched, haccepted, hrejected, hevents, hhandle⟩ :=
            ih (cluster_block_index + 1)
              ⟨(E.values_read_data .bitmap_values state.values data).1, file_io_handle,
                cluster_block_cache, state.events ++ [.get_cluster_block cluster_block_index]⟩
              hlater
          rw [hloop]
          refine ⟨hresult, fetched + 1, by omega, ?_, ?_, ?_, ?_⟩
          · obtain ⟨datas, parsed, hd, hp⟩ := haccepted
            refine ⟨data :: datas, parsed, ?_, ?_⟩
            · rw [hstep fetched]
              simp only [] at hd
              rw [hd]
              rfl
            · simp only [bitmap_values_of_blocks, hread, if_true]
              exact hp
          · rcases hrejected with h | ⟨datas, hd, hp⟩
            · refine Or.inl ?_
              rw [hstep (fetched + 1)]
              simp only [] at h
              rw [h]
              rfl
            · refine Or.inr ⟨data :: datas, ?_, ?_⟩
              · rw [hstep (fetched + 1)]
                simp only [] at hd
                rw [hd]
                rfl
              · simp only [bitmap_values_of_blocks, hread, if_true]
                exact hp
          · rw [hevents, cluster_block_calls_succ cluster_block_index (fetched + 1)]
            simp
          · rw [hhandle, hstep (fetched + 1)]
        · refine ⟨by simp [read_value_cluster_blocks, helement, hdata, hread], 0,
            Nat.succ_pos n, hnone, Or.inr ⟨[data], ?_, ?_⟩,
            by simp [read_value_cluster_blocks, helement, hdata, hread, hone], ?_⟩
          · rw [hstep 0]
            rfl
          · simp [bitmap_values_of_blocks, hread]
          · rw [hstep 0]
            simp [read_value_cluster_blocks, cluster_block_data_in_order, helement, hdata,
              hread]

/-- The non-resident read of an uncompressed bitmap without MFT_ONLY, up to
the loop over the cluster blocks. -/
theorem read_value_non_resident_of_bitmap (E : collaborators V W H S C K)
    (a : libfsntfs_internal_attribute V) (io_handle : H) (file_io_handle : W) (flags : Nat)
    (data_flags : Nat) (empty : V) (cluster_block_vector : C) (cluster_block_cache : K)
    (number_of_cluster_blocks : Int)
    (hinit : E.values_initialize .bitmap_values = some empty)
    (hflags : flags &&& E.LIBFSNTFS_FILE_ENTRY_FLAGS_MFT_ONLY = 0)
    (hdata_flags : libfsntfs_internal_attribute_get_data_flags E (some a) true
      = ⟨1, none, some data_flags⟩)
    (huncompressed : data_flags &&& E.LIBFSNTFS_ATTRIBUTE_FLAG_COMPRESSION_MASK = 0)
    (hvector : E.libfsntfs_cluster_block_vector_initialize io_handle a.mft_attribute
      = some cluster_block_vector)
    (hcache : E.libfcache_cache_initialize 1 = some cluster_block_cache)
    (hnumber : E.libfdata_vector_get_number_of_elements cluster_block_vector
      = some number_of_cluster_blocks)
    (blocks : call_result (cluster_blocks_state V W K))
    (hblocks : read_value_cluster_blocks E cluster_block_vector LIBFSNTFS_ATTRIBUTE_TYPE_BITMAP
        number_of_cluster_blocks.toNat 0
        ⟨empty, file_io_handle, cluster_block_cache,
          [.initialize_cluster_block_vector, .initialize_cache]⟩ = blocks) :
    read_value_non_resident E a LIBFSNTFS_ATTRIBUTE_TYPE_BITMAP io_handle file_io_handle flags
      = if blocks.result ≠ 1 then
          ⟨-1, blocks.error,
            ⟨some (read_value_on_error E ⟨a.mft_attribute, a.attribute_list_entry,
              a.file_reference, some ⟨.bitmap_values, blocks.out.values⟩, some .bitmap_values⟩),
              blocks.out.file_io_handle, blocks.out.events⟩⟩
        else if !E.libfdata_vector_free cluster_block_vector then
          read_value_fail E .LIBCERROR_RUNTIME_ERROR_FINALIZE_FAILED
            "%s: unable to free cluster block vector."
            ⟨a.mft_attribute, a.attribute_list_entry, a.file_reference,
              some ⟨.bitmap_values, blocks.out.values⟩, some .bitmap_values⟩
            blocks.out.file_io_handle blocks.out.events
        else if !E.libfcache_cache_free blocks.out.cluster_block_cache then
          read_value_fail E .LIBCERROR_RUNTIME_ERROR_FINALIZE_FAILED
            "%s: unable to free cluster block cache."
            ⟨a.mft_attribute, a.attribute_list_entry, a.file_reference,
              some ⟨.bitmap_values, blocks.out.values⟩, some .bitmap_values⟩
            blocks.out.file_io_handle blocks.out.events
        else
          ⟨1, none, ⟨some ⟨a.mft_attribute, a.attribute_list_entry, a.file_reference,
            some ⟨.bitmap_values, blocks.out.values⟩, some .bitmap_values⟩,
            blocks.out.file_io_handle, blocks.out.events⟩⟩ := by
  have hswitch := (read_value_non_resident_switch_of_kind E a LIBFSNTFS_ATTRIBUTE_TYPE_BITMAP
    .bitmap_values (by decide)).1 empty hinit
  have hsame : same_bindings a (⟨a.mft_attribute, a.attribute_list_entry, a.file_reference,
      some ⟨.bitmap_values, empty⟩, some .bitmap_values⟩ : libfsntfs_internal_attribute V) :=
    ⟨rfl, rfl, rfl⟩
  have hcall := (get_data_flags_of_same_bindings E hsame true).trans hdata_flags
  have hne : ¬ (LIBFSNTFS_ATTRIBUTE_TYPE_BITMAP
      = LIBFSNTFS_ATTRIBUTE_TYPE_SECURITY_DESCRIPTOR) := by decide
  have hclear : ¬ (data_flags &&& E.LIBFSNTFS_ATTRIBUTE_FLAG_COMPRESSION_MASK ≠ 0) :=
    not_not.mpr huncompressed
  simp only [read_value_non_resident, hswitch, if_pos hflags, read_value_non_resident_data,
    hcall, Option.getD_some, if_neg hclear, if_neg hne, hvector, hcache, hnumber, hblocks]
  rfl

end bitmap_blocks_lemmas

/-- C25: for a facade with no cached value whose attribute is a non-resident
BITMAP with no bit of the compression mask in its data flags, read without
MFT_ONLY (the container, the cluster-block vector and the cache being created
and the number of blocks retrieved), libfsntfs_attribute_read_value asks the
vector for the cluster blocks 0, 1, ..., N-1, each once and in this order, and
feeds the data of each to the bitmap parser, in this order. When every block is
handed out with data and the parser accepts each, and vector and cache are
freed, it returns 1 and the cached bitmap value is what the parser gives for
the data of the blocks in order. When a block cannot be retrieved, is missing,
has no data or is rejected by the parser, it returns -1 at the first such
block: the blocks before it were all handed out and accepted, the call for
that block is the last call made and the device is as that call left it; and,
the deleters releasing what they are given, the facade has no cached value and
its bindings are unchanged. -/
theorem read_value_bitmap_blocks_in_order {V W H S C K : Type}
    (E : collaborators V W H S C K) (a : libfsntfs_internal_attribute V) (io_handle : H)
    (file_io_handle : W) (flags : Nat) (data_flags : Nat) (empty : V)
    (cluster_block_vector : C) (cluster_block_cache : K) (number_of_cluster_blocks : Int)
    (hvalue : a.value = none)
    (htype : libfsntfs_internal_attribute_get_type E (some a) true
      = ⟨1, none, some LIBFSNTFS_ATTRIBUTE_TYPE_BITMAP⟩)
    (hdata : libfsntfs_internal_attribute_get_data E (some a) true true
      = ⟨1, none, some none⟩)
    (hflags : flags &&& E.LIBFSNTFS_FILE_ENTRY_FLAGS_MFT_ONLY = 0)
    (hdata_flags : libfsntfs_internal_attribute_get_data_flags E (some a) true
      = ⟨1, none, some data_flags⟩)
    (huncompressed : data_flags &&& E.LIBFSNTFS_ATTRIBUTE_FLAG_COMPRESSION_MASK = 0)
    (hinit : E.values_initialize .bitmap_values = some empty)
    (hvector : E.libfsntfs_cluster_block_vector_initialize io_handle a.mft_attribute
      = some cluster_block_vector)
    (hcache : E.libfcache_cache_initialize 1 = some cluster_block_cache)
    (hnumber : E.libfdata_vector_get_number_of_elements cluster_block_vector
      = some number_of_cluster_blocks) :
    (∀ datas values,
      (cluster_block_data_in_order E cluster_block_vector number_of_cluster_blocks.toNat 0
        file_io_handle cluster_block_cache).1 = some datas →
      bitmap_values_of_blocks E empty datas = some values →
      E.libfdata_vector_free cluster_block_vector = true →
      E.libfcache_cache_free
        (cluster_block_data_in_order E cluster_block_vector number_of_cluster_blocks.toNat 0
          file_io_handle cluster_block_cache).2.2 = true →
      libfsntfs_attribute_read_value E (some a) io_handle file_io_handle flags
        = ⟨1, none, ⟨some ⟨a.mft_attribute, a.attribute_list_entry, a.file_reference,
            some ⟨.bitmap_values, values⟩, some .bitmap_values⟩,
            (cluster_block_data_in_order E cluster_block_vector
              number_of_cluster_blocks.toNat 0 file_io_handle cluster_block_cache).2.1,
            [.initialize_cluster_block_vector, .initialize_cache]
              ++ cluster_block_calls 0 number_of_cluster_blocks.toNat⟩⟩)
    ∧ (cluster_blocks_refused E cluster_block_vector number_of_cluster_blocks.toNat 0 empty
        file_io_handle cluster_block_cache →
      (libfsntfs_attribute_read_value E (some a) io_handle file_io_handle flags).result = -1
      ∧ (∃ fetched, fetched < number_of_cluster_blocks.toNat
        ∧ cluster_blocks_accepted E cluster_block_vector fetched 0 empty file_io_handle
          cluster_block_cache
        ∧ cluster_blocks_refused E cluster_block_vector (fetched + 1) 0 empty file_io_handle
          cluster_block_cache
        ∧ (libfsntfs_attribute_read_value E (some a) io_handle file_io_handle
            flags).out.events
          = [.initialize_cluster_block_vector, .initialize_cache]
            ++ cluster_block_calls 0 (fetched + 1)
        ∧ (libfsntfs_attribute_read_value E (some a) io_handle file_io_handle
            flags).out.file_io_handle
          = (cluster_block_data_in_order E cluster_block_vector (fetched + 1) 0
              file_io_handle cluster_block_cache).2.1)
      ∧ (deleters_release E →
        ∃ after, (libfsntfs_attribute_read_value E (some a) io_handle file_io_handle
            flags).out.internal_attribute = some after
          ∧ after.value = none ∧ same_bindings a after)) := by
  obtain ⟨hgood, _⟩ := read_value_cluster_blocks_of_bitmap E cluster_block_vector
    number_of_cluster_blocks.toNat 0
    ⟨empty, file_io_handle, cluster_block_cache,
      [.initialize_cluster_block_vector, .initialize_cache]⟩
  have hbad := read_value_cluster_blocks_fails_at_first E cluster_block_vector
    number_of_cluster_blocks.toNat 0
    ⟨empty, file_io_handle, cluster_block_cache,
      [.initialize_cluster_block_vector, .initialize_cache]⟩
  rw [read_value_of_non_resident E a io_handle file_io_handle flags
    LIBFSNTFS_ATTRIBUTE_TYPE_BITMAP hvalue htype hdata,
    read_value_non_resident_of_bitmap E a io_handle file_io_handle flags data_flags empty
      cluster_block_vector cluster_block_cache number_of_cluster_blocks hinit hflags
      hdata_flags huncompressed hvector hcache hnumber _ rfl]
  constructor
  · intro datas values hdatas hvalues hvector_free hcache_free
    rw [hgood datas values hdatas hvalues]
    simp only [ne_eq, not_true_eq_false, if_false, hvector_free, hcache_free, Bool.not_true,
      Bool.false_eq_true]
  · intro hfailed
    obtain ⟨hresult, fetched, hfetched, haccepted, hrefused, hevents, hhandle⟩ := hbad hfailed
    rw [if_pos (by rw [hresult]; decide)]
    refine ⟨rfl, ⟨fetched, hfetched, haccepted, hrefused, hevents, hhandle⟩, ?_⟩
    intro hfree
    exact ⟨_, rfl, read_value_on_error_released E _ hfree (Or.inr rfl),
      same_bindings_trans ⟨rfl, rfl, rfl⟩ (read_value_on_error_same E _)⟩

/-- C25 on a non-resident bitmap of two cluster blocks, of the bytes 1, 2 and
of the byte 3: the blocks 0 and 1 are asked for in this order and the cached
bitmap value holds the bytes 1, 2, 3; and on a bitmap of three blocks of which
the second has no data: the call fails after the calls for the blocks 0 and
1, and the third block is not asked for. -/
theorem read_value_bitmap_blocks_in_order_witness :
    libfsntfs_attribute_read_value sample_collaborators_two_blocks
        (some (sample_attribute (sample_non_resident_mft_attribute 0xb0) 0)) () 7 0
      = ⟨1, none, ⟨some ⟨some (sample_non_resident_mft_attribute 0xb0), none, 0,
          some ⟨.bitmap_values, [1, 2, 3]⟩, some .bitmap_values⟩, 9,
          [.initialize_cluster_block_vector, .initialize_cache, .get_cluster_block 0,
            .get_cluster_block 1]⟩⟩
    ∧ (libfsntfs_attribute_read_value sample_collaborators_block_without_data
        (some (sample_attribute (sample_non_resident_mft_attribute 0xb0) 0)) () 7 0).result
      = -1
    ∧ (libfsntfs_attribute_read_value sample_collaborators_block_without_data
        (some (sample_attribute (sample_non_resident_mft_attribute 0xb0) 0)) () 7
          0).out.events
      = [.initialize_cluster_block_vector, .initialize_cache, .get_cluster_block 0,
          .get_cluster_block 1] :=
  ⟨(read_value_bitmap_blocks_in_order sample_collaborators_two_blocks
      (sample_attribute (sample_non_resident_mft_attribute 0xb0) 0) () 7 0 0 []
      [⟨some [1, 2]⟩, ⟨some [3]⟩] () 2 rfl rfl rfl rfl rfl rfl rfl rfl rfl rfl).1
      [[1, 2], [3]] [1, 2, 3] rfl rfl rfl rfl,
    ((read_value_bitmap_blocks_in_order sample_collaborators_block_without_data
      (sample_attribute (sample_non_resident_mft_attribute 0xb0) 0) () 7 0 0 []
      [⟨some [1, 2]⟩, ⟨none⟩, ⟨some [3]⟩] () 3 rfl rfl rfl rfl rfl rfl rfl rfl rfl rfl).2
      (Or.inl rfl)).1,
    rfl⟩

section residency

variable {V W H S C K : Type}

/-- A case of the resident switch never sets the error "unsupported value". -/
theorem read_value_resident_values_not_unsupported (E : collaborators V W H S C K)
    (a : libfsntfs_internal_attribute V) (kind : value_kind) (data : List Nat)
    (m1 m2 : String) (message : String) :
    (read_value_resident_values E a kind data m1 m2).error
      ≠ some ⟨.LIBCERROR_RUNTIME_ERROR_UNSUPPORTED_VALUE, message⟩ := by
  unfold read_value_resident_values
  simp only []
  split
  · simp
  · split <;> simp

/-- The resident switch never sets the error "unsupported value". -/
theorem read_value_resident_not_unsupported (E : collaborators V W H S C K)
    (a : libfsntfs_internal_attribute V) (attribute_type : Nat) (data : List Nat)
    (message : String) :
    (read_value_resident E a attribute_type data).error
      ≠ some ⟨.LIBCERROR_RUNTIME_ERROR_UNSUPPORTED_VALUE, message⟩ := by
  unfold read_value_resident
  conv => zeta
  by_cases h0 : attribute_type = LIBFSNTFS_ATTRIBUTE_TYPE_BITMAP
  · rw [if_pos h0]
    exact read_value_resident_values_not_unsupported E a _ data _ _ message
  rw [if_neg h0]
  by_cases h1 : attribute_type = LIBFSNTFS_ATTRIBUTE_TYPE_FILE_NAME
  · rw [if_pos h1]
    exact read_value_resident_values_not_unsupported E a _ data _ _ message
  rw [if_neg h1]
  by_cases h2 : attribute_type = LIBFSNTFS_ATTRIBUTE_TYPE_LOGGED_UTILITY_STREAM
  · rw [if_pos h2]
    by_cases hfail : (libfsntfs_internal_attribute_compare_name_with_utf8_string E (some a)
        TXF_DATA_utf8_string).result = -1
    · rw [if_pos hfail]
      simp
    rw [if_neg hfail]
    by_cases hequal : (libfsntfs_internal_attribute_compare_name_with_utf8_string E (some a)
        TXF_DATA_utf8_string).result ≠ 0
    · rw [if_pos hequal]
      exact read_value_resident_values_not_unsupported E a _ data _ _ message
    rw [if_neg hequal]
    exact read_value_resident_values_not_unsupported E a _ data _ _ message
  rw [if_neg h2]
  by_cases h3 : attribute_type = LIBFSNTFS_ATTRIBUTE_TYPE_OBJECT_IDENTIFIER
  · rw [if_pos h3]
    exact read_value_resident_values_not_unsupported E a _ data _ _ message
  rw [if_neg h3]
  by_cases h4 : attribute_type = LIBFSNTFS_ATTRIBUTE_TYPE_REPARSE_POINT
  · rw [if_pos h4]
    exact read_value_resident_values_not_unsupported E a _ data _ _ message
  rw [if_neg h4]
  by_cases h5 : attribute_type = LIBFSNTFS_ATTRIBUTE_TYPE_SECURITY_DESCRIPTOR
  · rw [if_pos h5]
    exact read_value_resident_values_not_unsupported E a _ data _ _ message
  rw [if_neg h5]
  by_cases h6 : attribute_type = LIBFSNTFS_ATTRIBUTE_TYPE_STANDARD_INFORMATION
  · rw [if_pos h6]
    exact read_value_resident_values_not_unsupported E a _ data _ _ message
  rw [if_neg h6]
  by_cases h7 : attribute_type = LIBFSNTFS_ATTRIBUTE_TYPE_VOLUME_INFORMATION
  · rw [if_pos h7]
    exact read_value_resident_values_not_unsupported E a _ data _ _ message
  rw [if_neg h7]
  by_cases h8 : attribute_type = LIBFSNTFS_ATTRIBUTE_TYPE_VOLUME_NAME
  · rw [if_pos h8]
    exact read_value_resident_values_not_unsupported E a _ data _ _ message
  rw [if_neg h8]
  simp

end residency

section residency_by_flag

variable {V W H S C K : Type}

/-- The loop over the cluster blocks calls no parser but that of the bitmap
values. -/
theorem read_value_cluster_blocks_parsers (E : collaborators V W H S C K)
    (parsers : value_kind → V → List Nat → V × Bool)
    (hbitmap : parsers .bitmap_values = E.values_read_data .bitmap_values)
    (cluster_block_vector : C) (attribute_type : Nat) :
    ∀ (remaining : Nat) (cluster_block_index : Int) (state : cluster_blocks_state V W K),
      read_value_cluster_blocks { E with values_read_data := parsers } cluster_block_vector
          attribute_type remaining cluster_block_index state
        = read_value_cluster_blocks E cluster_block_vector attribute_type remaining
          cluster_block_index state := by
  intro remaining
  induction remaining with
  | zero => intro _ _; rfl
  | succ n ih =>
    intro cluster_block_index state
    simp only [read_value_cluster_blocks, hbitmap, ih]

/-- The branch of the non-resident attributes calls no parser of a resident
type: it is the same whatever the parsers other than that of the bitmap values,
which is fed the cluster blocks, do. -/
theorem read_value_non_resident_parsers (E : collaborators V W H S C K)
    (parsers : value_kind → V → List Nat → V × Bool)
    (hbitmap : parsers .bitmap_values = E.values_read_data .bitmap_values)
    (a : libfsntfs_internal_attribute V) (attribute_type : Nat) (io_handle : H)
    (file_io_handle : W) (flags : Nat) :
    read_value_non_resident { E with values_read_data := parsers } a attribute_type io_handle
        file_io_handle flags
      = read_value_non_resident E a attribute_type io_handle file_io_handle flags := by
  simp only [read_value_non_resident, read_value_non_resident_data,
    read_value_cluster_blocks_parsers E parsers hbitmap]
  rfl

end residency_by_flag

/-- C30: the MFT attribute handing back its data as the spec describes (the
data slice of data_size bytes for a resident attribute, no slice for a
non-resident one), libfsntfs_attribute_read_value on a facade with no cached
value bound to an MFT attribute takes the resident path exactly when
non_resident_flag is clear. For a resident attribute, also one with the empty
payload (data_size 0), the outcome is that of the switch of the resident types
on the payload: the call is never rejected as "unsupported non-resident
attribute", and for each of the types BITMAP, FILE_NAME, OBJECT_IDENTIFIER,
REPARSE_POINT, SECURITY_DESCRIPTOR, STANDARD_INFORMATION, VOLUME_INFORMATION
and VOLUME_NAME the payload is parsed with the parser of the matching kind. For
a non-resident attribute the outcome is that of the branch of the non-resident
attributes, which is handed no payload and calls no parser of a resident type:
the call does the same whatever the parsers other than that of the bitmap
values, which is fed the cluster blocks, would do. -/
theorem read_value_resident_exactly_when_flag_clear {V W H S C K : Type}
    (E : collaborators V W H S C K) (hspecified : mft_attribute_get_data_as_specified E)
    (mft_attribute : libfsntfs_mft_attribute)
    (attribute_list_entry : Option libfsntfs_attribute_list_entry) (file_reference : Nat)
    (free_value : Option value_kind) (io_handle : H) (file_io_handle : W) (flags : Nat)
    (attribute_type : Nat)
    (htype : E.libfsntfs_mft_attribute_get_type mft_attribute true = some attribute_type) :
    (mft_attribute.non_resident_flag = 0 →
      ∃ resident_data : List Nat,
        resident_data.length = mft_attribute.data_size
        ∧ E.libfsntfs_mft_attribute_get_data mft_attribute true true
          = some (some resident_data)
        ∧ libfsntfs_attribute_read_value E
            (some ⟨some mft_attribute, attribute_list_entry, file_reference, none, free_value⟩)
            io_handle file_io_handle flags
          = ⟨(read_value_resident E
                ⟨some mft_attribute, attribute_list_entry, file_reference, none, free_value⟩
                attribute_type resident_data).result,
              (read_value_resident E
                ⟨some mft_attribute, attribute_list_entry, file_reference, none, free_value⟩
                attribute_type resident_data).error,
              ⟨some (read_value_resident E
                ⟨some mft_attribute, attribute_list_entry, file_reference, none, free_value⟩
                attribute_type resident_data).out, file_io_handle, []⟩⟩
        ∧ (libfsntfs_attribute_read_value E
            (some ⟨some mft_attribute, attribute_list_entry, file_reference, none, free_value⟩)
            io_handle file_io_handle flags).error
          ≠ some unsupported_non_resident_error
        ∧ ∀ kind, (attribute_type, kind) ∈ resident_value_kinds →
          read_value_parses_with E
            ⟨some mft_attribute, attribute_list_entry, file_reference, none, free_value⟩
            io_handle file_io_handle flags kind resident_data)
    ∧ (mft_attribute.non_resident_flag ≠ 0 →
      libfsntfs_attribute_read_value E
          (some ⟨some mft_attribute, attribute_list_entry, file_reference, none, free_value⟩)
          io_handle file_io_handle flags
        = read_value_non_resident E
          ⟨some mft_attribute, attribute_list_entry, file_reference, none, free_value⟩
          attribute_type io_handle file_io_handle flags
      ∧ ∀ parsers : value_kind → V → List Nat → V × Bool,
        parsers .bitmap_values = E.values_read_data .bitmap_values →
        libfsntfs_attribute_read_value { E with values_read_data := parsers }
            (some ⟨some mft_attribute, attribute_list_entry, file_reference, none, free_value⟩)
            io_handle file_io_handle flags
          = libfsntfs_attribute_read_value E
            (some ⟨some mft_attribute, attribute_list_entry, file_reference, none, free_value⟩)
            io_handle file_io_handle flags) := by
  have htype_call : ∀ E2 : collaborators V W H S C K,
      E2.libfsntfs_mft_attribute_get_type = E.libfsntfs_mft_attribute_get_type →
      libfsntfs_internal_attribute_get_type E2
          (some ⟨some mft_attribute, attribute_list_entry, file_reference, none, free_value⟩)
          true
        = ⟨1, none, some attribute_type⟩ := by
    intro E2 h2
    simp [libfsntfs_internal_attribute_get_type, h2, htype]
  have hdata_call : ∀ (E2 : collaborators V W H S C K) (data : Option (List Nat)),
      E2.libfsntfs_mft_attribute_get_data mft_attribute true true = some data →
      libfsntfs_internal_attribute_get_data E2
          (some ⟨some mft_attribute, attribute_list_entry, file_reference, none, free_value⟩)
          true true
        = ⟨1, none, some data⟩ := by
    intro E2 data h2
    simp [libfsntfs_internal_attribute_get_data, h2]
  constructor
  · intro hresident
    obtain ⟨resident_data, hlength, hget⟩ := (hspecified mft_attribute).1 hresident
    have hread := read_value_of_resident E _ io_handle file_io_handle flags attribute_type
      resident_data rfl (htype_call E rfl) (hdata_call E _ hget)
    refine ⟨resident_data, hlength, hget, hread, ?_, ?_⟩
    · rw [hread]
      exact read_value_resident_not_unsupported E _ attribute_type resident_data _
    · intro kind hkind
      obtain ⟨h1, h2, h3, h4⟩ := read_value_resident_of_kind E
        ⟨some mft_attribute, attribute_list_entry, file_reference, none, free_value⟩
        attribute_type kind resident_data hkind
      unfold read_value_parses_with
      rw [hread]
      refine ⟨h1, h3, ?_, ⟨_, rfl, h4⟩, rfl, rfl⟩
      intro hok
      obtain ⟨herr, hout⟩ := h2 hok
      simp only [] at hok
      rw [hok, herr, hout]
  · intro hnon_resident
    have hget := (hspecified mft_attribute).2 hnon_resident
    have hread := read_value_of_non_resident E _ io_handle file_io_handle flags attribute_type
      rfl (htype_call E rfl) (hdata_call E _ hget)
    refine ⟨hread, ?_⟩
    intro parsers hbitmap
    rw [hread, read_value_of_non_resident { E with values_read_data := parsers } _ io_handle
      file_io_handle flags attribute_type rfl (htype_call _ rfl) (hdata_call _ _ hget)]
    exact read_value_non_resident_parsers E parsers hbitmap _ attribute_type io_handle
      file_io_handle flags

/-- The sample collaborators hand back the data of an MFT attribute as the spec
describes. -/
theorem sample_get_data_as_specified :
    mft_attribute_get_data_as_specified sample_collaborators := by
  intro mft_attribute
  constructor
  · intro hresident
    refine ⟨List.replicate mft_attribute.data_size 0, List.length_replicate _ _, ?_⟩
    show (if mft_attribute.non_resident_flag = 0 then _ else _) = _
    rw [if_pos hresident]
  · intro hnon_resident
    show (if mft_attribute.non_resident_flag = 0 then _ else _) = _
    rw [if_neg hnon_resident]

/-- C30 on the resident volume name without a label (data_size 0): the empty
payload is handed to the parser of the volume name and the call returns 1. -/
theorem read_value_resident_exactly_when_flag_clear_witness :
    (libfsntfs_attribute_read_value sample_collaborators
        (some ⟨some sample_empty_volume_name_mft_attribute, none, 0, none, none⟩) () 7
        0).result = 1 := by
  obtain ⟨resident_data, hlength, _, _, _, hparses⟩ :=
    (read_value_resident_exactly_when_flag_clear sample_collaborators
      sample_get_data_as_specified sample_empty_volume_name_mft_attribute none 0 none () 7 0
      0x60 rfl).1 rfl
  have hempty : resident_data = [] := List.length_eq_zero.mp hlength
  subst hempty
  exact (hparses .volume_name_values (by decide)).1.mpr rfl

end Libfsntfs
